import Mathlib

/-!
Verification development for the `os` tree

Shallow embedding of slices of the tree and theorems about them:

* `Hl`      : `kernel/hl/armv7/archintr.c` (interrupt acknowledgment, IPI lines),
* `Rtlw81`  : `drivers/net/wireless/rtlw81xx/rtlw81hw.c` (bulk-out transfer pool, send path,
  bulk-in completion, initialization status),
* `Libc`    : `apps/libc/dynamic/fileio.c` (`read`, `pread`, `lseek`, `fcntl`, `lockf`).

Conventions of the embedding.

* Pointers to heap objects become values carrying an address field where identity matters.
* Out-parameters become fields of the result record.
* Calls into code outside the tree (hardware modules, the USB core, the pool allocator) are
  parameters of the embedded routine; calls whose order matters are logged in a trace, oldest
  event first.
* `ASSERT` never changes control flow; the result of `HlpInterruptAcknowledge` records whether
  its asserted conditions held.
* A `while` loop whose termination is not structural takes a `fuel` argument bounding the
  number of loop iterations and yields `none` when the bound is hit.
-/

/-- Modelled from the spec: the kernel-wide status-code enumeration (`KSTATUS`) is declared in
a header outside this tree. The constructors are the codes the embedded routines name;
`STATUS_CODE n` stands for every other code, all of them failures. -/
inductive KSTATUS
  | STATUS_SUCCESS
  | STATUS_RESOURCE_IN_USE
  | STATUS_INSUFFICIENT_RESOURCES
  | STATUS_UNSUCCESSFUL
  | STATUS_INVALID_PARAMETER
  | STATUS_INVALID_HANDLE
  | STATUS_INVALID_CONFIGURATION
  | STATUS_ACCESS_DENIED
  | STATUS_TRY_AGAIN
  | STATUS_TIMEOUT
  | STATUS_END_OF_FILE
  | STATUS_NOT_SUPPORTED
  | STATUS_INTEGER_OVERFLOW
  | STATUS_CODE (n : Nat)
  deriving DecidableEq

/-- Modelled from the spec: the `KSUCCESS` macro of the absent status header; a status is a
success exactly when it is `STATUS_SUCCESS`. -/
def KSUCCESS (Status : KSTATUS) : Bool :=
  decide (Status = KSTATUS.STATUS_SUCCESS)

namespace Hl

/-- Modelled from the spec: `INTERRUPT_CAUSE` is declared in a header outside this tree; these
are the three causes `HlpInterruptAcknowledge` tests for. -/
inductive INTERRUPT_CAUSE
  | InterruptCauseNoInterruptHere
  | InterruptCauseLineFired
  | InterruptCauseSpuriousInterrupt
  deriving DecidableEq

/-- Modelled from the spec: `INTERRUPT_LINE_TYPE` is declared in a header outside this tree. -/
inductive INTERRUPT_LINE_TYPE
  | InterruptLineInvalid
  | InterruptLineGsi
  | InterruptLineControllerSpecified
  deriving DecidableEq

/-- An interrupt line: a controller identifier plus a per-controller line number, as written by
`HlpInterruptGetStandardCpuLine` (`Line->Type`, `Line->Controller`, `Line->Line`). -/
structure INTERRUPT_LINE where
  LineType : INTERRUPT_LINE_TYPE
  Controller : Nat
  Line : Int
  deriving DecidableEq

/-- What one call of a controller's `BeginInterrupt` leaves behind: the returned cause and the
contents of the `Line` and `MagicCandy` out-parameters after the call. -/
structure BEGIN_INTERRUPT_RESULT where
  Cause : INTERRUPT_CAUSE
  Line : INTERRUPT_LINE
  MagicCandy : Nat

/-- A registered interrupt controller. `Identifier` stands for its address. `BeginInterrupt`
is the hardware module's function-table entry: it reads and updates the hardware state `σ` and
receives the current contents of the two out-parameters. -/
structure INTERRUPT_CONTROLLER (σ : Type) where
  Identifier : Nat
  BeginInterrupt : σ → INTERRUPT_LINE → Nat → BEGIN_INTERRUPT_RESULT × σ

/-- The `PublicState` member of a line state. -/
structure INTERRUPT_LINE_STATE where
  Vector : Nat

/-- One element of `Lines->State`. -/
structure INTERRUPT_LINE_INTERNAL_STATE where
  PublicState : INTERRUPT_LINE_STATE

/-- A segment of interrupt lines; `State` is indexed by the offset of a line in the segment. -/
structure INTERRUPT_LINES where
  State : Nat → INTERRUPT_LINE_INTERNAL_STATE

/-- What `HlpInterruptFindLines(&Line, ProcessorController, &Lines, &Offset)` leaves behind: its
status, the two out-parameters, and the contents of `*ProcessorController` after the call. -/
structure FIND_LINES_RESULT where
  Status : KSTATUS
  Lines : INTERRUPT_LINES
  Offset : Nat
  ProcessorController : Option Nat

/-- Calls whose order the acknowledgment routine is specified to respect. -/
inductive HL_EVENT
  | BeginInterrupt (Controller : Nat)
  | FindLines (Line : INTERRUPT_LINE)
  | WriteVector (Vector : Nat)
  | SerializeExecution
  deriving DecidableEq

/-- Local variables of `HlpInterruptAcknowledge` that are live when the polling loop is left,
with the hardware state and the trace so far. `CurrentEntry` is the part of the controller list
from the current entry up to the list head; it is empty exactly when
`CurrentEntry == &HlInterruptControllers`. -/
structure POLL_EXIT (σ : Type) where
  CurrentEntry : List (INTERRUPT_CONTROLLER σ)
  Line : INTERRUPT_LINE
  MagicCandy : Nat
  Hardware : σ
  Trace : List HL_EVENT

/-- The `while (CurrentEntry != &HlInterruptControllers)` loop of `HlpInterruptAcknowledge`.
The body polls the controller at `CurrentEntry` and breaks when it reports a fired line; it
contains no assignment to `CurrentEntry`, so the next iteration runs on the same entry. -/
def pollControllers {σ : Type} :
    Nat → List (INTERRUPT_CONTROLLER σ) → INTERRUPT_LINE → Nat → σ → List HL_EVENT →
      Option (POLL_EXIT σ)
  | _, [], Line, MagicCandy, Hardware, Trace =>
      some ⟨[], Line, MagicCandy, Hardware, Trace⟩
  | 0, _ :: _, _, _, _, _ => none
  | fuel + 1, Controller :: Rest, Line, MagicCandy, Hardware, Trace =>
      let Begin := Controller.BeginInterrupt Hardware Line MagicCandy
      let Trace1 := Trace ++ [HL_EVENT.BeginInterrupt Controller.Identifier]
      if Begin.1.Cause = INTERRUPT_CAUSE.InterruptCauseLineFired then
        some ⟨Controller :: Rest, Begin.1.Line, Begin.1.MagicCandy, Begin.2, Trace1⟩
      else
        pollControllers fuel (Controller :: Rest) Begin.1.Line Begin.1.MagicCandy Begin.2 Trace1

/-- Result of `HlpInterruptAcknowledge`: the returned boolean, the contents of `*Vector`,
`*MagicCandy` and `*ProcessorController` after the call, whether both `ASSERT`s held (vacuously
true on the paths that reach neither), the hardware state and the trace of the call. -/
structure ACKNOWLEDGE_RESULT (σ : Type) where
  Return : Bool
  Vector : Nat
  MagicCandy : Nat
  ProcessorController : Option Nat
  AssertionsHeld : Bool
  Hardware : σ
  Trace : List HL_EVENT

/-- The tail of `HlpInterruptAcknowledge` from "Determine the vector corresponding to the
interrupt lines that fired" on: find the lines, store the vector, serialize, return `TRUE`. -/
def resolveVector {σ : Type}
    (HlpInterruptFindLines : INTERRUPT_LINE → Option Nat → FIND_LINES_RESULT)
    (ProcessorController : Option Nat) (Line : INTERRUPT_LINE) (MagicCandy : Nat)
    (Hardware : σ) (Trace : List HL_EVENT) : ACKNOWLEDGE_RESULT σ :=
  let Found := HlpInterruptFindLines Line ProcessorController
  let NewVector := (Found.Lines.State Found.Offset).PublicState.Vector
  { Return := true
    Vector := NewVector
    MagicCandy := MagicCandy
    ProcessorController := Found.ProcessorController
    AssertionsHeld :=
      decide (Line.LineType = INTERRUPT_LINE_TYPE.InterruptLineControllerSpecified) &&
        KSUCCESS Found.Status
    Hardware := Hardware
    Trace := Trace ++ [HL_EVENT.FindLines Line, HL_EVENT.WriteVector NewVector,
      HL_EVENT.SerializeExecution] }

/-- `HlpInterruptAcknowledge`. `HlInterruptControllers` is the global list of registered
controllers in registration order, `ProcessorController` the contents of `*ProcessorController`
on entry, `Vector` and `MagicCandy` the contents of the two out-parameters on entry, `Line` the
contents of the uninitialised local `Line`, `Hardware` the hardware state on entry. -/
def HlpInterruptAcknowledge {σ : Type}
    (HlpInterruptFindLines : INTERRUPT_LINE → Option Nat → FIND_LINES_RESULT)
    (fuel : Nat) (HlInterruptControllers : List (INTERRUPT_CONTROLLER σ))
    (ProcessorController : Option (INTERRUPT_CONTROLLER σ))
    (Vector MagicCandy : Nat) (Line : INTERRUPT_LINE) (Hardware : σ) :
    Option (ACKNOWLEDGE_RESULT σ) :=
  match ProcessorController with
  | some Controller =>
      let Begin := Controller.BeginInterrupt Hardware Line MagicCandy
      let Trace := [HL_EVENT.BeginInterrupt Controller.Identifier]
      if Begin.1.Cause = INTERRUPT_CAUSE.InterruptCauseSpuriousInterrupt ∨
          Begin.1.Cause = INTERRUPT_CAUSE.InterruptCauseNoInterruptHere then
        some { Return := false, Vector := Vector, MagicCandy := Begin.1.MagicCandy,
               ProcessorController := some Controller.Identifier, AssertionsHeld := true,
               Hardware := Begin.2, Trace := Trace }
      else
        some (resolveVector HlpInterruptFindLines (some Controller.Identifier) Begin.1.Line
          Begin.1.MagicCandy Begin.2 Trace)
  | none =>
      match pollControllers fuel HlInterruptControllers Line MagicCandy Hardware [] with
      | none => none
      | some Exit =>
          match Exit.CurrentEntry with
          | [] =>
              some { Return := false, Vector := Vector, MagicCandy := Exit.MagicCandy,
                     ProcessorController := none, AssertionsHeld := true,
                     Hardware := Exit.Hardware, Trace := Exit.Trace }
          | _ :: _ =>
              some (resolveVector HlpInterruptFindLines none Exit.Line Exit.MagicCandy
                Exit.Hardware Exit.Trace)

/-- The controllers polled during a call, in order: the identifiers of the `BeginInterrupt`
events of its trace. -/
def polled : List HL_EVENT → List Nat
  | [] => []
  | HL_EVENT.BeginInterrupt Controller :: Rest => Controller :: polled Rest
  | _ :: Rest => polled Rest

/-- A controller whose hardware never changes state and always answers with the same cause and
line. -/
def constantController (Identifier : Nat) (Cause : INTERRUPT_CAUSE) (Line : INTERRUPT_LINE) :
    INTERRUPT_CONTROLLER Unit :=
  { Identifier := Identifier
    BeginInterrupt := fun _ _ MagicCandy => (⟨Cause, Line, MagicCandy⟩, ()) }

/-- A line of the controller-specified type. -/
def sampleLine (Controller : Nat) (Line : Int) : INTERRUPT_LINE :=
  ⟨INTERRUPT_LINE_TYPE.InterruptLineControllerSpecified, Controller, Line⟩

/-- A line lookup that always succeeds and resolves line `n` to vector `32 + n`. -/
def sampleFindLines (Line : INTERRUPT_LINE) (ProcessorController : Option Nat) :
    FIND_LINES_RESULT :=
  { Status := KSTATUS.STATUS_SUCCESS
    Lines := ⟨fun Offset => ⟨⟨32 + Offset⟩⟩⟩
    Offset := Line.Line.toNat
    ProcessorController := ProcessorController }

end Hl

namespace Rtlw81

/-- The maximum number of bulk out transfers that are allowed to be submitted at the same
time. -/
def RTLW81_MAX_BULK_OUT_TRANSFER_COUNT : Nat := 64

/-- `RtlAtomicAdd32` on a `ULONG` counter: addition modulo `2 ^ 32`. The addend is the 32-bit
pattern of the C argument, so `-1` is passed as `2 ^ 32 - 1`. Yields the new contents. -/
def RtlAtomicAdd32 (Value Addend : Nat) : Nat :=
  (Value + Addend) % 2 ^ 32

/-- Modelled from the spec: `RTLW81_BULK_OUT_TYPE` is declared in `rtlw81.h`, outside this
tree; one type per transmit queue. `Rtlw81Send` uses `Rtlw81BulkOutBe` and
`Rtlw81BulkOutVo`. -/
inductive RTLW81_BULK_OUT_TYPE
  | Rtlw81BulkOutBe
  | Rtlw81BulkOutBk
  | Rtlw81BulkOutVi
  | Rtlw81BulkOutVo
  deriving DecidableEq

/-- Modelled from the spec: the 802.11 frame types that `NET80211_GET_FRAME_TYPE` (a macro of
the absent `net80211.h`) can yield. -/
inductive NET80211_FRAME_TYPE
  | NET80211_FRAME_TYPE_MANAGEMENT
  | NET80211_FRAME_TYPE_CONTROL
  | NET80211_FRAME_TYPE_DATA
  | NET80211_FRAME_TYPE_RESERVED
  deriving DecidableEq

/-- The members of `NET_PACKET_BUFFER` that `Rtlw81Send` reads or writes. `Address` is the
address of the packet structure, `Buffer` the address of its data buffer. `FrameType` is what
`NET80211_GET_FRAME_TYPE` extracts from the frame at `Buffer + DataOffset`. -/
structure NET_PACKET_BUFFER where
  Address : Nat
  Buffer : Nat
  BufferPhysicalAddress : Nat
  BufferSize : Nat
  DataOffset : Nat
  FooterOffset : Nat
  FrameType : NET80211_FRAME_TYPE
  deriving DecidableEq

/-- The members of `USB_TRANSFER` that `Rtlw81Send` writes. `Handle` is the address of the
transfer, `Endpoint` the endpoint it was allocated for. `Direction`, `CallbackRoutine` and
`UserData` are written once, when the transfer is constructed, with values that do not depend
on the state, and are left out; `UserData` is the link from the USB transfer back to its
`RTLW81_BULK_OUT_TRANSFER`, which the routines below are given directly. -/
structure USB_TRANSFER where
  Handle : Nat
  Endpoint : Nat
  Length : Nat
  BufferActualLength : Nat
  Buffer : Nat
  BufferPhysicalAddress : Nat
  deriving DecidableEq

/-- `RTLW81_BULK_OUT_TRANSFER`. `Address` is the address of the structure. Its `ListEntry` is
its position in a free list and its `Device` pointer is the device whose state the routines
below are given. `Packet` is `none` for `NULL`. -/
structure RTLW81_BULK_OUT_TRANSFER where
  Address : Nat
  UsbTransfer : USB_TRANSFER
  Packet : Option NET_PACKET_BUFFER
  EndpointIndex : Nat
  deriving DecidableEq

/-- The members of `RTLW81_DEVICE` that the bulk-out path uses. The arrays
`BulkOutFreeTransferList` and `BulkOutEndpoint` are indexed by endpoint index; a free list is
given head first (`FreeList->Next` is the first element). -/
structure RTLW81_DEVICE where
  UsbCoreHandle : Nat
  Flags : Nat
  BulkOutEndpoint : Nat → Nat
  BulkOutTypeEndpointIndex : RTLW81_BULK_OUT_TYPE → Nat
  BulkOutFreeTransferList : Nat → List RTLW81_BULK_OUT_TRANSFER
  BulkOutTransferCount : Nat

/-- Calls out of the bulk-out path and updates of the in-flight counter, in the order they
happen. `RtlAtomicAdd32` carries the new contents of `BulkOutTransferCount`. -/
inductive EVENT
  | MmAllocatePagedPool (Result : Option Nat)
  | MmFreePagedPool (Allocation : Nat)
  | UsbAllocateTransfer (Endpoint : Nat) (Result : Option Nat)
  | UsbSubmitTransfer (Transfer : RTLW81_BULK_OUT_TRANSFER) (Status : KSTATUS)
  | NetFreeBuffer (Packet : Option NET_PACKET_BUFFER)
  | RtlAtomicAdd32 (NewValue : Nat)
  deriving DecidableEq

/-- The kernel services the bulk-out path calls, none of them in this tree: each reads and
updates the state `κ` of the rest of the kernel. `MmAllocatePagedPool` yields the address of
the allocation or `none` for `NULL`; `UsbAllocateTransfer` yields the handle of a new USB
transfer or `none` for `NULL`; `UsbSubmitTransfer` yields its status. -/
structure KERNEL (κ : Type) where
  MmAllocatePagedPool : κ → Option Nat × κ
  MmFreePagedPool : κ → Nat → κ
  UsbAllocateTransfer : κ → Nat → Nat → Option Nat × κ
  UsbSubmitTransfer : κ → RTLW81_BULK_OUT_TRANSFER → KSTATUS × κ
  NetFreeBuffer : κ → Option NET_PACKET_BUFFER → κ

/-- State after one of the pool routines: the device, the rest of the kernel, and the events
of the call. -/
structure POOL_STATE (κ : Type) where
  Device : RTLW81_DEVICE
  Kernel : κ
  Trace : List EVENT

/-- `Rtlw81pAllocateBulkOutTransfer`: the returned transfer (`none` for `NULL`) and the state
after the call. The `while (Rtlw81Transfer == NULL)` loop runs its body once: the first branch
either constructs a transfer or jumps to the end label, and the second branch, whose test of
the list under the lock sees the list that the first test saw, takes `FreeList->Next`. The
members of a new USB transfer that `Rtlw81Send` writes later start at zero. -/
def Rtlw81pAllocateBulkOutTransfer {κ : Type} (K : KERNEL κ) (RTLW81_MAX_PACKET_SIZE : Nat)
    (Device : RTLW81_DEVICE) (BulkOutType : RTLW81_BULK_OUT_TYPE) (Kernel : κ) :
    Option RTLW81_BULK_OUT_TRANSFER × POOL_STATE κ :=
  let EndpointIndex := Device.BulkOutTypeEndpointIndex BulkOutType
  let Endpoint := Device.BulkOutEndpoint EndpointIndex
  match Device.BulkOutFreeTransferList EndpointIndex with
  | [] =>
      let Pool := K.MmAllocatePagedPool Kernel
      match Pool.1 with
      | none => (none, ⟨Device, Pool.2, [EVENT.MmAllocatePagedPool none]⟩)
      | some Allocation =>
          let Usb := K.UsbAllocateTransfer Pool.2 Endpoint RTLW81_MAX_PACKET_SIZE
          match Usb.1 with
          | none =>
              (none, ⟨Device, K.MmFreePagedPool Usb.2 Allocation,
                [EVENT.MmAllocatePagedPool (some Allocation),
                 EVENT.UsbAllocateTransfer Endpoint none,
                 EVENT.MmFreePagedPool Allocation]⟩)
          | some Handle =>
              (some { Address := Allocation
                      UsbTransfer := ⟨Handle, Endpoint, 0, 0, 0, 0⟩
                      Packet := none
                      EndpointIndex := EndpointIndex },
               ⟨Device, Usb.2,
                [EVENT.MmAllocatePagedPool (some Allocation),
                 EVENT.UsbAllocateTransfer Endpoint (some Handle)]⟩)
  | Rtlw81Transfer :: Rest =>
      (some Rtlw81Transfer,
       ⟨{ Device with
            BulkOutFreeTransferList :=
              Function.update Device.BulkOutFreeTransferList EndpointIndex Rest },
        Kernel, []⟩)

/-- `Rtlw81pFreeBulkOutTransfer`: `INSERT_AFTER(&(Transfer->ListEntry), FreeList)` puts the
transfer at the head of the free list of its endpoint index. `Device` is the state of
`Transfer->Device`. -/
def Rtlw81pFreeBulkOutTransfer (Device : RTLW81_DEVICE) (Transfer : RTLW81_BULK_OUT_TRANSFER) :
    RTLW81_DEVICE :=
  { Device with
      BulkOutFreeTransferList :=
        Function.update Device.BulkOutFreeTransferList Transfer.EndpointIndex
          (Transfer :: Device.BulkOutFreeTransferList Transfer.EndpointIndex) }

/-- `Rtlw81pBulkOutTransferCompletion`, given the bulk-out transfer that `Transfer->UserData`
points to and the state of its device. -/
def Rtlw81pBulkOutTransferCompletion {κ : Type} (K : KERNEL κ) (Device : RTLW81_DEVICE)
    (Rtlw81Transfer : RTLW81_BULK_OUT_TRANSFER) (Kernel : κ) : POOL_STATE κ :=
  let Count := RtlAtomicAdd32 Device.BulkOutTransferCount (2 ^ 32 - 1)
  let Device1 := { Device with BulkOutTransferCount := Count }
  let Kernel1 := K.NetFreeBuffer Kernel Rtlw81Transfer.Packet
  let Recycled := { Rtlw81Transfer with Packet := none }
  ⟨Rtlw81pFreeBulkOutTransfer Device1 Recycled, Kernel1,
   [EVENT.RtlAtomicAdd32 Count, EVENT.NetFreeBuffer Rtlw81Transfer.Packet]⟩

/-- Result of `Rtlw81Send`: the returned status, the device, what is left of the packet list,
the rest of the kernel, and the events of the call. -/
structure SEND_RESULT (κ : Type) where
  Status : KSTATUS
  Device : RTLW81_DEVICE
  PacketList : List NET_PACKET_BUFFER
  Kernel : κ
  Trace : List EVENT

/-- The `while (NET_PACKET_LIST_EMPTY(PacketList) == FALSE)` loop of `Rtlw81Send`. `Status` is
the contents of the local `Status` when the loop condition is tested. The body takes the first
packet off the list, moves `DataOffset` back over the transmit header, picks the bulk-out type
from the frame type, allocates a transfer, counts it and submits it; a failed allocation or
submission releases the packet and leaves the loop. The bytes written into the transmit header
are not part of this state. -/
def sendLoop {κ : Type} (K : KERNEL κ) (RTLW81_TRANSMIT_HEADER_SIZE RTLW81_MAX_PACKET_SIZE : Nat)
    (Status : KSTATUS) (Device : RTLW81_DEVICE) (Kernel : κ) (Trace : List EVENT) :
    List NET_PACKET_BUFFER → SEND_RESULT κ
  | [] => ⟨Status, Device, [], Kernel, Trace⟩
  | Head :: PacketList =>
      let Packet : NET_PACKET_BUFFER :=
        { Head with
            DataOffset := (Head.DataOffset + 2 ^ 32 - RTLW81_TRANSMIT_HEADER_SIZE) % 2 ^ 32 }
      let BulkOutType :=
        if Packet.FrameType = NET80211_FRAME_TYPE.NET80211_FRAME_TYPE_CONTROL ∨
            Packet.FrameType = NET80211_FRAME_TYPE.NET80211_FRAME_TYPE_MANAGEMENT then
          RTLW81_BULK_OUT_TYPE.Rtlw81BulkOutVo
        else
          RTLW81_BULK_OUT_TYPE.Rtlw81BulkOutBe
      let Allocated :=
        Rtlw81pAllocateBulkOutTransfer K RTLW81_MAX_PACKET_SIZE Device BulkOutType Kernel
      match Allocated.1 with
      | none =>
          ⟨KSTATUS.STATUS_INSUFFICIENT_RESOURCES, Allocated.2.Device, PacketList,
           K.NetFreeBuffer Allocated.2.Kernel (some Packet),
           Trace ++ Allocated.2.Trace ++ [EVENT.NetFreeBuffer (some Packet)]⟩
      | some Allocation =>
          let Rtlw81Transfer : RTLW81_BULK_OUT_TRANSFER :=
            { Allocation with
                Packet := some Packet
                UsbTransfer :=
                  { Allocation.UsbTransfer with
                      Length := Packet.FooterOffset
                      BufferActualLength := Packet.BufferSize
                      Buffer := Packet.Buffer
                      BufferPhysicalAddress := Packet.BufferPhysicalAddress } }
          let Count1 := RtlAtomicAdd32 Allocated.2.Device.BulkOutTransferCount 1
          let Device1 := { Allocated.2.Device with BulkOutTransferCount := Count1 }
          let Submitted := K.UsbSubmitTransfer Allocated.2.Kernel Rtlw81Transfer
          if KSUCCESS Submitted.1 then
            sendLoop K RTLW81_TRANSMIT_HEADER_SIZE RTLW81_MAX_PACKET_SIZE Submitted.1 Device1
              Submitted.2
              (Trace ++ Allocated.2.Trace ++
                [EVENT.RtlAtomicAdd32 Count1, EVENT.UsbSubmitTransfer Rtlw81Transfer Submitted.1])
              PacketList
          else
            let Device2 := Rtlw81pFreeBulkOutTransfer Device1 Rtlw81Transfer
            let Count2 := RtlAtomicAdd32 Device2.BulkOutTransferCount (2 ^ 32 - 1)
            ⟨Submitted.1, { Device2 with BulkOutTransferCount := Count2 }, PacketList,
             K.NetFreeBuffer Submitted.2 (some Packet),
             Trace ++ Allocated.2.Trace ++
               [EVENT.RtlAtomicAdd32 Count1, EVENT.UsbSubmitTransfer Rtlw81Transfer Submitted.1,
                EVENT.NetFreeBuffer (some Packet), EVENT.RtlAtomicAdd32 Count2]⟩

/-- `Rtlw81Send`. `Rtlw81DisablePacketDropping` is the contents of the global of that name,
`Status` the contents of the uninitialised local `Status`, `RTLW81_TRANSMIT_HEADER_SIZE` and
`RTLW81_MAX_PACKET_SIZE` the constants of those names from `rtlw81.h`, outside this tree. -/
def Rtlw81Send {κ : Type} (K : KERNEL κ) (RTLW81_TRANSMIT_HEADER_SIZE RTLW81_MAX_PACKET_SIZE : Nat)
    (Rtlw81DisablePacketDropping : Bool) (Status : KSTATUS) (Device : RTLW81_DEVICE)
    (PacketList : List NET_PACKET_BUFFER) (Kernel : κ) : SEND_RESULT κ :=
  if Device.BulkOutTransferCount ≥ RTLW81_MAX_BULK_OUT_TRANSFER_COUNT ∧
      Rtlw81DisablePacketDropping = false then
    ⟨KSTATUS.STATUS_RESOURCE_IN_USE, Device, PacketList, Kernel, []⟩
  else
    sendLoop K RTLW81_TRANSMIT_HEADER_SIZE RTLW81_MAX_PACKET_SIZE Status Device Kernel []
      PacketList

/-- The values `BulkOutTransferCount` takes during a call, oldest first: the new contents
carried by the `RtlAtomicAdd32` events of its trace. -/
def counterValues : List EVENT → List Nat
  | [] => []
  | EVENT.RtlAtomicAdd32 NewValue :: Rest => NewValue :: counterValues Rest
  | _ :: Rest => counterValues Rest

/-- The transfers handed to `UsbSubmitTransfer` during a call, oldest first. -/
def submitted : List EVENT → List RTLW81_BULK_OUT_TRANSFER
  | [] => []
  | EVENT.UsbSubmitTransfer Transfer _ :: Rest => Transfer :: submitted Rest
  | _ :: Rest => submitted Rest

/-- The packets handed to `NetFreeBuffer` during a call, oldest first. -/
def released : List EVENT → List (Option NET_PACKET_BUFFER)
  | [] => []
  | EVENT.NetFreeBuffer Packet :: Rest => Packet :: released Rest
  | _ :: Rest => released Rest

/-- The transfers constructed during a call: the results of its `MmAllocatePagedPool`
calls. -/
def constructed : List EVENT → List (Option Nat)
  | [] => []
  | EVENT.MmAllocatePagedPool Result :: Rest => Result :: constructed Rest
  | _ :: Rest => constructed Rest

/-- A kernel for examples. Its state counts the calls made so far; pool allocations succeed
while fewer than `PoolLimit` calls were made, USB transfer allocations always succeed, and
submissions succeed while fewer than `SubmitLimit` calls were made and fail with
`STATUS_CODE 5` afterwards. -/
def sampleKernel (PoolLimit SubmitLimit : Nat) : KERNEL Nat :=
  { MmAllocatePagedPool := fun k => (if k < PoolLimit then some (4096 + k) else none, k + 1)
    MmFreePagedPool := fun k _ => k + 1
    UsbAllocateTransfer := fun k _ _ => (some (8192 + k), k + 1)
    UsbSubmitTransfer := fun k _ =>
      (if k < SubmitLimit then KSTATUS.STATUS_SUCCESS else KSTATUS.STATUS_CODE 5, k + 1)
    NetFreeBuffer := fun k _ => k + 1 }

/-- A kernel for examples that never refuses an allocation or a submission. -/
def willingKernel : KERNEL Nat :=
  { MmAllocatePagedPool := fun k => (some (4096 + k), k + 1)
    MmFreePagedPool := fun k _ => k + 1
    UsbAllocateTransfer := fun k _ _ => (some (8192 + k), k + 1)
    UsbSubmitTransfer := fun k _ => (KSTATUS.STATUS_SUCCESS, k + 1)
    NetFreeBuffer := fun k _ => k + 1 }

/-- A device for examples: every bulk-out type maps to endpoint index `0`, all free lists are
empty, and `Count` transfers are in flight. -/
def sampleDevice (Count : Nat) : RTLW81_DEVICE :=
  { UsbCoreHandle := 1
    Flags := 0
    BulkOutEndpoint := fun Index => 2 + Index
    BulkOutTypeEndpointIndex := fun _ => 0
    BulkOutFreeTransferList := fun _ => []
    BulkOutTransferCount := Count }

/-- A data packet for examples, with a 32 byte header space and a 100 byte frame. -/
def samplePacket (Address : Nat) : NET_PACKET_BUFFER :=
  { Address := Address
    Buffer := 65536 * Address
    BufferPhysicalAddress := 65536 * Address
    BufferSize := 4096
    DataOffset := 32
    FooterOffset := 132
    FrameType := NET80211_FRAME_TYPE.NET80211_FRAME_TYPE_DATA }

/-- A recycled transfer for examples, belonging to endpoint index `0`. -/
def sampleTransfer (Address : Nat) : RTLW81_BULK_OUT_TRANSFER :=
  { Address := Address
    UsbTransfer := ⟨Address + 1, 2, 0, 0, 0, 0⟩
    Packet := none
    EndpointIndex := 0 }

end Rtlw81

namespace Hl

/-- The number of IPI lines needed for normal system operation on ARM processors. -/
def REQUIRED_IPI_LINE_COUNT : Nat := 5

/-- Modelled from the spec: `IPI_TYPE` is declared in a header outside this tree. The five
types are the ones the spec and `HlpInterruptGetIpiVector` list, in that order, after the
invalid type. -/
inductive IPI_TYPE
  | IpiTypeInvalid
  | IpiTypePacket
  | IpiTypeTlbFlush
  | IpiTypeNmi
  | IpiTypeProfiler
  | IpiTypeClock
  deriving DecidableEq

/-- Modelled from the spec: the integer value of each `IPI_TYPE` enumerator, counting from
zero in declaration order, as C numbers the enumerators of an `enum` without initialisers. -/
def IPI_TYPE.value : IPI_TYPE → Nat
  | IpiTypeInvalid => 0
  | IpiTypePacket => 1
  | IpiTypeTlbFlush => 2
  | IpiTypeNmi => 3
  | IpiTypeProfiler => 4
  | IpiTypeClock => 5

/-- The five IPI types that are not `IpiTypeInvalid`. -/
def validIpiTypes : List IPI_TYPE :=
  [IPI_TYPE.IpiTypePacket, IPI_TYPE.IpiTypeTlbFlush, IPI_TYPE.IpiTypeNmi,
   IPI_TYPE.IpiTypeProfiler, IPI_TYPE.IpiTypeClock]

/-- The vector numbers `HlpInterruptGetIpiVector` returns; they are defined in `arm.h`,
outside this tree. -/
structure IPI_VECTORS where
  VECTOR_IPI_INTERRUPT : Nat
  VECTOR_TLB_IPI : Nat
  VECTOR_NMI : Nat
  VECTOR_PROFILER_INTERRUPT : Nat
  VECTOR_CLOCK_INTERRUPT : Nat

/-- What `HlpInterruptGetIpiVector` returns, and whether it went through `ASSERT(FALSE)` to
its `return 0`. -/
structure IPI_VECTOR_RESULT where
  Vector : Nat
  AssertionFailed : Bool
  deriving DecidableEq

/-- `HlpInterruptGetIpiVector`, on the integer value of its `IpiType` argument. -/
def HlpInterruptGetIpiVector (V : IPI_VECTORS) (IpiType : Nat) : IPI_VECTOR_RESULT :=
  if IpiType = IPI_TYPE.IpiTypePacket.value then ⟨V.VECTOR_IPI_INTERRUPT, false⟩
  else if IpiType = IPI_TYPE.IpiTypeTlbFlush.value then ⟨V.VECTOR_TLB_IPI, false⟩
  else if IpiType = IPI_TYPE.IpiTypeNmi.value then ⟨V.VECTOR_NMI, false⟩
  else if IpiType = IPI_TYPE.IpiTypeProfiler.value then ⟨V.VECTOR_PROFILER_INTERRUPT, false⟩
  else if IpiType = IPI_TYPE.IpiTypeClock.value then ⟨V.VECTOR_CLOCK_INTERRUPT, false⟩
  else ⟨0, true⟩

/-- `HlpInterruptGetRequiredIpiLineCount`. -/
def HlpInterruptGetRequiredIpiLineCount : Nat :=
  REQUIRED_IPI_LINE_COUNT

/-- `HlpInterruptGetVectorForIpiLineIndex`: `IpiLineIndex + 1` is computed on a `ULONG`. -/
def HlpInterruptGetVectorForIpiLineIndex (V : IPI_VECTORS) (IpiLineIndex : Nat) :
    IPI_VECTOR_RESULT :=
  HlpInterruptGetIpiVector V ((IpiLineIndex + 1) % 2 ^ 32)

/-- What `HlpInterruptGetIpiLineIndex` returns, and whether its `ASSERT` held. -/
structure IPI_LINE_INDEX_RESULT where
  Index : Nat
  AssertionHeld : Bool
  deriving DecidableEq

/-- `HlpInterruptGetIpiLineIndex`, on the integer value of its `IpiType` argument: `IpiType - 1`
is computed on 32-bit unsigned integers, the same value is tested by the `ASSERT` and
returned. -/
def HlpInterruptGetIpiLineIndex (IpiType : Nat) : IPI_LINE_INDEX_RESULT :=
  ⟨(IpiType + (2 ^ 32 - 1)) % 2 ^ 32,
   decide ((IpiType + (2 ^ 32 - 1)) % 2 ^ 32 < REQUIRED_IPI_LINE_COUNT)⟩

/-- Vector numbers for examples. -/
def sampleVectors : IPI_VECTORS :=
  ⟨0x11, 0x12, 0x13, 0x14, 0x15⟩

end Hl

namespace Libc

/-- Conversion of an integer to an unsigned integer type of `Bits` bits. -/
def toUnsigned (Bits : Nat) (Value : Int) : Nat :=
  (Value % 2 ^ Bits).toNat

/-- Conversion of an unsigned value to the signed integer type of `Bits` bits (two's
complement). -/
def toSigned (Bits : Nat) (Value : Nat) : Int :=
  if Value % 2 ^ Bits < 2 ^ (Bits - 1) then (Value % 2 ^ Bits : Nat)
  else (Value % 2 ^ Bits : Nat) - 2 ^ Bits

/-- `MAX_LONGLONG`. -/
def MAX_LONGLONG : Nat := 2 ^ 63 - 1

/-- Modelled from the spec: the `SEEK_COMMAND` enumeration of the kernel interface, declared
outside this tree. -/
inductive SEEK_COMMAND
  | SeekCommandFromBeginning
  | SeekCommandFromCurrentOffset
  | SeekCommandFromEnd
  deriving DecidableEq

/-- Modelled from the spec: the values of a `Whence` argument. `SEEK_SET`, `SEEK_CUR` and
`SEEK_END` are pairwise distinct constants of `unistd.h`, outside this tree; `SEEK_OTHER n`
stands for every other integer. -/
inductive WHENCE
  | SEEK_SET
  | SEEK_CUR
  | SEEK_END
  | SEEK_OTHER (n : Int)
  deriving DecidableEq

/-- Modelled from the spec: the values of the `Command` argument of `fcntl`. The `F_*`
commands are pairwise distinct constants of `fcntl.h`, outside this tree; `F_OTHER n` stands
for every other integer. -/
inductive FCNTL_COMMAND
  | F_DUPFD
  | F_GETFD
  | F_SETFD
  | F_GETFL
  | F_SETFL
  | F_GETOWN
  | F_SETOWN
  | F_GETLK
  | F_SETLK
  | F_SETLKW
  | F_CLOSEM
  | F_OTHER (n : Int)
  deriving DecidableEq

/-- Modelled from the spec: the values of `l_type` in a `struct flock`; `F_OTHERLCK n` stands
for every integer that is none of the three lock types. -/
inductive LOCK_TYPE
  | F_RDLCK
  | F_WRLCK
  | F_UNLCK
  | F_OTHERLCK (n : Int)
  deriving DecidableEq

/-- Modelled from the spec: the values of the `Function` argument of `lockf`. -/
inductive LOCKF_FUNCTION
  | F_ULOCK
  | F_LOCK
  | F_TLOCK
  | F_TEST
  | F_OTHERFN (n : Int)
  deriving DecidableEq

/-- Modelled from the spec: the `FILE_CONTROL_COMMAND` enumeration of the kernel interface,
declared outside this tree; these are the commands `fcntl` issues. -/
inductive FILE_CONTROL_COMMAND
  | FileControlCommandInvalid
  | FileControlCommandDuplicate
  | FileControlCommandGetFlags
  | FileControlCommandSetFlags
  | FileControlCommandGetStatusAndAccess
  | FileControlCommandSetStatus
  | FileControlCommandGetLock
  | FileControlCommandSetLock
  | FileControlCommandBlockingSetLock
  | FileControlCommandCloseFrom
  deriving DecidableEq

/-- Modelled from the spec: the `FILE_LOCK_TYPE` enumeration of the kernel interface;
`FileLockOther n` stands for every value that is none of the three `fcntl` names. -/
inductive FILE_LOCK_TYPE
  | FileLockRead
  | FileLockReadWrite
  | FileLockUnlock
  | FileLockOther (n : Nat)
  deriving DecidableEq

/-- `struct flock`; `l_start` and `l_len` are of type `off_t` (64 bits, signed). -/
structure flock where
  l_type : LOCK_TYPE
  l_whence : WHENCE
  l_start : Int
  l_len : Int
  l_pid : Int
  deriving DecidableEq

/-- The kernel's `FILE_LOCK`: `Offset` and `Size` are `ULONGLONG`. -/
structure FILE_LOCK where
  LockType : FILE_LOCK_TYPE
  Offset : Nat
  Size : Nat
  ProcessId : Nat
  deriving DecidableEq

/-- `FILE_CONTROL_PARAMETERS_UNION`, as read through each of its three members. -/
structure FILE_CONTROL_PARAMETERS_UNION where
  DuplicateDescriptor : Nat
  Flags : Nat
  FileLock : FILE_LOCK
  deriving DecidableEq

/-- Constants that `fileio.c` takes from headers outside this tree. -/
structure LIBC_CONSTANTS where
  IO_OFFSET_NONE : Int
  EAGAIN : Int
  ESPIPE : Int
  EINVAL : Int
  FD_CLOEXEC : Nat
  FILE_DESCRIPTOR_CLOSE_ON_EXECUTE : Nat
  O_RDONLY : Nat
  O_WRONLY : Nat
  O_EXEC : Nat
  O_TRUNC : Nat
  O_APPEND : Nat
  O_NONBLOCK : Nat
  O_CREAT : Nat
  O_EXCL : Nat
  O_DIRECTORY : Nat
  O_NOFOLLOW : Nat
  O_SYNC : Nat
  O_NOCTTY : Nat
  O_NOATIME : Nat
  SYS_OPEN_FLAG_READ : Nat
  SYS_OPEN_FLAG_WRITE : Nat
  SYS_OPEN_FLAG_EXECUTE : Nat
  SYS_OPEN_FLAG_TRUNCATE : Nat
  SYS_OPEN_FLAG_APPEND : Nat
  SYS_OPEN_FLAG_NON_BLOCKING : Nat
  SYS_OPEN_FLAG_CREATE : Nat
  SYS_OPEN_FLAG_FAIL_IF_EXISTS : Nat
  SYS_OPEN_FLAG_DIRECTORY : Nat
  SYS_OPEN_FLAG_NO_SYMBOLIC_LINK : Nat
  SYS_OPEN_FLAG_SYNCHRONIZED : Nat
  SYS_OPEN_FLAG_NO_CONTROLLING_TERMINAL : Nat
  SYS_OPEN_FLAG_NO_ACCESS_TIME : Nat

/-- The calls `fileio.c` makes into code outside this tree. Each result is a function of the
arguments of the call: every routine modelled here makes each of these calls at most once.

* `OsPerformIo Handle Offset Size` yields the status and the contents of `BytesCompleted`.
* `OsSeek Handle Command Offset` yields the status and the contents of `NewOffset`.
* `OsFileControl Handle Command Parameters` yields the status and the contents of
  `Parameters` after the call.
* `fstat FileDescriptor` yields the return value and `st_size`.
* `ClConvertKstatusToErrorNumber` is the translation of a status to an `errno` value. -/
structure SYSTEM where
  OsPerformIo : Nat → Int → Nat → KSTATUS × Nat
  OsSeek : Nat → SEEK_COMMAND → Int → KSTATUS × Nat
  OsFileControl : Nat → FILE_CONTROL_COMMAND → FILE_CONTROL_PARAMETERS_UNION →
    KSTATUS × FILE_CONTROL_PARAMETERS_UNION
  fstat : Int → Int × Int
  ClConvertKstatusToErrorNumber : KSTATUS → Int

/-- Result of `read` and `pread`: the returned `ssize_t` and the values assigned to `errno`
during the call, oldest first. -/
structure IO_RESULT where
  Return : Int
  ErrnoWrites : List Int
  deriving DecidableEq

/-- The part of `read` and `pread` after the call of `OsPerformIo`, which the two routines
share word for word. `Bits` is the width of `UINTN` and `ssize_t`. -/
def completeIo (C : LIBC_CONSTANTS) (S : SYSTEM) (Bits : Nat) (Status : KSTATUS)
    (BytesCompleted : Nat) : IO_RESULT :=
  if Status = KSTATUS.STATUS_TIMEOUT then
    if BytesCompleted % 2 ^ Bits ≠ 0 then
      ⟨toSigned Bits BytesCompleted, []⟩
    else
      ⟨-1, [C.EAGAIN]⟩
  else if (!KSUCCESS Status) ∧ Status ≠ KSTATUS.STATUS_END_OF_FILE then
    if BytesCompleted % 2 ^ Bits = 0 then
      ⟨toSigned Bits (2 ^ Bits - 1), [S.ClConvertKstatusToErrorNumber Status]⟩
    else
      ⟨toSigned Bits BytesCompleted, [S.ClConvertKstatusToErrorNumber Status]⟩
  else
    ⟨toSigned Bits BytesCompleted, []⟩

/-- `read`. -/
def read (C : LIBC_CONSTANTS) (S : SYSTEM) (Bits : Nat) (FileDescriptor : Int)
    (ByteCount : Nat) : IO_RESULT :=
  let Io := S.OsPerformIo (toUnsigned Bits FileDescriptor) C.IO_OFFSET_NONE ByteCount
  completeIo C S Bits Io.1 Io.2

/-- `pread`. -/
def pread (C : LIBC_CONSTANTS) (S : SYSTEM) (Bits : Nat) (FileDescriptor : Int)
    (ByteCount : Nat) (Offset : Int) : IO_RESULT :=
  let Io := S.OsPerformIo (toUnsigned Bits FileDescriptor) Offset ByteCount
  completeIo C S Bits Io.1 Io.2

/-- Stated from the spec: what `read` and `pread` make of the status and the byte count that
`OsPerformIo` reports. On success or end of file, the byte count with `errno` untouched; on a
timeout, the byte count if it is not zero and otherwise -1 with `errno = EAGAIN`; on any other
failure, `errno` set to the translated status and the byte count if it is not zero and
otherwise -1. -/
def readOutcome (C : LIBC_CONSTANTS) (S : SYSTEM) (Status : KSTATUS) (BytesCompleted : Nat) :
    IO_RESULT :=
  if Status = KSTATUS.STATUS_SUCCESS ∨ Status = KSTATUS.STATUS_END_OF_FILE then
    ⟨BytesCompleted, []⟩
  else if Status = KSTATUS.STATUS_TIMEOUT then
    if BytesCompleted ≠ 0 then ⟨BytesCompleted, []⟩ else ⟨-1, [C.EAGAIN]⟩
  else
    ⟨if BytesCompleted ≠ 0 then BytesCompleted else -1,
     [S.ClConvertKstatusToErrorNumber Status]⟩

/-- Result of `lseek`: the returned `off_t`, the values assigned to `errno`, and the result of
the call of `OsSeek` when one was made. -/
structure LSEEK_RESULT where
  Return : Int
  ErrnoWrites : List Int
  Seek : Option (KSTATUS × Nat)
  deriving DecidableEq

/-- The code of `lseek` from the label `lseekEnd` on. `NewOffset` is a `ULONGLONG`. -/
def lseekEnd (C : LIBC_CONSTANTS) (S : SYSTEM) (Status : KSTATUS) (NewOffset : Nat)
    (Seek : Option (KSTATUS × Nat)) : LSEEK_RESULT :=
  if !KSUCCESS Status then
    if Status = KSTATUS.STATUS_NOT_SUPPORTED then
      ⟨-1, [C.ESPIPE], Seek⟩
    else
      ⟨-1, [S.ClConvertKstatusToErrorNumber Status], Seek⟩
  else
    ⟨toSigned 64 NewOffset, [], Seek⟩

/-- `lseek`. `NewOffset0` is the contents of the uninitialised local `NewOffset`; `Bits` is
the width of `UINTN`. -/
def lseek (C : LIBC_CONSTANTS) (S : SYSTEM) (Bits : Nat) (NewOffset0 : Nat)
    (FileDescriptor : Int) (Offset : Int) (Whence : WHENCE) : LSEEK_RESULT :=
  let SeekCommand : Option SEEK_COMMAND :=
    match Whence with
    | WHENCE.SEEK_SET => some SEEK_COMMAND.SeekCommandFromBeginning
    | WHENCE.SEEK_CUR => some SEEK_COMMAND.SeekCommandFromCurrentOffset
    | WHENCE.SEEK_END => some SEEK_COMMAND.SeekCommandFromEnd
    | WHENCE.SEEK_OTHER _ => none
  match SeekCommand with
  | none => lseekEnd C S KSTATUS.STATUS_INVALID_PARAMETER NewOffset0 none
  | some Command =>
      let Seek := S.OsSeek (toUnsigned Bits FileDescriptor) Command Offset
      let NewOffset := Seek.2 % 2 ^ 64
      if !KSUCCESS Seek.1 then
        lseekEnd C S Seek.1 NewOffset (some Seek)
      else if NewOffset > MAX_LONGLONG then
        lseekEnd C S KSTATUS.STATUS_INTEGER_OVERFLOW NewOffset (some Seek)
      else
        lseekEnd C S Seek.1 NewOffset (some Seek)

end Libc

namespace Libc

/-- Result of `fcntl`: the returned `int`, the values assigned to `errno` during the call
(those of a nested `lseek` included, those of `fstat` not), the contents of the caller's
`struct flock` after the call, and the command and parameters handed to `OsFileControl` when
the call was made. -/
structure FCNTL_RESULT where
  Return : Int
  ErrnoWrites : List Int
  FileLock : flock
  Control : Option (FILE_CONTROL_COMMAND × FILE_CONTROL_PARAMETERS_UNION)
  deriving DecidableEq

/-- The code of `fcntl` from the label `fcntlEnd` on. -/
def fcntlEnd (S : SYSTEM) (Status : KSTATUS) (ReturnValue : Int) (ErrnoWrites : List Int)
    (FileLock : flock)
    (Control : Option (FILE_CONTROL_COMMAND × FILE_CONTROL_PARAMETERS_UNION)) : FCNTL_RESULT :=
  if !KSUCCESS Status then
    ⟨-1, ErrnoWrites ++ [S.ClConvertKstatusToErrorNumber Status], FileLock, Control⟩
  else
    ⟨ReturnValue, ErrnoWrites, FileLock, Control⟩

/-- One `if ((Flags & Mask) != 0) { ReturnValue |= Bit; }` of the `F_GETFL` case. -/
def orIfSet (Flags Mask Bit ReturnValue : Nat) : Nat :=
  if Flags &&& Mask ≠ 0 then ReturnValue ||| Bit else ReturnValue

/-- The `F_GETFL` case of the second `switch` of `fcntl`: the open flags rebuilt from the
kernel flags. -/
def getStatusFlags (C : LIBC_CONSTANTS) (Flags : Nat) : Nat :=
  orIfSet Flags C.SYS_OPEN_FLAG_NO_ACCESS_TIME C.O_NOATIME <|
  orIfSet Flags C.SYS_OPEN_FLAG_NO_CONTROLLING_TERMINAL C.O_NOCTTY <|
  orIfSet Flags C.SYS_OPEN_FLAG_SYNCHRONIZED C.O_SYNC <|
  orIfSet Flags C.SYS_OPEN_FLAG_NO_SYMBOLIC_LINK C.O_NOFOLLOW <|
  orIfSet Flags C.SYS_OPEN_FLAG_DIRECTORY C.O_DIRECTORY <|
  orIfSet Flags C.SYS_OPEN_FLAG_FAIL_IF_EXISTS C.O_EXCL <|
  orIfSet Flags C.SYS_OPEN_FLAG_CREATE C.O_CREAT <|
  orIfSet Flags C.SYS_OPEN_FLAG_NON_BLOCKING C.O_NONBLOCK <|
  orIfSet Flags C.SYS_OPEN_FLAG_APPEND C.O_APPEND <|
  orIfSet Flags C.SYS_OPEN_FLAG_TRUNCATE C.O_TRUNC <|
  orIfSet Flags C.SYS_OPEN_FLAG_EXECUTE C.O_EXEC <|
  orIfSet Flags C.SYS_OPEN_FLAG_WRITE C.O_WRONLY <|
  orIfSet Flags C.SYS_OPEN_FLAG_READ C.O_RDONLY 0

/-- The block of `fcntl` headed "Get the length sorted out, which may be negative": from the
resolved `Parameters.FileLock.Offset` (a `ULONGLONG`) and `l_len` (an `off_t`) to the
`Offset` and `Size` handed to the kernel. The comparison is made on `ULONGLONG`, the
assignment `Length = Parameters.FileLock.Offset` converts to `off_t`, the subtraction is made
on `ULONGLONG`. -/
def sortOutLength (Offset : Nat) (Length : Int) : Nat × Nat :=
  if Length < 0 then
    let Length1 : Int := if Offset < toUnsigned 64 Length then toSigned 64 Offset else Length
    let Offset1 : Nat := toUnsigned 64 ((Offset : Int) - Length1)
    let Length2 : Int := toSigned 64 (toUnsigned 64 (-Length1))
    (Offset1, toUnsigned 64 Length2)
  else
    (Offset, toUnsigned 64 Length)

/-- The second `switch` of `fcntl`, entered when `OsFileControl` succeeded: from the command
and the parameters the kernel returned to the status, the return value and the caller's
`struct flock`. `Status` is the status of `OsFileControl`. -/
def fcntlConvertResult (C : LIBC_CONSTANTS) (Command : FCNTL_COMMAND) (Status : KSTATUS)
    (Parameters : FILE_CONTROL_PARAMETERS_UNION) (FileLock : flock) :
    KSTATUS × Int × flock :=
  match Command with
  | FCNTL_COMMAND.F_DUPFD => (Status, toSigned 32 Parameters.DuplicateDescriptor, FileLock)
  | FCNTL_COMMAND.F_GETFD =>
      (Status,
       toSigned 32 (orIfSet Parameters.Flags C.FILE_DESCRIPTOR_CLOSE_ON_EXECUTE C.FD_CLOEXEC 0),
       FileLock)
  | FCNTL_COMMAND.F_SETFD => (Status, 0, FileLock)
  | FCNTL_COMMAND.F_SETFL => (Status, 0, FileLock)
  | FCNTL_COMMAND.F_CLOSEM => (Status, 0, FileLock)
  | FCNTL_COMMAND.F_GETFL => (Status, toSigned 32 (getStatusFlags C Parameters.Flags), FileLock)
  | FCNTL_COMMAND.F_GETLK | FCNTL_COMMAND.F_SETLK | FCNTL_COMMAND.F_SETLKW =>
      match Parameters.FileLock.LockType with
      | FILE_LOCK_TYPE.FileLockUnlock =>
          (if Command = FCNTL_COMMAND.F_GETLK then KSTATUS.STATUS_INVALID_PARAMETER else Status,
           0, { FileLock with l_type := LOCK_TYPE.F_UNLCK })
      | FILE_LOCK_TYPE.FileLockOther _ => (KSTATUS.STATUS_INVALID_PARAMETER, -1, FileLock)
      | Converted =>
          (Status, 0,
           { l_type := if Converted = FILE_LOCK_TYPE.FileLockRead then LOCK_TYPE.F_RDLCK
               else LOCK_TYPE.F_WRLCK
             l_start := toSigned 64 Parameters.FileLock.Offset
             l_len := toSigned 64 Parameters.FileLock.Size
             l_pid := Parameters.FileLock.ProcessId
             l_whence := WHENCE.SEEK_SET })
  | _ => (Status, -1, FileLock)

/-- The first `switch` of `fcntl`: from the command and its argument to either the status
with which the routine jumps to `fcntlEnd`, or the kernel command and the parameters. The
first component collects the `errno` writes of a nested `lseek`. `Parameters` holds the
contents of the uninitialised local of that name; `IntArgument` and `FileLock` are the
variable argument read as an `int` and as a pointer to a `struct flock`. -/
def fcntlPrepare (C : LIBC_CONSTANTS) (S : SYSTEM) (Bits : Nat) (NewOffset0 : Nat)
    (Parameters : FILE_CONTROL_PARAMETERS_UNION) (FileDescriptor : Int)
    (Command : FCNTL_COMMAND) (IntArgument : Int) (FileLock : flock) :
    List Int × (KSTATUS ⊕ (FILE_CONTROL_COMMAND × FILE_CONTROL_PARAMETERS_UNION)) :=
  match Command with
  | FCNTL_COMMAND.F_DUPFD =>
      if IntArgument < 0 then ([], Sum.inl KSTATUS.STATUS_INVALID_PARAMETER)
      else ([], Sum.inr (FILE_CONTROL_COMMAND.FileControlCommandDuplicate,
        { Parameters with DuplicateDescriptor := toUnsigned Bits IntArgument }))
  | FCNTL_COMMAND.F_GETFD =>
      ([], Sum.inr (FILE_CONTROL_COMMAND.FileControlCommandGetFlags,
        { Parameters with Flags := 0 }))
  | FCNTL_COMMAND.F_SETFD =>
      ([], Sum.inr (FILE_CONTROL_COMMAND.FileControlCommandSetFlags,
        { Parameters with
            Flags := orIfSet (toUnsigned 32 IntArgument) C.FD_CLOEXEC
              C.FILE_DESCRIPTOR_CLOSE_ON_EXECUTE 0 }))
  | FCNTL_COMMAND.F_GETFL =>
      ([], Sum.inr (FILE_CONTROL_COMMAND.FileControlCommandGetStatusAndAccess,
        { Parameters with Flags := 0 }))
  | FCNTL_COMMAND.F_SETFL =>
      ([], Sum.inr (FILE_CONTROL_COMMAND.FileControlCommandSetStatus,
        { Parameters with
            Flags :=
              orIfSet (toUnsigned 32 IntArgument) C.O_NOATIME C.SYS_OPEN_FLAG_NO_ACCESS_TIME <|
              orIfSet (toUnsigned 32 IntArgument) C.O_NONBLOCK C.SYS_OPEN_FLAG_NON_BLOCKING <|
              orIfSet (toUnsigned 32 IntArgument) C.O_APPEND C.SYS_OPEN_FLAG_APPEND 0 }))
  | FCNTL_COMMAND.F_GETOWN =>
      ([], Sum.inr (FILE_CONTROL_COMMAND.FileControlCommandInvalid, Parameters))
  | FCNTL_COMMAND.F_SETOWN =>
      ([], Sum.inr (FILE_CONTROL_COMMAND.FileControlCommandInvalid, Parameters))
  | FCNTL_COMMAND.F_GETLK | FCNTL_COMMAND.F_SETLK | FCNTL_COMMAND.F_SETLKW =>
      let FileControlCommand :=
        if Command = FCNTL_COMMAND.F_GETLK then FILE_CONTROL_COMMAND.FileControlCommandGetLock
        else if Command = FCNTL_COMMAND.F_SETLK then
          FILE_CONTROL_COMMAND.FileControlCommandSetLock
        else FILE_CONTROL_COMMAND.FileControlCommandBlockingSetLock
      let LockType : Option FILE_LOCK_TYPE :=
        match FileLock.l_type with
        | LOCK_TYPE.F_RDLCK => some FILE_LOCK_TYPE.FileLockRead
        | LOCK_TYPE.F_WRLCK => some FILE_LOCK_TYPE.FileLockReadWrite
        | LOCK_TYPE.F_UNLCK => some FILE_LOCK_TYPE.FileLockUnlock
        | LOCK_TYPE.F_OTHERLCK _ => none
      match LockType with
      | none => ([], Sum.inl KSTATUS.STATUS_INVALID_PARAMETER)
      | some Converted =>
          let Start := toUnsigned 64 FileLock.l_start
          let Resolved : List Int × Option Nat :=
            match FileLock.l_whence with
            | WHENCE.SEEK_CUR =>
                let Current := lseek C S Bits NewOffset0 FileDescriptor 0 WHENCE.SEEK_CUR
                if Current.Return = -1 then (Current.ErrnoWrites, none)
                else (Current.ErrnoWrites,
                  some ((Start + toUnsigned 64 Current.Return) % 2 ^ 64))
            | WHENCE.SEEK_END =>
                if (S.fstat FileDescriptor).1 ≠ 0 then ([], none)
                else ([], some ((Start + toUnsigned 64 (S.fstat FileDescriptor).2) % 2 ^ 64))
            | _ => ([], some Start)
          match Resolved.2 with
          | none => (Resolved.1, Sum.inl KSTATUS.STATUS_INVALID_PARAMETER)
          | some Offset =>
              (Resolved.1, Sum.inr (FileControlCommand,
                { Parameters with
                    FileLock :=
                      { LockType := Converted
                        Offset := (sortOutLength Offset FileLock.l_len).1
                        Size := (sortOutLength Offset FileLock.l_len).2
                        ProcessId := 0 } }))
  | FCNTL_COMMAND.F_CLOSEM =>
      ([], Sum.inr (FILE_CONTROL_COMMAND.FileControlCommandCloseFrom, Parameters))
  | FCNTL_COMMAND.F_OTHER _ => ([], Sum.inl KSTATUS.STATUS_INVALID_PARAMETER)

/-- `fcntl`. -/
def fcntl (C : LIBC_CONSTANTS) (S : SYSTEM) (Bits : Nat) (NewOffset0 : Nat)
    (Parameters : FILE_CONTROL_PARAMETERS_UNION) (FileDescriptor : Int)
    (Command : FCNTL_COMMAND) (IntArgument : Int) (FileLock : flock) : FCNTL_RESULT :=
  let Prepared :=
    fcntlPrepare C S Bits NewOffset0 Parameters FileDescriptor Command IntArgument FileLock
  match Prepared.2 with
  | Sum.inl Status => fcntlEnd S Status (-1) Prepared.1 FileLock none
  | Sum.inr Control =>
      let Done := S.OsFileControl (toUnsigned Bits FileDescriptor) Control.1 Control.2
      if !KSUCCESS Done.1 then
        let Status :=
          if Command = FCNTL_COMMAND.F_GETLK ∨ Command = FCNTL_COMMAND.F_SETLK ∨
              Command = FCNTL_COMMAND.F_SETLKW then
            if Done.1 = KSTATUS.STATUS_ACCESS_DENIED then KSTATUS.STATUS_INVALID_HANDLE
            else if Done.1 = KSTATUS.STATUS_RESOURCE_IN_USE then KSTATUS.STATUS_TRY_AGAIN
            else Done.1
          else Done.1
        fcntlEnd S Status (-1) Prepared.1 FileLock (some Control)
      else
        let Converted := fcntlConvertResult C Command Done.1 Done.2 FileLock
        fcntlEnd S Converted.1 Converted.2.1 Prepared.1 Converted.2.2 (some Control)

/-- Result of `lockf`: the result of the `fcntl` call it ends in, or -1 with `errno = EINVAL`
when the function is not one of the four. -/
def lockf (C : LIBC_CONSTANTS) (S : SYSTEM) (Bits : Nat) (NewOffset0 : Nat)
    (Parameters : FILE_CONTROL_PARAMETERS_UNION) (FileDescriptor : Int)
    (Function : LOCKF_FUNCTION) (Size : Int) : FCNTL_RESULT :=
  let Lock : flock :=
    { l_start := 0, l_len := Size, l_pid := 0, l_type := LOCK_TYPE.F_WRLCK,
      l_whence := WHENCE.SEEK_CUR }
  match Function with
  | LOCKF_FUNCTION.F_ULOCK =>
      fcntl C S Bits NewOffset0 Parameters FileDescriptor FCNTL_COMMAND.F_SETLK 0
        { Lock with l_type := LOCK_TYPE.F_UNLCK }
  | LOCKF_FUNCTION.F_LOCK =>
      fcntl C S Bits NewOffset0 Parameters FileDescriptor FCNTL_COMMAND.F_SETLKW 0 Lock
  | LOCKF_FUNCTION.F_TLOCK =>
      fcntl C S Bits NewOffset0 Parameters FileDescriptor FCNTL_COMMAND.F_SETLK 0 Lock
  | LOCKF_FUNCTION.F_TEST =>
      fcntl C S Bits NewOffset0 Parameters FileDescriptor FCNTL_COMMAND.F_GETLK 0 Lock
  | LOCKF_FUNCTION.F_OTHERFN _ => ⟨-1, [C.EINVAL], Lock, none⟩

/-- Constants for examples; the flag bits are pairwise distinct powers of two. -/
def sampleConstants : LIBC_CONSTANTS :=
  { IO_OFFSET_NONE := -1, EAGAIN := 11, ESPIPE := 29, EINVAL := 22,
    FD_CLOEXEC := 1, FILE_DESCRIPTOR_CLOSE_ON_EXECUTE := 1,
    O_RDONLY := 1, O_WRONLY := 2, O_EXEC := 4, O_TRUNC := 8, O_APPEND := 16,
    O_NONBLOCK := 32, O_CREAT := 64, O_EXCL := 128, O_DIRECTORY := 256, O_NOFOLLOW := 512,
    O_SYNC := 1024, O_NOCTTY := 2048, O_NOATIME := 4096,
    SYS_OPEN_FLAG_READ := 1, SYS_OPEN_FLAG_WRITE := 2, SYS_OPEN_FLAG_EXECUTE := 4,
    SYS_OPEN_FLAG_TRUNCATE := 8, SYS_OPEN_FLAG_APPEND := 16, SYS_OPEN_FLAG_NON_BLOCKING := 32,
    SYS_OPEN_FLAG_CREATE := 64, SYS_OPEN_FLAG_FAIL_IF_EXISTS := 128,
    SYS_OPEN_FLAG_DIRECTORY := 256, SYS_OPEN_FLAG_NO_SYMBOLIC_LINK := 512,
    SYS_OPEN_FLAG_SYNCHRONIZED := 1024, SYS_OPEN_FLAG_NO_CONTROLLING_TERMINAL := 2048,
    SYS_OPEN_FLAG_NO_ACCESS_TIME := 4096 }

/-- An error-number translation for examples: `EINVAL` for `STATUS_INVALID_PARAMETER`, `75`
(`EOVERFLOW`) for `STATUS_INTEGER_OVERFLOW`, `5` for everything else. -/
def sampleErrorNumber (Status : KSTATUS) : Int :=
  if Status = KSTATUS.STATUS_INVALID_PARAMETER then 22
  else if Status = KSTATUS.STATUS_INTEGER_OVERFLOW then 75
  else 5

/-- A kernel for examples in which every call succeeds: I/O completes `Size` bytes, a seek
lands on `SeekOffset`, a file control call leaves its parameters alone, `fstat` reports a
file of 1000 bytes. -/
def sampleSystem (SeekOffset : Nat) : SYSTEM :=
  { OsPerformIo := fun _ _ Size => (KSTATUS.STATUS_SUCCESS, Size)
    OsSeek := fun _ _ _ => (KSTATUS.STATUS_SUCCESS, SeekOffset)
    OsFileControl := fun _ _ Parameters => (KSTATUS.STATUS_SUCCESS, Parameters)
    fstat := fun _ => (0, 1000)
    ClConvertKstatusToErrorNumber := sampleErrorNumber }

/-- Stack contents for examples. -/
def sampleParameters : FILE_CONTROL_PARAMETERS_UNION :=
  ⟨0, 0, ⟨FILE_LOCK_TYPE.FileLockOther 0, 0, 0, 0⟩⟩

end Libc

namespace Rtlw81

/-- Modelled from the spec: the error codes of a USB transfer, declared in `usb.h`, outside
this tree. Only `UsbErrorTransferStalled` is named by the driver. -/
inductive USB_ERROR
  | UsbErrorNone
  | UsbErrorTransferStalled
  | UsbErrorOther (n : Nat)
  deriving DecidableEq

/-- The members of `RTLW81_RECEIVE_HEADER` that the bulk-in completion reads; the first two
are `ULONG`s. -/
structure RTLW81_RECEIVE_HEADER where
  LengthAndErrorFlags : Nat
  Status : Nat
  PacketCount : Nat
  deriving DecidableEq

/-- Constants of `rtlw81.h`, outside this tree, that the bulk-in completion uses.
`HeaderSize` is `sizeof(RTLW81_RECEIVE_HEADER)`. -/
structure RECEIVE_CONSTANTS where
  HeaderSize : Nat
  RTLW81_RECEIVE_ERROR_MASK : Nat
  RTLW81_RECEIVE_PACKET_LENGTH_MASK : Nat
  RTLW81_RECEIVE_PACKET_LENGTH_SHIFT : Nat
  RTLW81_RECEIVE_STATUS_INFO_SIZE_MASK : Nat
  RTLW81_RECEIVE_STATUS_INFO_SIZE_SHIFT : Nat
  RTLW81_BULK_IN_PACKET_ALIGNMENT : Nat

/-- The computations of the parsing loop on `ULONG`s do not wrap and advance: the header is
not empty, the alignment is not zero, and the largest total length the two masks allow, rounded
up, stays below `2 ^ 32`. -/
def RECEIVE_CONSTANTS.wellSized (K : RECEIVE_CONSTANTS) : Prop :=
  0 < K.HeaderSize ∧ 0 < K.RTLW81_BULK_IN_PACKET_ALIGNMENT ∧
    (K.RTLW81_RECEIVE_PACKET_LENGTH_MASK >>> K.RTLW81_RECEIVE_PACKET_LENGTH_SHIFT) +
      (K.RTLW81_RECEIVE_STATUS_INFO_SIZE_MASK >>> K.RTLW81_RECEIVE_STATUS_INFO_SIZE_SHIFT) * 8 +
      K.HeaderSize + K.RTLW81_BULK_IN_PACKET_ALIGNMENT ≤ 2 ^ 32

/-- Modelled from the spec: `ALIGN_RANGE_UP` is a macro of a header outside this tree; it
rounds a value up to the next multiple of a size that is a power of two. -/
def ALIGN_RANGE_UP (Value Size : Nat) : Nat :=
  (Value + Size - 1) / Size * Size

/-- The members of the bulk-in `USB_TRANSFER` that its completion routine reads. `Handle` is
the address of the transfer; `LengthTransferred` is a `ULONG`. -/
structure BULK_IN_TRANSFER where
  Handle : Nat
  Status : KSTATUS
  Error : USB_ERROR
  Buffer : Nat
  BufferPhysicalAddress : Nat
  LengthTransferred : Nat

/-- The members of `RTLW81_DEVICE` that the bulk-in completion reads. -/
structure RECEIVE_DEVICE where
  UsbCoreHandle : Nat
  BulkInEndpoint : Nat
  NetworkLink : Nat

/-- The members of the `NET_PACKET_BUFFER` that the bulk-in completion fills in before it
calls `NetProcessReceivedPacket`; `IoBuffer` is `NULL` and `Flags` is zero throughout. -/
structure RECEIVED_PACKET where
  Buffer : Nat
  BufferPhysicalAddress : Nat
  BufferSize : Nat
  DataSize : Nat
  DataOffset : Nat
  FooterOffset : Nat
  deriving DecidableEq

/-- Calls out of the bulk-in completion routine, in the order they happen. The statuses that
`UsbClearFeature` and `UsbSubmitTransfer` return are stored or printed and never tested for
control flow, so the trace does not depend on them. -/
inductive BULK_IN_EVENT
  | UsbClearFeature (UsbCoreHandle Endpoint : Nat)
  | NetProcessReceivedPacket (NetworkLink : Nat) (Packet : RECEIVED_PACKET)
  | UsbSubmitTransfer (Transfer : Nat)
  deriving DecidableEq

/-- The `while (PacketCount != 0)` loop of `Rtlw81BulkInTransferCompletion`. `Memory` gives
the receive header found at an address; it is taken not to change during the call. `Data`,
`PhysicalAddress` and `Length` are the locals of those names; `PacketCount` is never written
in the loop. Yields the trace when the loop is left. -/
def parsePackets (K : RECEIVE_CONSTANTS) (Memory : Nat → RTLW81_RECEIVE_HEADER)
    (NetworkLink : Nat) :
    Nat → Nat → Nat → Nat → Nat → List BULK_IN_EVENT → Option (List BULK_IN_EVENT)
  | 0, PacketCount, _, _, _, Trace => if PacketCount = 0 then some Trace else none
  | fuel + 1, PacketCount, Data, PhysicalAddress, Length, Trace =>
      if PacketCount = 0 then some Trace
      else if Length < K.HeaderSize then some Trace
      else if (Memory Data).LengthAndErrorFlags &&& K.RTLW81_RECEIVE_ERROR_MASK ≠ 0 then
        some Trace
      else
        let PacketLength :=
          ((Memory Data).LengthAndErrorFlags &&& K.RTLW81_RECEIVE_PACKET_LENGTH_MASK) >>>
            K.RTLW81_RECEIVE_PACKET_LENGTH_SHIFT
        if PacketLength = 0 then some Trace
        else
          let InfoSize :=
            ((((Memory Data).Status &&& K.RTLW81_RECEIVE_STATUS_INFO_SIZE_MASK) >>>
              K.RTLW81_RECEIVE_STATUS_INFO_SIZE_SHIFT) * 8) % 2 ^ 32
          let TotalLength := (PacketLength + InfoSize + K.HeaderSize) % 2 ^ 32
          if TotalLength > Length then some Trace
          else
            let Packet : RECEIVED_PACKET :=
              { Buffer := Data + K.HeaderSize + InfoSize
                BufferPhysicalAddress := PhysicalAddress + K.HeaderSize + InfoSize
                BufferSize := PacketLength
                DataSize := PacketLength
                DataOffset := 0
                FooterOffset := PacketLength }
            let Trace1 := Trace ++ [BULK_IN_EVENT.NetProcessReceivedPacket NetworkLink Packet]
            let Aligned := ALIGN_RANGE_UP TotalLength K.RTLW81_BULK_IN_PACKET_ALIGNMENT % 2 ^ 32
            if Aligned ≥ Length then some Trace1
            else
              parsePackets K Memory NetworkLink fuel PacketCount (Data + Aligned)
                (PhysicalAddress + Aligned) (Length - Aligned) Trace1

/-- `Rtlw81BulkInTransferCompletion`, given the device that `Transfer->UserData` points to.
Yields the trace of the call, or `none` when the parsing loop needs more than `fuel`
iterations. -/
def Rtlw81BulkInTransferCompletion (K : RECEIVE_CONSTANTS)
    (Memory : Nat → RTLW81_RECEIVE_HEADER) (Device : RECEIVE_DEVICE) (fuel : Nat)
    (Transfer : BULK_IN_TRANSFER) : Option (List BULK_IN_EVENT) :=
  if !KSUCCESS Transfer.Status then
    if Transfer.Error = USB_ERROR.UsbErrorTransferStalled then
      some [BULK_IN_EVENT.UsbClearFeature Device.UsbCoreHandle Device.BulkInEndpoint,
            BULK_IN_EVENT.UsbSubmitTransfer Transfer.Handle]
    else
      some [BULK_IN_EVENT.UsbSubmitTransfer Transfer.Handle]
  else if Transfer.LengthTransferred < K.HeaderSize then
    some [BULK_IN_EVENT.UsbSubmitTransfer Transfer.Handle]
  else
    match parsePackets K Memory Device.NetworkLink fuel (Memory Transfer.Buffer).PacketCount
        Transfer.Buffer Transfer.BufferPhysicalAddress Transfer.LengthTransferred [] with
    | none => none
    | some Trace => some (Trace ++ [BULK_IN_EVENT.UsbSubmitTransfer Transfer.Handle])

/-- The transfers resubmitted during a call. -/
def resubmitted : List BULK_IN_EVENT → List Nat
  | [] => []
  | BULK_IN_EVENT.UsbSubmitTransfer Transfer :: Rest => Transfer :: resubmitted Rest
  | _ :: Rest => resubmitted Rest

/-- The packets delivered to the network stack during a call. -/
def delivered : List BULK_IN_EVENT → List RECEIVED_PACKET
  | [] => []
  | BULK_IN_EVENT.NetProcessReceivedPacket _ Packet :: Rest => Packet :: delivered Rest
  | _ :: Rest => delivered Rest

/-- The endpoints whose halt feature was cleared during a call. -/
def haltsCleared : List BULK_IN_EVENT → List Nat
  | [] => []
  | BULK_IN_EVENT.UsbClearFeature _ Endpoint :: Rest => Endpoint :: haltsCleared Rest
  | _ :: Rest => haltsCleared Rest

/-- Receive constants for examples: a 24 byte header, a 14 bit packet length, a 4 bit info
size at bit 16, 128 byte alignment. -/
def sampleReceiveConstants : RECEIVE_CONSTANTS :=
  { HeaderSize := 24
    RTLW81_RECEIVE_ERROR_MASK := 0xC000
    RTLW81_RECEIVE_PACKET_LENGTH_MASK := 0x3FFF
    RTLW81_RECEIVE_PACKET_LENGTH_SHIFT := 0
    RTLW81_RECEIVE_STATUS_INFO_SIZE_MASK := 0xF0000
    RTLW81_RECEIVE_STATUS_INFO_SIZE_SHIFT := 16
    RTLW81_BULK_IN_PACKET_ALIGNMENT := 128 }

/-- A receive buffer for examples: every header announces a 100 byte packet, no info bytes
and a packet count of 2. -/
def sampleMemory (_ : Nat) : RTLW81_RECEIVE_HEADER :=
  ⟨100, 0, 2⟩

/-- A receiving device for examples. -/
def sampleReceiveDevice : RECEIVE_DEVICE :=
  ⟨1, 129, 7⟩

/-- A bulk-in transfer for examples. -/
def sampleBulkInTransfer (Status : KSTATUS) (Error : USB_ERROR) (LengthTransferred : Nat) :
    BULK_IN_TRANSFER :=
  ⟨900, Status, Error, 65536, 65536, LengthTransferred⟩

end Rtlw81

namespace Rtlw81

/-- The effect of `Rtlw81pWriteData` on the two statuses: given `Device->InitializationStatus`
and the status that `UsbSubmitSynchronousTransfer` returned, the status the routine returns
and the new `Device->InitializationStatus`. The setup packet it builds is not part of this
state. -/
def Rtlw81pWriteData (InitializationStatus UsbStatus : KSTATUS) : KSTATUS × KSTATUS :=
  if (!KSUCCESS UsbStatus) && KSUCCESS InitializationStatus then (UsbStatus, UsbStatus)
  else (UsbStatus, InitializationStatus)

/-- The effect of `Rtlw81pReadData` on the two statuses, as for `Rtlw81pWriteData`: on success
it copies the data out, otherwise it records the status if none was recorded. -/
def Rtlw81pReadData (InitializationStatus UsbStatus : KSTATUS) : KSTATUS × KSTATUS :=
  if KSUCCESS UsbStatus then (UsbStatus, InitializationStatus)
  else if KSUCCESS InitializationStatus then (UsbStatus, UsbStatus)
  else (UsbStatus, InitializationStatus)

/-- What one call of `Rtlw81pInitialize` does to its local `Status` and to
`Device->InitializationStatus`, step by step. Between the reset at the start of phase 0 and
the label `InitializeEnd` the routine and the routines it calls touch
`Device->InitializationStatus` only inside `Rtlw81pWriteData` and `Rtlw81pReadData`, and every
assignment to the local `Status` is followed by `if (!KSUCCESS(Status)) goto InitializeEnd`
(or is a failure followed by the `goto`).

* `WriteData UsbStatus`, `ReadData UsbStatus`: a register access, made directly or through
  `Rtlw81pWriteRegister`, `Rtlw81pReadRegister` or another routine, whose USB transfer
  returned `UsbStatus`.
* `Checked Status`: an assignment of `Status` to the local, with its test. -/
inductive INITIALIZE_STEP
  | WriteData (UsbStatus : KSTATUS)
  | ReadData (UsbStatus : KSTATUS)
  | Checked (Status : KSTATUS)
  deriving DecidableEq

/-- The body of a phase of `Rtlw81pInitialize` run on the steps it takes: yields the local
`Status` and `Device->InitializationStatus` on arrival at `InitializeEnd`. Steps after a
failed test are not reached. -/
def runInitializeSteps : List INITIALIZE_STEP → KSTATUS → KSTATUS → KSTATUS × KSTATUS
  | [], Status, InitializationStatus => (Status, InitializationStatus)
  | INITIALIZE_STEP.WriteData UsbStatus :: Rest, Status, InitializationStatus =>
      runInitializeSteps Rest Status (Rtlw81pWriteData InitializationStatus UsbStatus).2
  | INITIALIZE_STEP.ReadData UsbStatus :: Rest, Status, InitializationStatus =>
      runInitializeSteps Rest Status (Rtlw81pReadData InitializationStatus UsbStatus).2
  | INITIALIZE_STEP.Checked New :: Rest, _, InitializationStatus =>
      if !KSUCCESS New then (New, InitializationStatus)
      else runInitializeSteps Rest New InitializationStatus

/-- The members of `RTLW81_DEVICE` that drive the initialization state machine. -/
structure INITIALIZE_DEVICE where
  InitializationPhase : Nat
  InitializationStatus : KSTATUS
  deriving DecidableEq

/-- `Rtlw81pInitialize` on the steps its body takes: phase 0 resets
`Device->InitializationStatus` and, when its body runs to the end, moves the device to phase
1; at `InitializeEnd` a successful local `Status` is replaced by
`Device->InitializationStatus`. Yields the returned status and the device. -/
def Rtlw81pInitialize (Device : INITIALIZE_DEVICE) (Body : List INITIALIZE_STEP) :
    KSTATUS × INITIALIZE_DEVICE :=
  let Entry :=
    if Device.InitializationPhase = 0 then KSTATUS.STATUS_SUCCESS
    else Device.InitializationStatus
  let Ran := runInitializeSteps Body KSTATUS.STATUS_SUCCESS Entry
  (if KSUCCESS Ran.1 then Ran.2 else Ran.1,
   { InitializationPhase :=
       if Device.InitializationPhase = 0 ∧ KSUCCESS Ran.1 then 1 else Device.InitializationPhase
     InitializationStatus := Ran.2 })

/-- The statuses of the failing register accesses among the steps that are reached, oldest
first. -/
def failedAccesses : List INITIALIZE_STEP → List KSTATUS
  | [] => []
  | INITIALIZE_STEP.WriteData UsbStatus :: Rest =>
      if KSUCCESS UsbStatus then failedAccesses Rest else UsbStatus :: failedAccesses Rest
  | INITIALIZE_STEP.ReadData UsbStatus :: Rest =>
      if KSUCCESS UsbStatus then failedAccesses Rest else UsbStatus :: failedAccesses Rest
  | INITIALIZE_STEP.Checked New :: Rest =>
      if KSUCCESS New then failedAccesses Rest else []

/-- The free-list invariant of the bulk-out pool, the condition `Rtlw81pDestroyBulkOutTransfers`
asserts for every transfer it takes off a free list: `Packet` is `NULL`. -/
def freeListsHoldNoPacket (Device : RTLW81_DEVICE) : Prop :=
  ∀ (Index : Nat) (Transfer : RTLW81_BULK_OUT_TRANSFER),
    Transfer ∈ Device.BulkOutFreeTransferList Index → Transfer.Packet = none

/-- The loop `for (Index = 0; Index < RTLW81_TRANSMIT_HEADER_SIZE / sizeof(USHORT); ...)
Checksum ^= HeaderBuffer[Index]` of `Rtlw81Send`, on the header as its
`RTLW81_TRANSMIT_HEADER_SIZE / 2` sixteen-bit words. -/
def xorHeaderWords (HeaderBuffer : List Nat) : Nat :=
  HeaderBuffer.foldl (fun Checksum Word => Checksum ^^^ Word) 0

/-- The block of `Rtlw81Send` headed "Compute the 16-bit XOR checksum of the header".
`HeaderBuffer` is the transmit header, as left by the preceding field assignments, seen as
sixteen-bit words; `ChecksumIndex` is the index of the word that the member `HeaderChecksum`
(a `USHORT` of `RTLW81_TRANSMIT_HEADER`, declared in `rtlw81.h` outside this tree) occupies.
The member is cleared, the words are folded, the member is set to the result. -/
def setHeaderChecksum (ChecksumIndex : Nat) (HeaderBuffer : List Nat) : List Nat :=
  let Cleared := HeaderBuffer.set ChecksumIndex 0
  Cleared.set ChecksumIndex (xorHeaderWords Cleared % 2 ^ 16)

end Rtlw81

namespace Rtlw81

/-- The locals `Data`, `PhysicalAddress` and `Length` of the parsing loop of
`Rtlw81BulkInTransferCompletion`. -/
structure PARSE_LOCALS where
  Data : Nat
  PhysicalAddress : Nat
  Length : Nat
  deriving DecidableEq

/-- One pass through the body of the `while (PacketCount != 0)` loop of
`Rtlw81BulkInTransferCompletion`, entered with the given locals: the packet handed to
`NetProcessReceivedPacket`, if the pass gets that far, and the locals for the next test of the
loop condition, if the pass reaches the end of the body instead of leaving through a
`break`. -/
def parseIteration (K : RECEIVE_CONSTANTS) (Memory : Nat → RTLW81_RECEIVE_HEADER)
    (Locals : PARSE_LOCALS) : Option RECEIVED_PACKET × Option PARSE_LOCALS :=
  if Locals.Length < K.HeaderSize then (none, none)
  else if (Memory Locals.Data).LengthAndErrorFlags &&& K.RTLW81_RECEIVE_ERROR_MASK ≠ 0 then
    (none, none)
  else
    let PacketLength :=
      ((Memory Locals.Data).LengthAndErrorFlags &&& K.RTLW81_RECEIVE_PACKET_LENGTH_MASK) >>>
        K.RTLW81_RECEIVE_PACKET_LENGTH_SHIFT
    if PacketLength = 0 then (none, none)
    else
      let InfoSize :=
        ((((Memory Locals.Data).Status &&& K.RTLW81_RECEIVE_STATUS_INFO_SIZE_MASK) >>>
          K.RTLW81_RECEIVE_STATUS_INFO_SIZE_SHIFT) * 8) % 2 ^ 32
      let TotalLength := (PacketLength + InfoSize + K.HeaderSize) % 2 ^ 32
      if TotalLength > Locals.Length then (none, none)
      else
        let Packet : RECEIVED_PACKET :=
          { Buffer := Locals.Data + K.HeaderSize + InfoSize
            BufferPhysicalAddress := Locals.PhysicalAddress + K.HeaderSize + InfoSize
            BufferSize := PacketLength
            DataSize := PacketLength
            DataOffset := 0
            FooterOffset := PacketLength }
        let Aligned := ALIGN_RANGE_UP TotalLength K.RTLW81_BULK_IN_PACKET_ALIGNMENT % 2 ^ 32
        if Aligned ≥ Locals.Length then (some Packet, none)
        else
          (some Packet,
           some ⟨Locals.Data + Aligned, Locals.PhysicalAddress + Aligned,
             Locals.Length - Aligned⟩)

end Rtlw81

/-! ## Theorems: interrupt acknowledgment -/

namespace Hl

theorem polled_append (a b : List HL_EVENT) : polled (a ++ b) = polled a ++ polled b := by
  induction a with
  | nil => rfl
  | cons e t ih => cases e <;> simp [polled, ih]

/-- The polling loop never leaves a non-empty list whose first controller does not report a
fired line: the current entry is never advanced. -/
theorem pollControllers_stuck {σ : Type} (Controller : INTERRUPT_CONTROLLER σ)
    (Rest : List (INTERRUPT_CONTROLLER σ))
    (quiet : ∀ hw l m, (Controller.BeginInterrupt hw l m).1.Cause ≠
      INTERRUPT_CAUSE.InterruptCauseLineFired) :
    ∀ (fuel : Nat) (l : INTERRUPT_LINE) (m : Nat) (hw : σ) (tr : List HL_EVENT),
      pollControllers fuel (Controller :: Rest) l m hw tr = none := by
  intro fuel
  induction fuel with
  | zero => intros; rfl
  | succ n ih =>
      intro l m hw tr
      simp only [pollControllers, quiet hw l m, if_false]
      exact ih _ _ _ _

/-- Shape of the trace when the polling loop is left: only `BeginInterrupt` events were added,
and at least one if the loop was left through `break`. -/
theorem pollControllers_trace {σ : Type} :
    ∀ (fuel : Nat) (L : List (INTERRUPT_CONTROLLER σ)) (l : INTERRUPT_LINE) (m : Nat) (hw : σ)
      (tr : List HL_EVENT) (e : POLL_EXIT σ),
      pollControllers fuel L l m hw tr = some e →
        ∃ polls : List HL_EVENT, e.Trace = tr ++ polls ∧
          (∀ ev ∈ polls, ∃ id, ev = HL_EVENT.BeginInterrupt id) ∧
          (e.CurrentEntry ≠ [] → polls ≠ []) := by
  intro fuel
  induction fuel with
  | zero =>
      intro L l m hw tr e h
      cases L with
      | nil =>
          simp only [pollControllers, Option.some.injEq] at h
          subst h
          exact ⟨[], by simp, by simp, by simp⟩
      | cons c rest => simp [pollControllers] at h
  | succ n ih =>
      intro L l m hw tr e h
      cases L with
      | nil =>
          simp only [pollControllers, Option.some.injEq] at h
          subst h
          exact ⟨[], by simp, by simp, by simp⟩
      | cons c rest =>
          simp only [pollControllers] at h
          split at h
          · simp only [Option.some.injEq] at h
            subst h
            exact ⟨[HL_EVENT.BeginInterrupt c.Identifier], rfl, by simp, by simp⟩
          · obtain ⟨polls, h1, h2, _⟩ := ih _ _ _ _ _ _ h
            refine ⟨HL_EVENT.BeginInterrupt c.Identifier :: polls, ?_, ?_, by simp⟩
            · simp [h1]
            · intro ev hev
              rcases List.mem_cons.mp hev with h3 | h3
              · exact ⟨_, h3⟩
              · exact h2 ev h3

/-- C1 (code defect): with no owning controller and a single registered controller that reports
`InterruptCauseNoInterruptHere`, `HlpInterruptAcknowledge` does not return `FALSE` after one
poll: it returns under no bound on the number of loop iterations, because the loop polls the
same list entry again and again. -/
theorem HlpInterruptAcknowledge_spins_on_quiet_controller :
    ∀ fuel : Nat,
      HlpInterruptAcknowledge sampleFindLines fuel
        [constantController 1 INTERRUPT_CAUSE.InterruptCauseNoInterruptHere (sampleLine 1 0)]
        none 0 0 (sampleLine 0 0) () = none := by
  intro fuel
  have h := pollControllers_stuck
    (constantController 1 INTERRUPT_CAUSE.InterruptCauseNoInterruptHere (sampleLine 1 0)) []
    (by intro hw l m; simp [constantController]) fuel (sampleLine 0 0) 0 () []
  simp only [HlpInterruptAcknowledge, h]

/-- C2 (code defect): with no owning controller and two registered controllers, the first
reporting `InterruptCauseNoInterruptHere` and the second `InterruptCauseLineFired`,
`HlpInterruptAcknowledge` never reaches the second controller and never returns `TRUE`: it
returns under no bound on the number of loop iterations. -/
theorem HlpInterruptAcknowledge_spins_before_fired_controller :
    ∀ fuel : Nat,
      HlpInterruptAcknowledge sampleFindLines fuel
        [constantController 1 INTERRUPT_CAUSE.InterruptCauseNoInterruptHere (sampleLine 1 0),
         constantController 2 INTERRUPT_CAUSE.InterruptCauseLineFired (sampleLine 2 5)]
        none 0 0 (sampleLine 0 0) () = none := by
  intro fuel
  have h := pollControllers_stuck
    (constantController 1 INTERRUPT_CAUSE.InterruptCauseNoInterruptHere (sampleLine 1 0))
    [constantController 2 INTERRUPT_CAUSE.InterruptCauseLineFired (sampleLine 2 5)]
    (by intro hw l m; simp [constantController]) fuel (sampleLine 0 0) 0 () []
  simp only [HlpInterruptAcknowledge, h]

/-- C3: called with a known owning controller, `HlpInterruptAcknowledge` returns (under every
bound on loop iterations, for every list of registered controllers), polls that controller and
no other, returns `FALSE` if and only if its `BeginInterrupt` reports
`InterruptCauseSpuriousInterrupt` or `InterruptCauseNoInterruptHere`, and in every other case
returns `TRUE` with `*Vector` equal to the vector stored in the line state that
`HlpInterruptFindLines` resolves for the reported line. -/
theorem HlpInterruptAcknowledge_known_controller {σ : Type}
    (HlpInterruptFindLines : INTERRUPT_LINE → Option Nat → FIND_LINES_RESULT)
    (fuel : Nat) (HlInterruptControllers : List (INTERRUPT_CONTROLLER σ))
    (Controller : INTERRUPT_CONTROLLER σ) (Vector MagicCandy : Nat) (Line : INTERRUPT_LINE)
    (Hardware : σ) :
    ∃ r : ACKNOWLEDGE_RESULT σ,
      HlpInterruptAcknowledge HlpInterruptFindLines fuel HlInterruptControllers
        (some Controller) Vector MagicCandy Line Hardware = some r ∧
      polled r.Trace = [Controller.Identifier] ∧
      (r.Return = false ↔
        ((Controller.BeginInterrupt Hardware Line MagicCandy).1.Cause =
            INTERRUPT_CAUSE.InterruptCauseSpuriousInterrupt ∨
         (Controller.BeginInterrupt Hardware Line MagicCandy).1.Cause =
            INTERRUPT_CAUSE.InterruptCauseNoInterruptHere)) ∧
      (r.Return = false → r.Vector = Vector) ∧
      (r.Return = true →
        r.Vector =
          ((HlpInterruptFindLines (Controller.BeginInterrupt Hardware Line MagicCandy).1.Line
              (some Controller.Identifier)).Lines.State
            (HlpInterruptFindLines (Controller.BeginInterrupt Hardware Line MagicCandy).1.Line
              (some Controller.Identifier)).Offset).PublicState.Vector) := by
  by_cases h : (Controller.BeginInterrupt Hardware Line MagicCandy).1.Cause =
        INTERRUPT_CAUSE.InterruptCauseSpuriousInterrupt ∨
      (Controller.BeginInterrupt Hardware Line MagicCandy).1.Cause =
        INTERRUPT_CAUSE.InterruptCauseNoInterruptHere
  · refine ⟨_, by simp only [HlpInterruptAcknowledge, h, if_true]; rfl, ?_, ?_, ?_, ?_⟩
    · simp [polled]
    · simp [h]
    · simp
    · simp
  · refine ⟨_, by simp only [HlpInterruptAcknowledge, h, if_false]; rfl, ?_, ?_, ?_, ?_⟩
    · simp [resolveVector, polled]
    · simp [resolveVector, h]
    · simp [resolveVector]
    · simp [resolveVector]

/-- C4: whenever `HlpInterruptAcknowledge` returns `TRUE`, the trace of the call ends with the
line lookup, the write of `*Vector` and then the serialization barrier, all after at least one
`BeginInterrupt` call and with nothing but `BeginInterrupt` calls before them; whenever it
returns `FALSE`, no barrier was issued. -/
theorem HlpInterruptAcknowledge_barrier {σ : Type}
    (HlpInterruptFindLines : INTERRUPT_LINE → Option Nat → FIND_LINES_RESULT)
    (fuel : Nat) (HlInterruptControllers : List (INTERRUPT_CONTROLLER σ))
    (ProcessorController : Option (INTERRUPT_CONTROLLER σ)) (Vector MagicCandy : Nat)
    (Line : INTERRUPT_LINE) (Hardware : σ) (r : ACKNOWLEDGE_RESULT σ)
    (returns : HlpInterruptAcknowledge HlpInterruptFindLines fuel HlInterruptControllers
      ProcessorController Vector MagicCandy Line Hardware = some r) :
    (r.Return = true →
      ∃ (polls : List HL_EVENT) (Fired : INTERRUPT_LINE),
        polls ≠ [] ∧ (∀ ev ∈ polls, ∃ id, ev = HL_EVENT.BeginInterrupt id) ∧
        r.Trace = polls ++ [HL_EVENT.FindLines Fired, HL_EVENT.WriteVector r.Vector,
          HL_EVENT.SerializeExecution]) ∧
    (r.Return = false → HL_EVENT.SerializeExecution ∉ r.Trace) := by
  cases ProcessorController with
  | some Controller =>
      simp only [HlpInterruptAcknowledge] at returns
      split at returns
      · simp only [Option.some.injEq] at returns
        subst returns
        simp
      · simp only [Option.some.injEq] at returns
        subst returns
        refine ⟨fun _ => ⟨[HL_EVENT.BeginInterrupt Controller.Identifier],
          (Controller.BeginInterrupt Hardware Line MagicCandy).1.Line, by simp,
          by simp, rfl⟩, by simp [resolveVector]⟩
  | none =>
      simp only [HlpInterruptAcknowledge] at returns
      cases hp : pollControllers fuel HlInterruptControllers Line MagicCandy Hardware [] with
      | none => simp [hp] at returns
      | some e =>
          obtain ⟨polls, h1, h2, h3⟩ := pollControllers_trace _ _ _ _ _ _ _ hp
          simp only [hp] at returns
          cases hc : e.CurrentEntry with
          | nil =>
              simp only [hc, Option.some.injEq] at returns
              subst returns
              refine ⟨by simp, fun _ => ?_⟩
              simp only [h1, List.nil_append]
              intro hmem
              obtain ⟨id, hid⟩ := h2 _ hmem
              cases hid
          | cons c rest =>
              simp only [hc, Option.some.injEq] at returns
              subst returns
              refine ⟨fun _ => ⟨polls, e.Line, h3 (by simp [hc]), h2, ?_⟩,
                by simp [resolveVector]⟩
              simp [resolveVector, h1]

/-- Witness for C4: a call with a known owning controller that reports a fired line on line 3
returns `TRUE` with vector 35, and its trace ends with the barrier. -/
theorem HlpInterruptAcknowledge_barrier_witness :
    HlpInterruptAcknowledge sampleFindLines 0 []
        (some (constantController 1 INTERRUPT_CAUSE.InterruptCauseLineFired (sampleLine 1 3)))
        0 0 (sampleLine 0 0) () =
      some (resolveVector sampleFindLines (some 1) (sampleLine 1 3) 0 ()
        [HL_EVENT.BeginInterrupt 1]) ∧
    ((resolveVector sampleFindLines (some 1) (sampleLine 1 3) 0 ()
        [HL_EVENT.BeginInterrupt 1]).Return = true →
      ∃ (polls : List HL_EVENT) (Fired : INTERRUPT_LINE),
        polls ≠ [] ∧ (∀ ev ∈ polls, ∃ id, ev = HL_EVENT.BeginInterrupt id) ∧
        (resolveVector sampleFindLines (some 1) (sampleLine 1 3) 0 ()
          [HL_EVENT.BeginInterrupt 1]).Trace =
          polls ++ [HL_EVENT.FindLines Fired,
            HL_EVENT.WriteVector (resolveVector sampleFindLines (some 1) (sampleLine 1 3) 0 ()
              [HL_EVENT.BeginInterrupt 1]).Vector,
            HL_EVENT.SerializeExecution]) :=
  ⟨rfl, (HlpInterruptAcknowledge_barrier sampleFindLines 0 []
    (some (constantController 1 INTERRUPT_CAUSE.InterruptCauseLineFired (sampleLine 1 3)))
    0 0 (sampleLine 0 0) () _ rfl).1⟩

end Hl

/-! ## Theorems: bulk-out transfer pool and send path -/

namespace Rtlw81

theorem counterValues_append (a b : List EVENT) :
    counterValues (a ++ b) = counterValues a ++ counterValues b := by
  induction a with
  | nil => rfl
  | cons e t ih => cases e <;> simp [counterValues, ih]

theorem submitted_append (a b : List EVENT) : submitted (a ++ b) = submitted a ++ submitted b := by
  induction a with
  | nil => rfl
  | cons e t ih => cases e <;> simp [submitted, ih]

/-- Allocation leaves the in-flight counter alone and neither submits nor counts. -/
theorem Rtlw81pAllocateBulkOutTransfer_frame {κ : Type} (K : KERNEL κ) (M : Nat)
    (Device : RTLW81_DEVICE) (BulkOutType : RTLW81_BULK_OUT_TYPE) (Kernel : κ) :
    (Rtlw81pAllocateBulkOutTransfer K M Device BulkOutType Kernel).2.Device.BulkOutTransferCount
        = Device.BulkOutTransferCount ∧
      counterValues (Rtlw81pAllocateBulkOutTransfer K M Device BulkOutType Kernel).2.Trace = [] ∧
      submitted (Rtlw81pAllocateBulkOutTransfer K M Device BulkOutType Kernel).2.Trace = [] := by
  cases hl : Device.BulkOutFreeTransferList (Device.BulkOutTypeEndpointIndex BulkOutType) with
  | cons T Rest => simp [Rtlw81pAllocateBulkOutTransfer, hl, counterValues, submitted]
  | nil =>
      cases hp : (K.MmAllocatePagedPool Kernel).1 with
      | none => simp [Rtlw81pAllocateBulkOutTransfer, hl, hp, counterValues, submitted]
      | some Allocation =>
          cases hu : (K.UsbAllocateTransfer (K.MmAllocatePagedPool Kernel).2
              (Device.BulkOutEndpoint (Device.BulkOutTypeEndpointIndex BulkOutType)) M).1 with
          | none => simp [Rtlw81pAllocateBulkOutTransfer, hl, hp, hu, counterValues, submitted]
          | some Handle =>
              simp [Rtlw81pAllocateBulkOutTransfer, hl, hp, hu, counterValues, submitted]

/-- The early return of `Rtlw81Send`. -/
theorem Rtlw81Send_full {κ : Type} (K : KERNEL κ) (H M : Nat) (Status : KSTATUS)
    (Device : RTLW81_DEVICE) (PacketList : List NET_PACKET_BUFFER) (Kernel : κ)
    (full : RTLW81_MAX_BULK_OUT_TRANSFER_COUNT ≤ Device.BulkOutTransferCount) :
    Rtlw81Send K H M false Status Device PacketList Kernel =
      ⟨KSTATUS.STATUS_RESOURCE_IN_USE, Device, PacketList, Kernel, []⟩ := by
  unfold Rtlw81Send
  rw [if_pos ⟨full, rfl⟩]

/-- Past the early return `Rtlw81Send` is its loop, started on an empty trace. -/
theorem Rtlw81Send_open {κ : Type} (K : KERNEL κ) (H M : Nat) (Dropping : Bool)
    (Status : KSTATUS) (Device : RTLW81_DEVICE) (PacketList : List NET_PACKET_BUFFER)
    (Kernel : κ)
    (room : Device.BulkOutTransferCount < RTLW81_MAX_BULK_OUT_TRANSFER_COUNT ∨
      Dropping = true) :
    Rtlw81Send K H M Dropping Status Device PacketList Kernel =
      sendLoop K H M Status Device Kernel [] PacketList := by
  unfold Rtlw81Send
  rw [if_neg]
  rintro ⟨h1, h2⟩
  rcases room with h | h
  · exact absurd h1 (not_le.mpr h)
  · rw [h] at h2
    cases h2

/-- C5: when `BulkOutTransferCount` is at least `RTLW81_MAX_BULK_OUT_TRANSFER_COUNT` (64) and
packet dropping is not disabled, `Rtlw81Send` returns `STATUS_RESOURCE_IN_USE` at once, for
every packet list: the trace of the call is empty (no allocation, no submission, no counter
update) and the device, with its counter and free lists, the packet list and the rest of the
kernel are as they were. -/
theorem Rtlw81Send_backpressure {κ : Type} (K : KERNEL κ) (H M : Nat) (Status : KSTATUS)
    (Device : RTLW81_DEVICE) (PacketList : List NET_PACKET_BUFFER) (Kernel : κ)
    (full : RTLW81_MAX_BULK_OUT_TRANSFER_COUNT ≤ Device.BulkOutTransferCount) :
    (Rtlw81Send K H M false Status Device PacketList Kernel).Status =
        KSTATUS.STATUS_RESOURCE_IN_USE ∧
      (Rtlw81Send K H M false Status Device PacketList Kernel).Trace = [] ∧
      (Rtlw81Send K H M false Status Device PacketList Kernel).Device = Device ∧
      (Rtlw81Send K H M false Status Device PacketList Kernel).PacketList = PacketList ∧
      (Rtlw81Send K H M false Status Device PacketList Kernel).Kernel = Kernel := by
  rw [Rtlw81Send_full K H M Status Device PacketList Kernel full]
  exact ⟨rfl, rfl, rfl, rfl, rfl⟩

/-- Witness for C5: a device with 64 transfers in flight refuses a one-packet list. -/
theorem Rtlw81Send_backpressure_witness :
    RTLW81_MAX_BULK_OUT_TRANSFER_COUNT ≤ (sampleDevice 64).BulkOutTransferCount ∧
      (Rtlw81Send (sampleKernel 9 9) 32 2048 false KSTATUS.STATUS_SUCCESS (sampleDevice 64)
        [samplePacket 1] 0).Status = KSTATUS.STATUS_RESOURCE_IN_USE :=
  ⟨by decide,
   (Rtlw81Send_backpressure (sampleKernel 9 9) 32 2048 KSTATUS.STATUS_SUCCESS (sampleDevice 64)
      [samplePacket 1] 0 (by decide)).1⟩

/-- C7: freeing a transfer `T` puts it at the head of the free list of its own endpoint index
and leaves the other free lists alone; the next allocation for a type that maps to that
endpoint index returns `T` itself, takes it off the list again, so that the device is as it
was before the free, and constructs nothing: its trace is empty and the rest of the kernel is
untouched. -/
theorem Rtlw81pFreeBulkOutTransfer_then_allocate {κ : Type} (K : KERNEL κ) (M : Nat)
    (Device : RTLW81_DEVICE) (T : RTLW81_BULK_OUT_TRANSFER)
    (BulkOutType : RTLW81_BULK_OUT_TYPE) (Kernel : κ)
    (maps : Device.BulkOutTypeEndpointIndex BulkOutType = T.EndpointIndex) :
    (Rtlw81pFreeBulkOutTransfer Device T).BulkOutFreeTransferList T.EndpointIndex =
        T :: Device.BulkOutFreeTransferList T.EndpointIndex ∧
      (∀ Index, Index ≠ T.EndpointIndex →
        (Rtlw81pFreeBulkOutTransfer Device T).BulkOutFreeTransferList Index =
          Device.BulkOutFreeTransferList Index) ∧
      (Rtlw81pAllocateBulkOutTransfer K M (Rtlw81pFreeBulkOutTransfer Device T) BulkOutType
          Kernel).1 = some T ∧
      (Rtlw81pAllocateBulkOutTransfer K M (Rtlw81pFreeBulkOutTransfer Device T) BulkOutType
          Kernel).2.Device = Device ∧
      (Rtlw81pAllocateBulkOutTransfer K M (Rtlw81pFreeBulkOutTransfer Device T) BulkOutType
          Kernel).2.Trace = [] ∧
      (Rtlw81pAllocateBulkOutTransfer K M (Rtlw81pFreeBulkOutTransfer Device T) BulkOutType
          Kernel).2.Kernel = Kernel := by
  have hlist : (Rtlw81pFreeBulkOutTransfer Device T).BulkOutFreeTransferList
      ((Rtlw81pFreeBulkOutTransfer Device T).BulkOutTypeEndpointIndex BulkOutType) =
        T :: Device.BulkOutFreeTransferList T.EndpointIndex := by
    simp [Rtlw81pFreeBulkOutTransfer, maps]
  refine ⟨by simp [Rtlw81pFreeBulkOutTransfer], ?_, ?_, ?_, ?_, ?_⟩
  · intro Index hne
    simp [Rtlw81pFreeBulkOutTransfer, Function.update_noteq hne]
  · simp only [Rtlw81pAllocateBulkOutTransfer, hlist]
  · simp only [Rtlw81pAllocateBulkOutTransfer, hlist]
    simp [Rtlw81pFreeBulkOutTransfer, maps]
  · simp only [Rtlw81pAllocateBulkOutTransfer, hlist]
  · simp only [Rtlw81pAllocateBulkOutTransfer, hlist]

/-- Witness for C7: a recycled transfer of endpoint index 0 on a device with empty free
lists. -/
theorem Rtlw81pFreeBulkOutTransfer_then_allocate_witness :
    (sampleDevice 3).BulkOutTypeEndpointIndex RTLW81_BULK_OUT_TYPE.Rtlw81BulkOutBe =
        (sampleTransfer 700).EndpointIndex ∧
      (Rtlw81pAllocateBulkOutTransfer (sampleKernel 9 9) 2048
        (Rtlw81pFreeBulkOutTransfer (sampleDevice 3) (sampleTransfer 700))
        RTLW81_BULK_OUT_TYPE.Rtlw81BulkOutBe 0).1 = some (sampleTransfer 700) :=
  ⟨rfl,
   (Rtlw81pFreeBulkOutTransfer_then_allocate (sampleKernel 9 9) 2048 (sampleDevice 3)
      (sampleTransfer 700) RTLW81_BULK_OUT_TYPE.Rtlw81BulkOutBe 0 rfl).2.2.1⟩

/-- C8: for a transfer that completes while the in-flight counter is positive,
`Rtlw81pBulkOutTransferCompletion` lowers `BulkOutTransferCount` by exactly one, hands the
transfer's packet to `NetFreeBuffer` exactly once, and puts the transfer, with `Packet` set to
`NULL`, at the head of the free list of its endpoint index; the other free lists and the other
device fields are unchanged. -/
theorem Rtlw81pBulkOutTransferCompletion_effect {κ : Type} (K : KERNEL κ)
    (Device : RTLW81_DEVICE) (T : RTLW81_BULK_OUT_TRANSFER) (Kernel : κ)
    (inFlight : 0 < Device.BulkOutTransferCount)
    (width : Device.BulkOutTransferCount < 2 ^ 32) :
    (Rtlw81pBulkOutTransferCompletion K Device T Kernel).Device.BulkOutTransferCount + 1 =
        Device.BulkOutTransferCount ∧
      released (Rtlw81pBulkOutTransferCompletion K Device T Kernel).Trace = [T.Packet] ∧
      (Rtlw81pBulkOutTransferCompletion K Device T Kernel).Kernel =
        K.NetFreeBuffer Kernel T.Packet ∧
      (Rtlw81pBulkOutTransferCompletion K Device T Kernel).Device.BulkOutFreeTransferList
          T.EndpointIndex =
        { T with Packet := none } :: Device.BulkOutFreeTransferList T.EndpointIndex ∧
      (∀ Index, Index ≠ T.EndpointIndex →
        (Rtlw81pBulkOutTransferCompletion K Device T Kernel).Device.BulkOutFreeTransferList
            Index = Device.BulkOutFreeTransferList Index) ∧
      (Rtlw81pBulkOutTransferCompletion K Device T Kernel).Device.UsbCoreHandle =
        Device.UsbCoreHandle ∧
      (Rtlw81pBulkOutTransferCompletion K Device T Kernel).Device.Flags = Device.Flags ∧
      (Rtlw81pBulkOutTransferCompletion K Device T Kernel).Device.BulkOutEndpoint =
        Device.BulkOutEndpoint ∧
      (Rtlw81pBulkOutTransferCompletion K Device T Kernel).Device.BulkOutTypeEndpointIndex =
        Device.BulkOutTypeEndpointIndex := by
  refine ⟨?_, ?_, rfl, ?_, ?_, rfl, rfl, rfl, rfl⟩
  · simp only [Rtlw81pBulkOutTransferCompletion, Rtlw81pFreeBulkOutTransfer, RtlAtomicAdd32]
    omega
  · simp [Rtlw81pBulkOutTransferCompletion, released]
  · simp [Rtlw81pBulkOutTransferCompletion, Rtlw81pFreeBulkOutTransfer]
  · intro Index hne
    simp [Rtlw81pBulkOutTransferCompletion, Rtlw81pFreeBulkOutTransfer,
      Function.update_noteq hne]

/-- Witness for C8: completion of a transfer carrying packet 1 on a device with three
transfers in flight leaves two in flight. -/
theorem Rtlw81pBulkOutTransferCompletion_effect_witness :
    0 < (sampleDevice 3).BulkOutTransferCount ∧
      (sampleDevice 3).BulkOutTransferCount < 2 ^ 32 ∧
      (Rtlw81pBulkOutTransferCompletion (sampleKernel 9 9) (sampleDevice 3)
          { sampleTransfer 700 with Packet := some (samplePacket 1) } 0
        ).Device.BulkOutTransferCount + 1 = 3 :=
  ⟨by decide, by decide,
   (Rtlw81pBulkOutTransferCompletion_effect (sampleKernel 9 9) (sampleDevice 3)
      { sampleTransfer 700 with Packet := some (samplePacket 1) } 0
      (by decide) (by decide)).1⟩

/-- C9 (code defect): called with an empty packet list while the in-flight count is below the
ceiling, `Rtlw81Send` does not return `STATUS_SUCCESS`: it returns whatever the uninitialised
local `Status` holds, whatever that is. -/
theorem Rtlw81Send_empty_list_returns_uninitialised_status :
    ∀ Status : KSTATUS,
      (Rtlw81Send (sampleKernel 9 9) 32 2048 false Status (sampleDevice 0) [] 0).Status =
        Status := by
  intro Status
  rfl

/-- C10 (code defect): with a two-packet list, a pool that serves one allocation and a USB
stack that accepts every submission, `Rtlw81Send` returns `STATUS_INSUFFICIENT_RESOURCES`,
which is neither `STATUS_SUCCESS` nor `STATUS_RESOURCE_IN_USE`, after the transfer of the first
packet was submitted with success. -/
theorem Rtlw81Send_failure_after_submission :
    (Rtlw81Send (sampleKernel 1 9) 32 2048 false KSTATUS.STATUS_SUCCESS (sampleDevice 0)
        [samplePacket 1, samplePacket 2] 0).Status = KSTATUS.STATUS_INSUFFICIENT_RESOURCES ∧
      (submitted (Rtlw81Send (sampleKernel 1 9) 32 2048 false KSTATUS.STATUS_SUCCESS
        (sampleDevice 0) [samplePacket 1, samplePacket 2] 0).Trace).map
          (fun Transfer => Transfer.Packet.map (fun Packet => Packet.Address)) = [some 1] ∧
      (Rtlw81Send (sampleKernel 1 9) 32 2048 false KSTATUS.STATUS_SUCCESS (sampleDevice 0)
        [samplePacket 1, samplePacket 2] 0).Trace.any
          (fun Event => match Event with
            | EVENT.UsbSubmitTransfer _ Status => KSUCCESS Status
            | _ => false) = true := by
  refine ⟨by decide, by decide, by decide⟩

/-- During the send loop every value the in-flight counter takes, and its final value, is at
most its value on entry to the loop plus the number of packets on the list. -/
theorem sendLoop_counter_bound {κ : Type} (K : KERNEL κ) (H M : Nat) :
    ∀ (PacketList : List NET_PACKET_BUFFER) (Status : KSTATUS) (Device : RTLW81_DEVICE)
      (Kernel : κ) (Trace : List EVENT),
      (∀ v ∈ counterValues (sendLoop K H M Status Device Kernel Trace PacketList).Trace,
        v ∈ counterValues Trace ∨ v ≤ Device.BulkOutTransferCount + PacketList.length) ∧
      (sendLoop K H M Status Device Kernel Trace PacketList).Device.BulkOutTransferCount ≤
        Device.BulkOutTransferCount + PacketList.length := by
  intro PacketList
  induction PacketList with
  | nil =>
      intro Status Device Kernel Trace
      exact ⟨fun v hv => Or.inl (by simpa [sendLoop] using hv), by simp [sendLoop]⟩
  | cons Head Rest ih =>
      intro Status Device Kernel Trace
      simp only [sendLoop]
      generalize (if Head.FrameType = NET80211_FRAME_TYPE.NET80211_FRAME_TYPE_CONTROL ∨
          Head.FrameType = NET80211_FRAME_TYPE.NET80211_FRAME_TYPE_MANAGEMENT then
            RTLW81_BULK_OUT_TYPE.Rtlw81BulkOutVo
          else RTLW81_BULK_OUT_TYPE.Rtlw81BulkOutBe) = BulkOutType
      obtain ⟨hcount, hvals, _⟩ :=
        Rtlw81pAllocateBulkOutTransfer_frame K M Device BulkOutType Kernel
      cases ha : (Rtlw81pAllocateBulkOutTransfer K M Device BulkOutType Kernel).1 with
      | none =>
          refine ⟨fun v hv => Or.inl ?_, ?_⟩
          · simpa [counterValues_append, hvals, counterValues] using hv
          · simp only [hcount, List.length_cons]
            omega
      | some Allocation =>
          simp only []
          split
          · refine ⟨fun v hv => ?_, ?_⟩
            · rcases (ih _ _ _ _).1 v hv with h | h
              · simp only [counterValues_append, hvals, counterValues, List.append_nil,
                  List.mem_append, List.mem_singleton] at h
                rcases h with h | h
                · exact Or.inl h
                · refine Or.inr ?_
                  simp only [hcount, RtlAtomicAdd32] at h
                  simp only [List.length_cons]
                  omega
              · refine Or.inr ?_
                simp only [hcount, RtlAtomicAdd32] at h
                simp only [List.length_cons]
                omega
            · refine le_trans (ih _ _ _ _).2 ?_
              simp only [hcount, RtlAtomicAdd32, List.length_cons]
              omega
          · refine ⟨fun v hv => ?_, ?_⟩
            · simp only [counterValues_append, hvals, counterValues, List.append_nil,
                List.mem_append, List.mem_cons, List.mem_singleton, List.not_mem_nil,
                or_false] at hv
              simp only [hcount, RtlAtomicAdd32, Rtlw81pFreeBulkOutTransfer] at hv
              simp only [List.length_cons]
              rcases hv with hv | hv | hv
              · exact Or.inl hv
              · exact Or.inr (by omega)
              · exact Or.inr (by omega)
            · simp only [hcount, RtlAtomicAdd32, Rtlw81pFreeBulkOutTransfer,
                List.length_cons]
              omega

/-- C6 (as stated, refuted): a device with 63 transfers in flight, at most 64, accepts a list of
two packets, and after the call `BulkOutTransferCount` is 65, above the cap of 64. -/
theorem Rtlw81Send_stretches_over_cap :
    (sampleDevice 63).BulkOutTransferCount ≤ RTLW81_MAX_BULK_OUT_TRANSFER_COUNT ∧
      (Rtlw81Send (sampleKernel 9 9) 32 2048 false KSTATUS.STATUS_SUCCESS (sampleDevice 63)
        [samplePacket 1, samplePacket 2] 0).Device.BulkOutTransferCount = 65 ∧
      ¬ (Rtlw81Send (sampleKernel 9 9) 32 2048 false KSTATUS.STATUS_SUCCESS (sampleDevice 63)
        [samplePacket 1, samplePacket 2] 0).Device.BulkOutTransferCount ≤
          RTLW81_MAX_BULK_OUT_TRANSFER_COUNT := by
  refine ⟨by decide, by decide, by decide⟩

/-- C6 (amended): the cap is tested on entry only. For a device with `BulkOutTransferCount` at
most 64, packet dropping enabled and a list of `n` packets, every value the counter takes
during a call to `Rtlw81Send`, and its value after the call, is at most the larger of 64 and
`63 + n`; for lists of at most one packet that is the cap of 64. -/
theorem Rtlw81Send_counter_flexible_cap {κ : Type} (K : KERNEL κ) (H M : Nat)
    (Status : KSTATUS) (Device : RTLW81_DEVICE) (PacketList : List NET_PACKET_BUFFER)
    (Kernel : κ)
    (capped : Device.BulkOutTransferCount ≤ RTLW81_MAX_BULK_OUT_TRANSFER_COUNT) :
    (∀ v ∈ counterValues (Rtlw81Send K H M false Status Device PacketList Kernel).Trace,
      v ≤ max RTLW81_MAX_BULK_OUT_TRANSFER_COUNT
        (RTLW81_MAX_BULK_OUT_TRANSFER_COUNT - 1 + PacketList.length)) ∧
      (Rtlw81Send K H M false Status Device PacketList Kernel).Device.BulkOutTransferCount ≤
        max RTLW81_MAX_BULK_OUT_TRANSFER_COUNT
          (RTLW81_MAX_BULK_OUT_TRANSFER_COUNT - 1 + PacketList.length) := by
  by_cases full : RTLW81_MAX_BULK_OUT_TRANSFER_COUNT ≤ Device.BulkOutTransferCount
  · rw [Rtlw81Send_full K H M Status Device PacketList Kernel full]
    exact ⟨fun v hv => by simp [counterValues] at hv, le_trans capped (le_max_left _ _)⟩
  · rw [Rtlw81Send_open K H M false Status Device PacketList Kernel (Or.inl (not_le.mp full))]
    obtain ⟨h1, h2⟩ := sendLoop_counter_bound K H M PacketList Status Device Kernel []
    simp only [RTLW81_MAX_BULK_OUT_TRANSFER_COUNT] at full ⊢
    refine ⟨fun v hv => ?_, ?_⟩
    · rcases h1 v hv with h3 | h3
      · simp [counterValues] at h3
      · refine le_trans ?_ (le_max_right _ _)
        omega
    · refine le_trans ?_ (le_max_right _ _)
      omega

/-- Witness for C6 (amended): 63 transfers in flight and two packets; the counter ends at 65,
the larger of 64 and `63 + 2`. -/
theorem Rtlw81Send_counter_flexible_cap_witness :
    (sampleDevice 63).BulkOutTransferCount ≤ RTLW81_MAX_BULK_OUT_TRANSFER_COUNT ∧
      (Rtlw81Send (sampleKernel 9 9) 32 2048 false KSTATUS.STATUS_SUCCESS (sampleDevice 63)
        [samplePacket 1, samplePacket 2] 0).Device.BulkOutTransferCount ≤
          max RTLW81_MAX_BULK_OUT_TRANSFER_COUNT
            (RTLW81_MAX_BULK_OUT_TRANSFER_COUNT - 1 + [samplePacket 1, samplePacket 2].length) :=
  ⟨by decide,
   (Rtlw81Send_counter_flexible_cap (sampleKernel 9 9) 32 2048 KSTATUS.STATUS_SUCCESS
      (sampleDevice 63) [samplePacket 1, samplePacket 2] 0 (by decide)).2⟩

/-- When the pool and the USB core never refuse, allocation yields a transfer. -/
theorem Rtlw81pAllocateBulkOutTransfer_succeeds {κ : Type} (K : KERNEL κ) (M : Nat)
    (pool : ∀ k, (K.MmAllocatePagedPool k).1 ≠ none)
    (usb : ∀ k e m, (K.UsbAllocateTransfer k e m).1 ≠ none)
    (Device : RTLW81_DEVICE) (BulkOutType : RTLW81_BULK_OUT_TYPE) (Kernel : κ) :
    (Rtlw81pAllocateBulkOutTransfer K M Device BulkOutType Kernel).1 ≠ none := by
  cases hl : Device.BulkOutFreeTransferList (Device.BulkOutTypeEndpointIndex BulkOutType) with
  | cons T Rest => simp [Rtlw81pAllocateBulkOutTransfer, hl]
  | nil =>
      cases hp : (K.MmAllocatePagedPool Kernel).1 with
      | none => exact absurd hp (pool Kernel)
      | some Allocation =>
          cases hu : (K.UsbAllocateTransfer (K.MmAllocatePagedPool Kernel).2
              (Device.BulkOutEndpoint (Device.BulkOutTypeEndpointIndex BulkOutType)) M).1 with
          | none => exact absurd hu (usb _ _ _)
          | some Handle => simp [Rtlw81pAllocateBulkOutTransfer, hl, hp, hu]

/-- The part of C9 that the code meets. When no allocation and no submission fails, the send
loop empties the list, submits one transfer per packet in list order (each packet with its
`DataOffset` moved back over the transmit header), raises the in-flight counter by the number
of packets, and ends with `STATUS_SUCCESS` provided the list was not empty or the local
`Status` held `STATUS_SUCCESS` on entry. -/
theorem sendLoop_all_sent {κ : Type} (K : KERNEL κ) (H M : Nat)
    (pool : ∀ k, (K.MmAllocatePagedPool k).1 ≠ none)
    (usb : ∀ k e m, (K.UsbAllocateTransfer k e m).1 ≠ none)
    (submit : ∀ k t, (K.UsbSubmitTransfer k t).1 = KSTATUS.STATUS_SUCCESS) :
    ∀ (PacketList : List NET_PACKET_BUFFER) (Status : KSTATUS) (Device : RTLW81_DEVICE)
      (Kernel : κ) (Trace : List EVENT),
      ((Status = KSTATUS.STATUS_SUCCESS ∨ PacketList ≠ []) →
        (sendLoop K H M Status Device Kernel Trace PacketList).Status =
          KSTATUS.STATUS_SUCCESS) ∧
      (sendLoop K H M Status Device Kernel Trace PacketList).PacketList = [] ∧
      (submitted (sendLoop K H M Status Device Kernel Trace PacketList).Trace).map
          (fun Transfer => Transfer.Packet) =
        (submitted Trace).map (fun Transfer => Transfer.Packet) ++
          PacketList.map (fun Packet =>
            some { Packet with DataOffset := (Packet.DataOffset + 2 ^ 32 - H) % 2 ^ 32 }) ∧
      (Device.BulkOutTransferCount + PacketList.length < 2 ^ 32 →
        (sendLoop K H M Status Device Kernel Trace PacketList).Device.BulkOutTransferCount =
          Device.BulkOutTransferCount + PacketList.length) := by
  intro PacketList
  induction PacketList with
  | nil =>
      intro Status Device Kernel Trace
      simp [sendLoop]
  | cons Head Rest ih =>
      intro Status Device Kernel Trace
      simp only [sendLoop]
      generalize (if Head.FrameType = NET80211_FRAME_TYPE.NET80211_FRAME_TYPE_CONTROL ∨
          Head.FrameType = NET80211_FRAME_TYPE.NET80211_FRAME_TYPE_MANAGEMENT then
            RTLW81_BULK_OUT_TYPE.Rtlw81BulkOutVo
          else RTLW81_BULK_OUT_TYPE.Rtlw81BulkOutBe) = BulkOutType
      obtain ⟨hcount, _, hsub⟩ :=
        Rtlw81pAllocateBulkOutTransfer_frame K M Device BulkOutType Kernel
      cases ha : (Rtlw81pAllocateBulkOutTransfer K M Device BulkOutType Kernel).1 with
      | none =>
          exact absurd ha
            (Rtlw81pAllocateBulkOutTransfer_succeeds K M pool usb Device BulkOutType Kernel)
      | some Allocation =>
          simp only [submit, KSUCCESS, decide_True, if_true]
          obtain ⟨h1, h2, h3, h4⟩ := ih KSTATUS.STATUS_SUCCESS
            { (Rtlw81pAllocateBulkOutTransfer K M Device BulkOutType Kernel).2.Device with
                BulkOutTransferCount := RtlAtomicAdd32
                  (Rtlw81pAllocateBulkOutTransfer K M Device BulkOutType
                    Kernel).2.Device.BulkOutTransferCount 1 }
            (K.UsbSubmitTransfer
              (Rtlw81pAllocateBulkOutTransfer K M Device BulkOutType Kernel).2.Kernel
              { Allocation with
                  Packet := some
                    { Head with DataOffset := (Head.DataOffset + 2 ^ 32 - H) % 2 ^ 32 }
                  UsbTransfer :=
                    { Allocation.UsbTransfer with
                        Length := Head.FooterOffset
                        BufferActualLength := Head.BufferSize
                        Buffer := Head.Buffer
                        BufferPhysicalAddress := Head.BufferPhysicalAddress } }).2
            (Trace ++ (Rtlw81pAllocateBulkOutTransfer K M Device BulkOutType Kernel).2.Trace ++
              [EVENT.RtlAtomicAdd32 (RtlAtomicAdd32
                (Rtlw81pAllocateBulkOutTransfer K M Device BulkOutType
                  Kernel).2.Device.BulkOutTransferCount 1),
               EVENT.UsbSubmitTransfer
                { Allocation with
                    Packet := some
                      { Head with DataOffset := (Head.DataOffset + 2 ^ 32 - H) % 2 ^ 32 }
                    UsbTransfer :=
                      { Allocation.UsbTransfer with
                          Length := Head.FooterOffset
                          BufferActualLength := Head.BufferSize
                          Buffer := Head.Buffer
                          BufferPhysicalAddress := Head.BufferPhysicalAddress } }
                KSTATUS.STATUS_SUCCESS])
          refine ⟨fun _ => h1 (Or.inl rfl), h2, ?_, ?_⟩
          · rw [h3]
            simp [submitted_append, hsub, submitted]
          · intro hlt
            simp only [List.length_cons] at hlt
            have h5 : (Device.BulkOutTransferCount + 1) % 2 ^ 32 =
                Device.BulkOutTransferCount + 1 := Nat.mod_eq_of_lt (by omega)
            simp only [hcount, RtlAtomicAdd32, h5] at h4 ⊢
            simp only [List.length_cons]
            have := h4 (by omega)
            omega

/-- For a list that is not empty the statement of C9 holds: below the ceiling (or with packet
dropping disabled), when no allocation and no submission fails, `Rtlw81Send` returns
`STATUS_SUCCESS`, leaves the list empty, submits one transfer per packet in list order and
raises the in-flight counter by the number of packets. -/
theorem Rtlw81Send_all_sent {κ : Type} (K : KERNEL κ) (H M : Nat)
    (pool : ∀ k, (K.MmAllocatePagedPool k).1 ≠ none)
    (usb : ∀ k e m, (K.UsbAllocateTransfer k e m).1 ≠ none)
    (submit : ∀ k t, (K.UsbSubmitTransfer k t).1 = KSTATUS.STATUS_SUCCESS)
    (Dropping : Bool) (Status : KSTATUS) (Device : RTLW81_DEVICE)
    (PacketList : List NET_PACKET_BUFFER) (Kernel : κ)
    (room : Device.BulkOutTransferCount < RTLW81_MAX_BULK_OUT_TRANSFER_COUNT ∨
      Dropping = true)
    (nonempty : PacketList ≠ []) :
    (Rtlw81Send K H M Dropping Status Device PacketList Kernel).Status =
        KSTATUS.STATUS_SUCCESS ∧
      (Rtlw81Send K H M Dropping Status Device PacketList Kernel).PacketList = [] ∧
      (submitted (Rtlw81Send K H M Dropping Status Device PacketList Kernel).Trace).map
          (fun Transfer => Transfer.Packet) =
        PacketList.map (fun Packet =>
          some { Packet with DataOffset := (Packet.DataOffset + 2 ^ 32 - H) % 2 ^ 32 }) ∧
      (Device.BulkOutTransferCount + PacketList.length < 2 ^ 32 →
        (Rtlw81Send K H M Dropping Status Device PacketList Kernel).Device.BulkOutTransferCount =
          Device.BulkOutTransferCount + PacketList.length) := by
  rw [Rtlw81Send_open K H M Dropping Status Device PacketList Kernel room]
  obtain ⟨h1, h2, h3, h4⟩ :=
    sendLoop_all_sent K H M pool usb submit PacketList Status Device Kernel []
  exact ⟨h1 (Or.inr nonempty), h2, by simpa [submitted] using h3, h4⟩

/-- An instance of `Rtlw81Send_all_sent`: three packets on a device with 62 transfers in
flight and a kernel that never refuses; the uninitialised `Status` is overwritten. -/
theorem Rtlw81Send_all_sent_witness :
    (Rtlw81Send willingKernel 32 2048 false (KSTATUS.STATUS_CODE 9) (sampleDevice 62)
        [samplePacket 1, samplePacket 2, samplePacket 3] 0).Status = KSTATUS.STATUS_SUCCESS ∧
      (Rtlw81Send willingKernel 32 2048 false (KSTATUS.STATUS_CODE 9) (sampleDevice 62)
        [samplePacket 1, samplePacket 2, samplePacket 3] 0).Device.BulkOutTransferCount =
          62 + 3 :=
  have h := Rtlw81Send_all_sent willingKernel 32 2048 (fun _ => by simp [willingKernel])
    (fun _ _ _ => by simp [willingKernel]) (fun _ _ => rfl) false (KSTATUS.STATUS_CODE 9)
    (sampleDevice 62) [samplePacket 1, samplePacket 2, samplePacket 3] 0
    (Or.inl (by decide)) (by simp)
  ⟨h.1, h.2.2.2 (by decide)⟩

end Rtlw81

/-! ## Theorems: IPI lines -/

namespace Hl

/-- C13: `HlpInterruptGetRequiredIpiLineCount` returns 5, and `HlpInterruptGetIpiLineIndex`
maps the packet, TLB flush, NMI, profiler and clock IPI types to the line indexes 0, 1, 2, 3
and 4: pairwise distinct, each below 5, with the assertion of the routine holding every
time. -/
theorem HlpInterruptGetIpiLineIndex_valid_types :
    HlpInterruptGetRequiredIpiLineCount = 5 ∧
      validIpiTypes.map (fun t => (HlpInterruptGetIpiLineIndex t.value).Index) =
        [0, 1, 2, 3, 4] ∧
      (validIpiTypes.map (fun t => (HlpInterruptGetIpiLineIndex t.value).Index)).Nodup ∧
      (∀ t : IPI_TYPE, t ≠ IPI_TYPE.IpiTypeInvalid →
        (HlpInterruptGetIpiLineIndex t.value).Index < HlpInterruptGetRequiredIpiLineCount ∧
        (HlpInterruptGetIpiLineIndex t.value).AssertionHeld = true) := by
  refine ⟨rfl, by decide, by decide, ?_⟩
  intro t ht
  cases t
  · exact absurd rfl ht
  all_goals exact ⟨by decide, by decide⟩

/-- Witness for C13: the clock IPI uses line 4. -/
theorem HlpInterruptGetIpiLineIndex_valid_types_witness :
    (HlpInterruptGetIpiLineIndex IPI_TYPE.IpiTypeClock.value).Index <
        HlpInterruptGetRequiredIpiLineCount ∧
      (HlpInterruptGetIpiLineIndex IPI_TYPE.IpiTypeClock.value).AssertionHeld = true :=
  HlpInterruptGetIpiLineIndex_valid_types.2.2.2 IPI_TYPE.IpiTypeClock (by decide)

/-- C14: for every valid IPI type `t` the vector of the line index of `t` is the vector of
`t`, and for every line index below `HlpInterruptGetRequiredIpiLineCount`
`HlpInterruptGetVectorForIpiLineIndex` returns the vector of a valid IPI type without going
through the failing assertion. -/
theorem HlpInterruptGetVectorForIpiLineIndex_agrees (V : IPI_VECTORS) :
    (∀ t : IPI_TYPE, t ≠ IPI_TYPE.IpiTypeInvalid →
      HlpInterruptGetVectorForIpiLineIndex V (HlpInterruptGetIpiLineIndex t.value).Index =
        HlpInterruptGetIpiVector V t.value) ∧
    (∀ Index : Nat, Index < HlpInterruptGetRequiredIpiLineCount →
      (HlpInterruptGetVectorForIpiLineIndex V Index).AssertionFailed = false ∧
      ∃ t : IPI_TYPE, t ≠ IPI_TYPE.IpiTypeInvalid ∧
        (HlpInterruptGetIpiLineIndex t.value).Index = Index ∧
        HlpInterruptGetVectorForIpiLineIndex V Index = HlpInterruptGetIpiVector V t.value ∧
        (HlpInterruptGetIpiVector V t.value).AssertionFailed = false) := by
  constructor
  · intro t ht
    cases t
    · exact absurd rfl ht
    all_goals rfl
  · intro Index hlt
    have h5 : Index < 5 := hlt
    interval_cases Index
    · exact ⟨rfl, IPI_TYPE.IpiTypePacket, by decide, rfl, rfl, rfl⟩
    · exact ⟨rfl, IPI_TYPE.IpiTypeTlbFlush, by decide, rfl, rfl, rfl⟩
    · exact ⟨rfl, IPI_TYPE.IpiTypeNmi, by decide, rfl, rfl, rfl⟩
    · exact ⟨rfl, IPI_TYPE.IpiTypeProfiler, by decide, rfl, rfl, rfl⟩
    · exact ⟨rfl, IPI_TYPE.IpiTypeClock, by decide, rfl, rfl, rfl⟩

/-- Witness for C14: the NMI type and line index 2. -/
theorem HlpInterruptGetVectorForIpiLineIndex_agrees_witness :
    HlpInterruptGetVectorForIpiLineIndex sampleVectors
        (HlpInterruptGetIpiLineIndex IPI_TYPE.IpiTypeNmi.value).Index =
      HlpInterruptGetIpiVector sampleVectors IPI_TYPE.IpiTypeNmi.value ∧
    (HlpInterruptGetVectorForIpiLineIndex sampleVectors 2).AssertionFailed = false :=
  ⟨(HlpInterruptGetVectorForIpiLineIndex_agrees sampleVectors).1 IPI_TYPE.IpiTypeNmi
      (by decide),
   ((HlpInterruptGetVectorForIpiLineIndex_agrees sampleVectors).2 2 (by decide)).1⟩

end Hl

/-! ## Theorems: file I/O of the C library -/

namespace Libc

theorem toSigned_of_lt (Bits Value : Nat) (fits : Value < 2 ^ (Bits - 1)) :
    toSigned Bits Value = Value := by
  have h1 : 2 ^ (Bits - 1) ≤ 2 ^ Bits := Nat.pow_le_pow_right (by decide) (Nat.sub_le _ _)
  have h2 : Value % 2 ^ Bits = Value := Nat.mod_eq_of_lt (lt_of_lt_of_le fits h1)
  simp [toSigned, h2, fits]

theorem toSigned_all_ones (Bits : Nat) (wide : 0 < Bits) :
    toSigned Bits (2 ^ Bits - 1) = -1 := by
  have h0 : 0 < 2 ^ Bits := Nat.pow_pos (by decide)
  have h1 : 2 ^ (Bits - 1) < 2 ^ Bits := Nat.pow_lt_pow_right (by decide) (by omega)
  have h2 : (2 ^ Bits - 1) % 2 ^ Bits = 2 ^ Bits - 1 := Nat.mod_eq_of_lt (by omega)
  have h3 : ¬ (2 ^ Bits - 1 < 2 ^ (Bits - 1)) := by omega
  simp only [toSigned, h2, h3, if_false]
  have h4 : ((2 ^ Bits - 1 : Nat) : Int) = (2 ^ Bits : Nat) - 1 := by
    rw [Nat.cast_sub h0]
    simp
  rw [h4]
  push_cast
  ring

/-- The shared tail of `read` and `pread` meets the stated outcome for every status and every
byte count that `ssize_t` can hold. -/
theorem completeIo_eq_readOutcome (C : LIBC_CONSTANTS) (S : SYSTEM) (Bits : Nat)
    (Status : KSTATUS) (BytesCompleted : Nat) (wide : 0 < Bits)
    (fits : BytesCompleted < 2 ^ (Bits - 1)) :
    completeIo C S Bits Status BytesCompleted = readOutcome C S Status BytesCompleted := by
  have h1 : 2 ^ (Bits - 1) ≤ 2 ^ Bits := Nat.pow_le_pow_right (by decide) (Nat.sub_le _ _)
  have h2 : BytesCompleted % 2 ^ Bits = BytesCompleted :=
    Nat.mod_eq_of_lt (lt_of_lt_of_le fits h1)
  have h3 := toSigned_of_lt Bits BytesCompleted fits
  have h4 := toSigned_all_ones Bits wide
  unfold completeIo readOutcome
  rw [h2, h3, h4]
  by_cases ht : Status = KSTATUS.STATUS_TIMEOUT
  · subst ht
    by_cases hz : BytesCompleted = 0 <;> simp [hz]
  · by_cases hs : Status = KSTATUS.STATUS_SUCCESS
    · subst hs
      simp [KSUCCESS]
    · by_cases he : Status = KSTATUS.STATUS_END_OF_FILE
      · subst he
        simp [KSUCCESS]
      · by_cases hz : BytesCompleted = 0 <;> simp [KSUCCESS, ht, hs, he, hz]

/-- C18 (amended): for every status and every completed byte count reported by `OsPerformIo`
that `ssize_t` can hold (a count below `2 ^ (Bits - 1)`), `read` returns the byte count with
`errno` untouched when the status is a success or `STATUS_END_OF_FILE`; on `STATUS_TIMEOUT` it
returns the byte count if that is not zero and otherwise -1 with `errno = EAGAIN`; on any other
failure it sets `errno` to the translated status and returns the byte count if that is not
zero and otherwise -1. `pread` maps the same pair to the same result. -/
theorem read_and_pread_outcome (C : LIBC_CONSTANTS) (S : SYSTEM) (Bits : Nat)
    (FileDescriptor : Int) (ByteCount : Nat) (Offset : Int) (Status : KSTATUS)
    (BytesCompleted : Nat) (wide : 0 < Bits) (fits : BytesCompleted < 2 ^ (Bits - 1)) :
    (S.OsPerformIo (toUnsigned Bits FileDescriptor) C.IO_OFFSET_NONE ByteCount =
        (Status, BytesCompleted) →
      read C S Bits FileDescriptor ByteCount = readOutcome C S Status BytesCompleted) ∧
    (S.OsPerformIo (toUnsigned Bits FileDescriptor) Offset ByteCount =
        (Status, BytesCompleted) →
      pread C S Bits FileDescriptor ByteCount Offset =
        readOutcome C S Status BytesCompleted) := by
  constructor
  · intro h
    simp only [read, h]
    exact completeIo_eq_readOutcome C S Bits Status BytesCompleted wide fits
  · intro h
    simp only [pread, h]
    exact completeIo_eq_readOutcome C S Bits Status BytesCompleted wide fits

/-- Witness for C18 (amended): a read of 10 bytes that the kernel completes. -/
theorem read_and_pread_outcome_witness :
    0 < 32 ∧ 10 < 2 ^ (32 - 1) ∧
      read sampleConstants (sampleSystem 0) 32 3 10 =
        readOutcome sampleConstants (sampleSystem 0) KSTATUS.STATUS_SUCCESS 10 ∧
      pread sampleConstants (sampleSystem 0) 32 3 10 512 =
        readOutcome sampleConstants (sampleSystem 0) KSTATUS.STATUS_SUCCESS 10 :=
  ⟨by decide, by decide,
   (read_and_pread_outcome sampleConstants (sampleSystem 0) 32 3 10 512
      KSTATUS.STATUS_SUCCESS 10 (by decide) (by decide)).1 rfl,
   (read_and_pread_outcome sampleConstants (sampleSystem 0) 32 3 10 512
      KSTATUS.STATUS_SUCCESS 10 (by decide) (by decide)).2 rfl⟩


/-- C18 (as stated, refuted): when `OsPerformIo` reports success and a completed byte count of
`2 ^ 32 - 1` on a system whose `UINTN` and `ssize_t` have 32 bits, `read` and `pread` do not
return the byte count: the count does not fit `ssize_t`, and `(ssize_t)BytesCompleted` is -1,
returned with `errno` untouched. -/
theorem read_returns_converted_byte_count :
    (sampleSystem 0).OsPerformIo (toUnsigned 32 3) sampleConstants.IO_OFFSET_NONE (2 ^ 32 - 1) =
        (KSTATUS.STATUS_SUCCESS, 2 ^ 32 - 1) ∧
      read sampleConstants (sampleSystem 0) 32 3 (2 ^ 32 - 1) = ⟨-1, []⟩ ∧
      pread sampleConstants (sampleSystem 0) 32 3 (2 ^ 32 - 1) 512 = ⟨-1, []⟩ ∧
      readOutcome sampleConstants (sampleSystem 0) KSTATUS.STATUS_SUCCESS (2 ^ 32 - 1) =
        ⟨2 ^ 32 - 1, []⟩ ∧
      read sampleConstants (sampleSystem 0) 32 3 (2 ^ 32 - 1) ≠
        readOutcome sampleConstants (sampleSystem 0) KSTATUS.STATUS_SUCCESS (2 ^ 32 - 1) := by
  refine ⟨by decide, by decide, by decide, by decide, by decide⟩

/-- C17 (code defect): with a valid `Whence` and a kernel seek that succeeds and lands on
offset `2 ^ 63`, above `MAX_LONGLONG`, `lseek` returns -1 and sets `errno` to the translation
of `STATUS_INTEGER_OVERFLOW`, although the kernel seek was issued and did not fail. -/
theorem lseek_fails_after_successful_seek :
    lseek sampleConstants (sampleSystem (2 ^ 63)) 32 0 3 0 WHENCE.SEEK_SET =
      ⟨-1, [75], some (KSTATUS.STATUS_SUCCESS, 2 ^ 63)⟩ := by
  decide

/-- C15 (code defect): for a lock request with `l_whence = SEEK_SET`, `l_start = 100` and
`l_len = -10`, `fcntl` hands the kernel `Offset = 0` and `Size = 2 ^ 64 - 100`, not the ten
bytes before offset 100 (`Offset = 90`, `Size = 10`); `lockf` with size -10 at file offset 100
hands the kernel the same region. -/
theorem fcntl_negative_length_region :
    (fcntl sampleConstants (sampleSystem 0) 32 0 sampleParameters 3 FCNTL_COMMAND.F_SETLK 0
        ⟨LOCK_TYPE.F_WRLCK, WHENCE.SEEK_SET, 100, -10, 0⟩).Control =
      some (FILE_CONTROL_COMMAND.FileControlCommandSetLock,
        { sampleParameters with
            FileLock := ⟨FILE_LOCK_TYPE.FileLockReadWrite, 0, 2 ^ 64 - 100, 0⟩ }) ∧
    sortOutLength 100 (-10) ≠ (90, 10) ∧
    (lockf sampleConstants (sampleSystem 100) 32 0 sampleParameters 3 LOCKF_FUNCTION.F_TLOCK
        (-10)).Control =
      some (FILE_CONTROL_COMMAND.FileControlCommandSetLock,
        { sampleParameters with
            FileLock := ⟨FILE_LOCK_TYPE.FileLockReadWrite, 0, 2 ^ 64 - 100, 0⟩ }) := by
  refine ⟨by decide, by decide, by decide⟩

/-- C16 (code defect): when the kernel answers the file control call with success, `fcntl`
with `F_GETOWN` or `F_SETOWN` returns -1 and assigns nothing to `errno`. -/
theorem fcntl_getown_returns_error_without_errno :
    fcntl sampleConstants (sampleSystem 0) 32 0 sampleParameters 3 FCNTL_COMMAND.F_GETOWN 0
        ⟨LOCK_TYPE.F_WRLCK, WHENCE.SEEK_SET, 0, 0, 0⟩ =
      ⟨-1, [], ⟨LOCK_TYPE.F_WRLCK, WHENCE.SEEK_SET, 0, 0, 0⟩,
        some (FILE_CONTROL_COMMAND.FileControlCommandInvalid, sampleParameters)⟩ ∧
    (fcntl sampleConstants (sampleSystem 0) 32 0 sampleParameters 3 FCNTL_COMMAND.F_SETOWN 0
        ⟨LOCK_TYPE.F_WRLCK, WHENCE.SEEK_SET, 0, 0, 0⟩).Return = -1 ∧
    (fcntl sampleConstants (sampleSystem 0) 32 0 sampleParameters 3 FCNTL_COMMAND.F_SETOWN 0
        ⟨LOCK_TYPE.F_WRLCK, WHENCE.SEEK_SET, 0, 0, 0⟩).ErrnoWrites = [] := by
  refine ⟨by decide, by decide, by decide⟩

end Libc

namespace Libc

/-- The block that sorts out a negative length does not compute the region before the start
offset: for every negative `l_len` and every start offset that `off_t` can hold, it hands the
kernel offset zero and the size `2 ^ 64 - Offset` (zero when the offset is zero). -/
theorem sortOutLength_negative (Offset : Nat) (Length : Int) (negative : Length < 0)
    (bounded : -(2 : Int) ^ 63 ≤ Length) (representable : Offset < 2 ^ 63) :
    sortOutLength Offset Length = (0, (2 ^ 64 - Offset) % 2 ^ 64) := by
  have h1 : toUnsigned 64 Length = (2 ^ 64 + Length).toNat := by
    unfold toUnsigned
    congr 1
    omega
  have h2 : Offset < toUnsigned 64 Length := by
    rw [h1]
    omega
  have h3 : toSigned 64 Offset = Offset := toSigned_of_lt 64 Offset (by simpa using representable)
  simp only [sortOutLength, negative, if_true, h2, h3, sub_self]
  refine Prod.ext ?_ ?_
  · simp [toUnsigned]
  · simp only [toUnsigned, toSigned]
    omega

theorem lseekEnd_seek (C : LIBC_CONSTANTS) (S : SYSTEM) (Status : KSTATUS) (NewOffset : Nat)
    (Seek : Option (KSTATUS × Nat)) : (lseekEnd C S Status NewOffset Seek).Seek = Seek := by
  unfold lseekEnd
  split
  · split <;> rfl
  · rfl

theorem lseekEnd_success (C : LIBC_CONSTANTS) (S : SYSTEM) (Status : KSTATUS) (NewOffset : Nat)
    (Seek : Option (KSTATUS × Nat)) (success : KSUCCESS Status = true) :
    lseekEnd C S Status NewOffset Seek = ⟨toSigned 64 NewOffset, [], Seek⟩ := by
  simp [lseekEnd, success]

/-- The three ways in which `lseek` returns -1: the kernel seek was not issued, or it was
issued and failed, or it was issued, succeeded and reported an offset above
`MAX_LONGLONG`. -/
theorem lseek_error_cases (C : LIBC_CONSTANTS) (S : SYSTEM) (Bits : Nat) (NewOffset0 : Nat)
    (FileDescriptor : Int) (Offset : Int) (Whence : WHENCE)
    (failed : (lseek C S Bits NewOffset0 FileDescriptor Offset Whence).Return = -1) :
    (lseek C S Bits NewOffset0 FileDescriptor Offset Whence).Seek = none ∨
    (∃ Seek, (lseek C S Bits NewOffset0 FileDescriptor Offset Whence).Seek = some Seek ∧
      (KSUCCESS Seek.1 = false ∨
        (KSUCCESS Seek.1 = true ∧ MAX_LONGLONG < Seek.2 % 2 ^ 64))) := by
  have key : ∀ Command : SEEK_COMMAND,
      (if (!KSUCCESS (S.OsSeek (toUnsigned Bits FileDescriptor) Command Offset).1) = true then
          lseekEnd C S (S.OsSeek (toUnsigned Bits FileDescriptor) Command Offset).1
            ((S.OsSeek (toUnsigned Bits FileDescriptor) Command Offset).2 % 2 ^ 64)
            (some (S.OsSeek (toUnsigned Bits FileDescriptor) Command Offset))
        else if (S.OsSeek (toUnsigned Bits FileDescriptor) Command Offset).2 % 2 ^ 64 >
            MAX_LONGLONG then
          lseekEnd C S KSTATUS.STATUS_INTEGER_OVERFLOW
            ((S.OsSeek (toUnsigned Bits FileDescriptor) Command Offset).2 % 2 ^ 64)
            (some (S.OsSeek (toUnsigned Bits FileDescriptor) Command Offset))
        else
          lseekEnd C S (S.OsSeek (toUnsigned Bits FileDescriptor) Command Offset).1
            ((S.OsSeek (toUnsigned Bits FileDescriptor) Command Offset).2 % 2 ^ 64)
            (some (S.OsSeek (toUnsigned Bits FileDescriptor) Command Offset))).Return = -1 →
      ∃ Seek,
        (if (!KSUCCESS (S.OsSeek (toUnsigned Bits FileDescriptor) Command Offset).1) = true then
          lseekEnd C S (S.OsSeek (toUnsigned Bits FileDescriptor) Command Offset).1
            ((S.OsSeek (toUnsigned Bits FileDescriptor) Command Offset).2 % 2 ^ 64)
            (some (S.OsSeek (toUnsigned Bits FileDescriptor) Command Offset))
        else if (S.OsSeek (toUnsigned Bits FileDescriptor) Command Offset).2 % 2 ^ 64 >
            MAX_LONGLONG then
          lseekEnd C S KSTATUS.STATUS_INTEGER_OVERFLOW
            ((S.OsSeek (toUnsigned Bits FileDescriptor) Command Offset).2 % 2 ^ 64)
            (some (S.OsSeek (toUnsigned Bits FileDescriptor) Command Offset))
        else
          lseekEnd C S (S.OsSeek (toUnsigned Bits FileDescriptor) Command Offset).1
            ((S.OsSeek (toUnsigned Bits FileDescriptor) Command Offset).2 % 2 ^ 64)
            (some (S.OsSeek (toUnsigned Bits FileDescriptor) Command Offset))).Seek =
          some Seek ∧
        (KSUCCESS Seek.1 = false ∨
          (KSUCCESS Seek.1 = true ∧ MAX_LONGLONG < Seek.2 % 2 ^ 64)) := by
    intro Command
    generalize S.OsSeek (toUnsigned Bits FileDescriptor) Command Offset = r
    intro hfail
    refine ⟨r, ?_, ?_⟩
    · split
      · exact lseekEnd_seek _ _ _ _ _
      · split <;> exact lseekEnd_seek _ _ _ _ _
    · cases hk : KSUCCESS r.1 with
      | false => exact Or.inl rfl
      | true =>
          refine Or.inr ⟨rfl, ?_⟩
          by_contra hle
          have hle2 : r.2 % 2 ^ 64 ≤ MAX_LONGLONG := not_lt.mp hle
          have hlt : r.2 % 2 ^ 64 < 2 ^ (64 - 1) := by
            unfold MAX_LONGLONG at hle2
            omega
          simp only [hk, Bool.not_true, Bool.false_eq_true, if_false, not_lt.mpr hle2,
            gt_iff_lt] at hfail
          rw [lseekEnd_success C S r.1 _ _ hk, toSigned_of_lt 64 _ hlt] at hfail
          simp only at hfail
          omega
  cases Whence with
  | SEEK_OTHER n =>
      left
      simp only [lseek]
      exact lseekEnd_seek _ _ _ _ _
  | SEEK_SET => exact Or.inr (key _ failed)
  | SEEK_CUR => exact Or.inr (key _ failed)
  | SEEK_END => exact Or.inr (key _ failed)

end Libc

/-! ## Theorems: bulk-in completion -/

namespace Rtlw81

theorem resubmitted_append (a b : List BULK_IN_EVENT) :
    resubmitted (a ++ b) = resubmitted a ++ resubmitted b := by
  induction a with
  | nil => rfl
  | cons e t ih => cases e <;> simp [resubmitted, ih]

theorem delivered_append (a b : List BULK_IN_EVENT) :
    delivered (a ++ b) = delivered a ++ delivered b := by
  induction a with
  | nil => rfl
  | cons e t ih => cases e <;> simp [delivered, ih]

theorem haltsCleared_append (a b : List BULK_IN_EVENT) :
    haltsCleared (a ++ b) = haltsCleared a ++ haltsCleared b := by
  induction a with
  | nil => rfl
  | cons e t ih => cases e <;> simp [haltsCleared, ih]

/-- A list of deliveries holds no resubmission and no halt clearing. -/
theorem deliveries_only (NetworkLink : Nat) (Packets : List RECEIVED_PACKET) :
    resubmitted (Packets.map (BULK_IN_EVENT.NetProcessReceivedPacket NetworkLink)) = [] ∧
      haltsCleared (Packets.map (BULK_IN_EVENT.NetProcessReceivedPacket NetworkLink)) = [] ∧
      delivered (Packets.map (BULK_IN_EVENT.NetProcessReceivedPacket NetworkLink)) =
        Packets := by
  induction Packets with
  | nil => exact ⟨rfl, rfl, rfl⟩
  | cons p t ih => simp [resubmitted, haltsCleared, delivered, ih]

theorem ALIGN_RANGE_UP_bounds (Value Size : Nat) (positive : 0 < Size) :
    Value ≤ ALIGN_RANGE_UP Value Size ∧ ALIGN_RANGE_UP Value Size < Value + Size := by
  unfold ALIGN_RANGE_UP
  have h1 := Nat.div_add_mod (Value + Size - 1) Size
  have h2 := Nat.mod_lt (Value + Size - 1) positive
  rw [Nat.mul_comm] at h1
  constructor <;> omega

theorem masked_field_le (Value Mask Shift : Nat) :
    (Value &&& Mask) >>> Shift ≤ Mask >>> Shift := by
  rw [Nat.shiftRight_eq_div_pow, Nat.shiftRight_eq_div_pow]
  exact Nat.div_le_div_right Nat.and_le_right

/-- The parsing loop is left after at most `Length + 1` iterations, whatever the buffer holds
and whatever `PacketCount` is, and it adds nothing but deliveries to the trace. -/
theorem parsePackets_terminates (K : RECEIVE_CONSTANTS) (sized : K.wellSized)
    (Memory : Nat → RTLW81_RECEIVE_HEADER) (NetworkLink : Nat) :
    ∀ (fuel PacketCount Data PhysicalAddress Length : Nat) (Trace : List BULK_IN_EVENT),
      Length < fuel →
      ∃ Packets : List RECEIVED_PACKET,
        parsePackets K Memory NetworkLink fuel PacketCount Data PhysicalAddress Length Trace =
          some (Trace ++ Packets.map (BULK_IN_EVENT.NetProcessReceivedPacket NetworkLink)) := by
  obtain ⟨hH, hA, hsum⟩ := sized
  intro fuel
  induction fuel with
  | zero => intro _ _ _ Length _ h; omega
  | succ n ih =>
      intro PacketCount Data PhysicalAddress Length Trace hlt
      simp only [parsePackets]
      split
      · exact ⟨[], by simp⟩
      split
      · exact ⟨[], by simp⟩
      split
      · exact ⟨[], by simp⟩
      split
      · exact ⟨[], by simp⟩
      split
      · exact ⟨[], by simp⟩
      split
      · exact ⟨[_], rfl⟩
      · rename_i hcont
        have hPL := masked_field_le (Memory Data).LengthAndErrorFlags
          K.RTLW81_RECEIVE_PACKET_LENGTH_MASK K.RTLW81_RECEIVE_PACKET_LENGTH_SHIFT
        have hIS := masked_field_le (Memory Data).Status
          K.RTLW81_RECEIVE_STATUS_INFO_SIZE_MASK K.RTLW81_RECEIVE_STATUS_INFO_SIZE_SHIFT
        generalize hpl : ((Memory Data).LengthAndErrorFlags &&&
          K.RTLW81_RECEIVE_PACKET_LENGTH_MASK) >>> K.RTLW81_RECEIVE_PACKET_LENGTH_SHIFT = PL
          at hPL hcont ⊢
        generalize his : ((Memory Data).Status &&&
          K.RTLW81_RECEIVE_STATUS_INFO_SIZE_MASK) >>> K.RTLW81_RECEIVE_STATUS_INFO_SIZE_SHIFT = IS
          at hIS hcont ⊢
        have hT : (PL + IS * 8 % 2 ^ 32 + K.HeaderSize) % 2 ^ 32 =
            PL + IS * 8 + K.HeaderSize := by
          have h1 : IS * 8 % 2 ^ 32 = IS * 8 := Nat.mod_eq_of_lt (by omega)
          rw [h1]
          exact Nat.mod_eq_of_lt (by omega)
        rw [hT] at hcont ⊢
        obtain ⟨hlo, hhi⟩ := ALIGN_RANGE_UP_bounds (PL + IS * 8 + K.HeaderSize)
          K.RTLW81_BULK_IN_PACKET_ALIGNMENT hA
        have hAl : ALIGN_RANGE_UP (PL + IS * 8 + K.HeaderSize)
            K.RTLW81_BULK_IN_PACKET_ALIGNMENT % 2 ^ 32 =
              ALIGN_RANGE_UP (PL + IS * 8 + K.HeaderSize)
                K.RTLW81_BULK_IN_PACKET_ALIGNMENT := Nat.mod_eq_of_lt (by omega)
        rw [hAl] at hcont ⊢
        obtain ⟨Packets, hp⟩ := ih PacketCount
          (Data + ALIGN_RANGE_UP (PL + IS * 8 + K.HeaderSize) K.RTLW81_BULK_IN_PACKET_ALIGNMENT)
          (PhysicalAddress +
            ALIGN_RANGE_UP (PL + IS * 8 + K.HeaderSize) K.RTLW81_BULK_IN_PACKET_ALIGNMENT)
          (Length -
            ALIGN_RANGE_UP (PL + IS * 8 + K.HeaderSize) K.RTLW81_BULK_IN_PACKET_ALIGNMENT)
          (Trace ++ [BULK_IN_EVENT.NetProcessReceivedPacket NetworkLink
            { Buffer := Data + K.HeaderSize + IS * 8 % 2 ^ 32
              BufferPhysicalAddress := PhysicalAddress + K.HeaderSize + IS * 8 % 2 ^ 32
              BufferSize := PL, DataSize := PL, DataOffset := 0, FooterOffset := PL }])
          (by omega)
        refine ⟨{ Buffer := Data + K.HeaderSize + IS * 8 % 2 ^ 32
                  BufferPhysicalAddress := PhysicalAddress + K.HeaderSize + IS * 8 % 2 ^ 32
                  BufferSize := PL, DataSize := PL, DataOffset := 0, FooterOffset := PL } ::
          Packets, ?_⟩
        rw [hp]
        simp

/-- C11: for every completed bulk-in transfer and every buffer content,
`Rtlw81BulkInTransferCompletion` returns (once the bound on loop iterations exceeds the
transferred length) and resubmits the same transfer exactly once, as the last call it makes.
When the transfer status is a failure it delivers no packet, and its trace is the
resubmission alone, preceded by the clearing of the halt feature of the bulk-in endpoint if
and only if the transfer error is `UsbErrorTransferStalled`. The halt feature is cleared in no
other case. -/
theorem Rtlw81BulkInTransferCompletion_resubmits (K : RECEIVE_CONSTANTS)
    (Memory : Nat → RTLW81_RECEIVE_HEADER) (Device : RECEIVE_DEVICE) (fuel : Nat)
    (Transfer : BULK_IN_TRANSFER) (sized : K.wellSized)
    (enough : Transfer.LengthTransferred < fuel) :
    ∃ Trace : List BULK_IN_EVENT,
      Rtlw81BulkInTransferCompletion K Memory Device fuel Transfer = some Trace ∧
      resubmitted Trace = [Transfer.Handle] ∧
      Trace.getLast? = some (BULK_IN_EVENT.UsbSubmitTransfer Transfer.Handle) ∧
      (KSUCCESS Transfer.Status = false →
        delivered Trace = [] ∧
        Trace =
          (if Transfer.Error = USB_ERROR.UsbErrorTransferStalled then
            [BULK_IN_EVENT.UsbClearFeature Device.UsbCoreHandle Device.BulkInEndpoint]
           else []) ++ [BULK_IN_EVENT.UsbSubmitTransfer Transfer.Handle]) ∧
      (haltsCleared Trace ≠ [] ↔
        (KSUCCESS Transfer.Status = false ∧
          Transfer.Error = USB_ERROR.UsbErrorTransferStalled)) := by
  cases hs : KSUCCESS Transfer.Status with
  | false =>
      by_cases he : Transfer.Error = USB_ERROR.UsbErrorTransferStalled
      · refine ⟨_, by simp only [Rtlw81BulkInTransferCompletion, hs, he]; rfl, ?_, ?_, ?_, ?_⟩
        · simp [resubmitted]
        · simp
        · intro _
          simp [delivered, he]
        · simp [haltsCleared, he]
      · refine ⟨_, by simp only [Rtlw81BulkInTransferCompletion, hs, he]; rfl, ?_, ?_, ?_, ?_⟩
        · simp [resubmitted]
        · simp
        · intro _
          simp [delivered, he]
        · simp [haltsCleared, he]
  | true =>
      by_cases hl : Transfer.LengthTransferred < K.HeaderSize
      · refine ⟨_, by simp only [Rtlw81BulkInTransferCompletion, hs, hl]; rfl, ?_, ?_, ?_, ?_⟩
        · simp [resubmitted]
        · simp
        · intro h
          cases h
        · simp [haltsCleared]
      · obtain ⟨Packets, hp⟩ := parsePackets_terminates K sized Memory Device.NetworkLink fuel
          (Memory Transfer.Buffer).PacketCount Transfer.Buffer Transfer.BufferPhysicalAddress
          Transfer.LengthTransferred [] enough
        obtain ⟨h1, h2, _⟩ := deliveries_only Device.NetworkLink Packets
        refine ⟨_, by simp only [Rtlw81BulkInTransferCompletion, hs, hl, hp]; rfl, ?_, ?_, ?_, ?_⟩
        · simp [resubmitted_append, h1, resubmitted]
        · simp
        · intro h
          cases h
        · simp [haltsCleared_append, h2, haltsCleared]

/-- Witness for C11: a stalled transfer; the halt feature of endpoint 129 is cleared and the
transfer is resubmitted. -/
theorem Rtlw81BulkInTransferCompletion_resubmits_witness :
    sampleReceiveConstants.wellSized ∧
      Rtlw81BulkInTransferCompletion sampleReceiveConstants sampleMemory sampleReceiveDevice 1
          (sampleBulkInTransfer (KSTATUS.STATUS_CODE 7) USB_ERROR.UsbErrorTransferStalled 0) =
        some [BULK_IN_EVENT.UsbClearFeature 1 129, BULK_IN_EVENT.UsbSubmitTransfer 900] ∧
      ∃ Trace : List BULK_IN_EVENT,
        Rtlw81BulkInTransferCompletion sampleReceiveConstants sampleMemory sampleReceiveDevice
            301 (sampleBulkInTransfer KSTATUS.STATUS_SUCCESS USB_ERROR.UsbErrorNone 300) =
          some Trace ∧
        resubmitted Trace = [900] :=
  have sized : sampleReceiveConstants.wellSized := by
    refine ⟨by decide, by decide, ?_⟩
    simp [sampleReceiveConstants, Nat.shiftRight_eq_div_pow]
  ⟨sized, by decide,
   by
    obtain ⟨Trace, h1, h2, _⟩ := Rtlw81BulkInTransferCompletion_resubmits
      sampleReceiveConstants sampleMemory sampleReceiveDevice 301
      (sampleBulkInTransfer KSTATUS.STATUS_SUCCESS USB_ERROR.UsbErrorNone 300) sized
      (by decide)
    exact ⟨Trace, h1, h2⟩⟩

end Rtlw81

/-! ## Theorems: initialization status -/

namespace Rtlw81

/-- Every status listed by `failedAccesses` is a failure. -/
theorem failedAccesses_fail :
    ∀ (Body : List INITIALIZE_STEP) (Status : KSTATUS),
      Status ∈ failedAccesses Body → KSUCCESS Status = false := by
  intro Body
  induction Body with
  | nil => intro Status h; simp [failedAccesses] at h
  | cons Step Rest ih =>
      intro Status h
      cases Step with
      | WriteData u =>
          simp only [failedAccesses] at h
          split at h
          · exact ih Status h
          · rcases List.mem_cons.mp h with h1 | h1
            · subst h1; simpa using ‹¬KSUCCESS Status = true›
            · exact ih Status h1
      | ReadData u =>
          simp only [failedAccesses] at h
          split at h
          · exact ih Status h
          · rcases List.mem_cons.mp h with h1 | h1
            · subst h1; simpa using ‹¬KSUCCESS Status = true›
            · exact ih Status h1
      | Checked s =>
          simp only [failedAccesses] at h
          split at h
          · exact ih Status h
          · simp at h

/-- The recorded status on arrival at `InitializeEnd`: a failure recorded on entry stays; a
success on entry is replaced by the status of the first failing access that is reached, if
there is one. -/
theorem runInitializeSteps_status :
    ∀ (Body : List INITIALIZE_STEP) (Status InitializationStatus : KSTATUS),
      (runInitializeSteps Body Status InitializationStatus).2 =
        if KSUCCESS InitializationStatus then
          (failedAccesses Body).headD InitializationStatus
        else InitializationStatus := by
  intro Body
  induction Body with
  | nil => intro Status I; simp [runInitializeSteps, failedAccesses]
  | cons Step Rest ih =>
      intro Status I
      cases Step with
      | WriteData u =>
          simp only [runInitializeSteps, failedAccesses, Rtlw81pWriteData]
          rw [ih]
          cases hu : KSUCCESS u <;> cases hi : KSUCCESS I <;> simp [hu, hi]
      | ReadData u =>
          simp only [runInitializeSteps, failedAccesses, Rtlw81pReadData]
          rw [ih]
          cases hu : KSUCCESS u <;> cases hi : KSUCCESS I <;> simp [hu, hi]
      | Checked s =>
          simp only [runInitializeSteps, failedAccesses]
          cases hs : KSUCCESS s
          · cases hi : KSUCCESS I <;> simp
          · simp only [Bool.not_true, Bool.false_eq_true, if_false, if_true]
            rw [ih]

/-- C12 (amended): whenever a register access made through `Rtlw81pReadData` or
`Rtlw81pWriteData` during a call to `Rtlw81pInitialize` fails, the call returns a failure
status and `Device->InitializationStatus` is a failure after the call. It is the status of the
first failing access of the call in phase 0, and in phase 1 when no failure was recorded on
entry; a failure recorded on entry to phase 1 is kept: the status is reset at the start of
phase 0 only, and no later failure overwrites it. -/
theorem Rtlw81pInitialize_failure_propagates (Device : INITIALIZE_DEVICE)
    (Body : List INITIALIZE_STEP) (failed : failedAccesses Body ≠ []) :
    KSUCCESS (Rtlw81pInitialize Device Body).1 = false ∧
      KSUCCESS (Rtlw81pInitialize Device Body).2.InitializationStatus = false ∧
      ((Device.InitializationPhase = 0 ∨ KSUCCESS Device.InitializationStatus = true) →
        some (Rtlw81pInitialize Device Body).2.InitializationStatus =
          (failedAccesses Body).head?) ∧
      (Device.InitializationPhase ≠ 0 → KSUCCESS Device.InitializationStatus = false →
        (Rtlw81pInitialize Device Body).2.InitializationStatus =
          Device.InitializationStatus) := by
  obtain ⟨First, Later, hlist⟩ := List.exists_cons_of_ne_nil failed
  have hfirst : KSUCCESS First = false :=
    failedAccesses_fail Body First (by rw [hlist]; exact List.mem_cons_self _ _)
  have hret : (Rtlw81pInitialize Device Body).1 =
      if KSUCCESS (runInitializeSteps Body KSTATUS.STATUS_SUCCESS
          (if Device.InitializationPhase = 0 then KSTATUS.STATUS_SUCCESS
            else Device.InitializationStatus)).1 then
        (runInitializeSteps Body KSTATUS.STATUS_SUCCESS
          (if Device.InitializationPhase = 0 then KSTATUS.STATUS_SUCCESS
            else Device.InitializationStatus)).2
      else
        (runInitializeSteps Body KSTATUS.STATUS_SUCCESS
          (if Device.InitializationPhase = 0 then KSTATUS.STATUS_SUCCESS
            else Device.InitializationStatus)).1 := rfl
  have hdev : (Rtlw81pInitialize Device Body).2.InitializationStatus =
      (runInitializeSteps Body KSTATUS.STATUS_SUCCESS
        (if Device.InitializationPhase = 0 then KSTATUS.STATUS_SUCCESS
          else Device.InitializationStatus)).2 := rfl
  have hE1 : (Device.InitializationPhase = 0 ∨ KSUCCESS Device.InitializationStatus = true) →
      KSUCCESS (if Device.InitializationPhase = 0 then KSTATUS.STATUS_SUCCESS
        else Device.InitializationStatus) = true := by
    intro h
    by_cases h0 : Device.InitializationPhase = 0
    · simp [h0, KSUCCESS]
    · rcases h with h | h
      · exact absurd h h0
      · simp [h0, h]
  have hE2 : Device.InitializationPhase ≠ 0 →
      (if Device.InitializationPhase = 0 then KSTATUS.STATUS_SUCCESS
        else Device.InitializationStatus) = Device.InitializationStatus := by
    intro h
    simp [h]
  have hrun := runInitializeSteps_status Body KSTATUS.STATUS_SUCCESS
    (if Device.InitializationPhase = 0 then KSTATUS.STATUS_SUCCESS
      else Device.InitializationStatus)
  rw [hlist, List.headD_cons] at hrun
  generalize (if Device.InitializationPhase = 0 then KSTATUS.STATUS_SUCCESS
      else Device.InitializationStatus) = Entry at hret hdev hE1 hE2 hrun
  generalize runInitializeSteps Body KSTATUS.STATUS_SUCCESS Entry = Ran at hret hdev hrun
  have hrecorded : KSUCCESS Ran.2 = false := by
    rw [hrun]
    cases hE : KSUCCESS Entry
    · simp [hE]
    · simp [hfirst]
  refine ⟨?_, ?_, ?_, ?_⟩
  · rw [hret]
    cases h1 : KSUCCESS Ran.1
    · simp [h1]
    · simp [hrecorded]
  · rw [hdev]
    exact hrecorded
  · intro hentry
    rw [hdev, hrun, hE1 hentry, hlist]
    simp
  · intro hphase hentry
    rw [hdev, hrun, hE2 hphase, hentry]
    simp

/-- Witness for C12 (amended): a phase 0 call whose second access fails with `STATUS_CODE 4`
and whose fourth access fails with `STATUS_CODE 9`; the call returns `STATUS_CODE 4` and
records it. -/
theorem Rtlw81pInitialize_failure_propagates_witness :
    failedAccesses
        [INITIALIZE_STEP.ReadData KSTATUS.STATUS_SUCCESS,
         INITIALIZE_STEP.WriteData (KSTATUS.STATUS_CODE 4),
         INITIALIZE_STEP.Checked KSTATUS.STATUS_SUCCESS,
         INITIALIZE_STEP.ReadData (KSTATUS.STATUS_CODE 9)] ≠ [] ∧
      Rtlw81pInitialize ⟨0, KSTATUS.STATUS_CODE 1⟩
        [INITIALIZE_STEP.ReadData KSTATUS.STATUS_SUCCESS,
         INITIALIZE_STEP.WriteData (KSTATUS.STATUS_CODE 4),
         INITIALIZE_STEP.Checked KSTATUS.STATUS_SUCCESS,
         INITIALIZE_STEP.ReadData (KSTATUS.STATUS_CODE 9)] =
        (KSTATUS.STATUS_CODE 4, ⟨1, KSTATUS.STATUS_CODE 4⟩) ∧
      KSUCCESS (Rtlw81pInitialize ⟨0, KSTATUS.STATUS_CODE 1⟩
        [INITIALIZE_STEP.ReadData KSTATUS.STATUS_SUCCESS,
         INITIALIZE_STEP.WriteData (KSTATUS.STATUS_CODE 4),
         INITIALIZE_STEP.Checked KSTATUS.STATUS_SUCCESS,
         INITIALIZE_STEP.ReadData (KSTATUS.STATUS_CODE 9)]).1 = false :=
  ⟨by decide, by decide,
   (Rtlw81pInitialize_failure_propagates ⟨0, KSTATUS.STATUS_CODE 1⟩
      [INITIALIZE_STEP.ReadData KSTATUS.STATUS_SUCCESS,
       INITIALIZE_STEP.WriteData (KSTATUS.STATUS_CODE 4),
       INITIALIZE_STEP.Checked KSTATUS.STATUS_SUCCESS,
       INITIALIZE_STEP.ReadData (KSTATUS.STATUS_CODE 9)] (by decide)).1⟩


/-- C12 (as stated, refuted): a phase 0 call in which one register write fails with
`STATUS_CODE 3` and no checked status fails leaves the device in phase 1 with `STATUS_CODE 3`
on record. The phase 1 call that follows, in which the one register write fails with
`STATUS_CODE 4`, returns a failure, but `Device->InitializationStatus` after it is
`STATUS_CODE 3`, not the status of the first failing access of the phase. -/
theorem Rtlw81pInitialize_phase_one_keeps_recorded_failure :
    (Rtlw81pInitialize ⟨0, KSTATUS.STATUS_SUCCESS⟩
        [INITIALIZE_STEP.WriteData (KSTATUS.STATUS_CODE 3)]).2 = ⟨1, KSTATUS.STATUS_CODE 3⟩ ∧
      failedAccesses [INITIALIZE_STEP.WriteData (KSTATUS.STATUS_CODE 4)] =
        [KSTATUS.STATUS_CODE 4] ∧
      Rtlw81pInitialize ⟨1, KSTATUS.STATUS_CODE 3⟩
          [INITIALIZE_STEP.WriteData (KSTATUS.STATUS_CODE 4)] =
        (KSTATUS.STATUS_CODE 3, ⟨1, KSTATUS.STATUS_CODE 3⟩) ∧
      (Rtlw81pInitialize ⟨1, KSTATUS.STATUS_CODE 3⟩
          [INITIALIZE_STEP.WriteData (KSTATUS.STATUS_CODE 4)]).2.InitializationStatus ≠
        KSTATUS.STATUS_CODE 4 := by
  refine ⟨by decide, by decide, by decide, by decide⟩

end Rtlw81

/-! ## Theorems: free-list invariant and transmit header checksum -/

namespace Rtlw81

/-- C19 (code defect): the invariant holds for a device with empty free lists, but when the
submission of the one packet of a list fails, `Rtlw81Send` leaves on the free list of endpoint
index 0 a transfer whose `Packet` still points to the packet it has released: after the call
the invariant is broken. -/
theorem Rtlw81Send_failed_submission_breaks_invariant :
    freeListsHoldNoPacket (sampleDevice 0) ∧
      ((Rtlw81Send (sampleKernel 9 0) 32 2048 false KSTATUS.STATUS_SUCCESS (sampleDevice 0)
        [samplePacket 1] 0).Device.BulkOutFreeTransferList 0).map
          (fun Transfer => Transfer.Packet.map (fun Packet => Packet.Address)) = [some 1] ∧
      released (Rtlw81Send (sampleKernel 9 0) 32 2048 false KSTATUS.STATUS_SUCCESS
        (sampleDevice 0) [samplePacket 1] 0).Trace =
          [some { samplePacket 1 with DataOffset := 0 }] ∧
      ¬ freeListsHoldNoPacket
        (Rtlw81Send (sampleKernel 9 0) 32 2048 false KSTATUS.STATUS_SUCCESS (sampleDevice 0)
          [samplePacket 1] 0).Device := by
  refine ⟨?_, by decide, by decide, ?_⟩
  · intro Index Transfer h
    simp [sampleDevice] at h
  · intro h
    have h1 := h 0
      { Address := 4096
        UsbTransfer := ⟨8193, 2, 132, 4096, 65536, 65536⟩
        Packet := some { samplePacket 1 with DataOffset := 0 }
        EndpointIndex := 0 } (by decide)
    simp at h1

/-- Allocation keeps the invariant, and the transfer it returns carries no packet. -/
theorem Rtlw81pAllocateBulkOutTransfer_keeps_invariant {κ : Type} (K : KERNEL κ) (M : Nat)
    (Device : RTLW81_DEVICE) (BulkOutType : RTLW81_BULK_OUT_TYPE) (Kernel : κ)
    (invariant : freeListsHoldNoPacket Device) :
    freeListsHoldNoPacket
        (Rtlw81pAllocateBulkOutTransfer K M Device BulkOutType Kernel).2.Device ∧
      ∀ Transfer, (Rtlw81pAllocateBulkOutTransfer K M Device BulkOutType Kernel).1 =
        some Transfer → Transfer.Packet = none := by
  cases hl : Device.BulkOutFreeTransferList (Device.BulkOutTypeEndpointIndex BulkOutType) with
  | cons T Rest =>
      have hT : T.Packet = none :=
        invariant _ T (by rw [hl]; exact List.mem_cons_self _ _)
      simp only [Rtlw81pAllocateBulkOutTransfer, hl]
      refine ⟨?_, ?_⟩
      · intro Index Transfer hmem
        by_cases hi : Index = Device.BulkOutTypeEndpointIndex BulkOutType
        · subst hi
          simp only [Function.update_same] at hmem
          exact invariant _ Transfer (by rw [hl]; exact List.mem_cons_of_mem _ hmem)
        · simp only [Function.update_noteq hi] at hmem
          exact invariant _ Transfer hmem
      · intro Transfer h
        simp only [Option.some.injEq] at h
        subst h
        exact hT
  | nil =>
      cases hp : (K.MmAllocatePagedPool Kernel).1 with
      | none =>
          simp only [Rtlw81pAllocateBulkOutTransfer, hl, hp]
          exact ⟨invariant, by simp⟩
      | some Allocation =>
          cases hu : (K.UsbAllocateTransfer (K.MmAllocatePagedPool Kernel).2
              (Device.BulkOutEndpoint (Device.BulkOutTypeEndpointIndex BulkOutType)) M).1 with
          | none =>
              simp only [Rtlw81pAllocateBulkOutTransfer, hl, hp, hu]
              exact ⟨invariant, by simp⟩
          | some Handle =>
              simp only [Rtlw81pAllocateBulkOutTransfer, hl, hp, hu]
              refine ⟨invariant, ?_⟩
              intro Transfer h
              simp only [Option.some.injEq] at h
              subst h
              rfl

/-- Completion keeps the invariant: the transfer goes back on its list with `Packet` set to
`NULL`. -/
theorem Rtlw81pBulkOutTransferCompletion_keeps_invariant {κ : Type} (K : KERNEL κ)
    (Device : RTLW81_DEVICE) (T : RTLW81_BULK_OUT_TRANSFER) (Kernel : κ)
    (invariant : freeListsHoldNoPacket Device) :
    freeListsHoldNoPacket (Rtlw81pBulkOutTransferCompletion K Device T Kernel).Device := by
  intro Index Transfer hmem
  simp only [Rtlw81pBulkOutTransferCompletion, Rtlw81pFreeBulkOutTransfer] at hmem
  by_cases hi : Index = T.EndpointIndex
  · subst hi
    simp only [Function.update_same, List.mem_cons] at hmem
    rcases hmem with h | h
    · subst h
      rfl
    · exact invariant _ Transfer h
  · simp only [Function.update_noteq hi] at hmem
    exact invariant _ Transfer hmem

theorem xorHeaderWords_cons (Word : Nat) (Rest : List Nat) :
    xorHeaderWords (Word :: Rest) = Word ^^^ xorHeaderWords Rest := by
  have key : ∀ (l : List Nat) (a : Nat),
      l.foldl (fun Checksum Word => Checksum ^^^ Word) a =
        a ^^^ l.foldl (fun Checksum Word => Checksum ^^^ Word) 0 := by
    intro l
    induction l with
    | nil => intro a; simp
    | cons w t ih =>
        intro a
        simp only [List.foldl_cons]
        rw [ih (a ^^^ w), ih (0 ^^^ w), Nat.zero_xor, Nat.xor_assoc]
  simp only [xorHeaderWords, List.foldl_cons]
  rw [key Rest (0 ^^^ Word), Nat.zero_xor]

theorem xorHeaderWords_lt :
    ∀ HeaderBuffer : List Nat, (∀ Word ∈ HeaderBuffer, Word < 2 ^ 16) →
      xorHeaderWords HeaderBuffer < 2 ^ 16 := by
  intro HeaderBuffer
  induction HeaderBuffer with
  | nil => intro _; simp [xorHeaderWords]
  | cons w t ih =>
      intro h
      rw [xorHeaderWords_cons]
      exact Nat.xor_lt_two_pow (h w (List.mem_cons_self _ _))
        (ih (fun x hx => h x (List.mem_cons_of_mem _ hx)))

/-- Replacing one word changes the fold by the old and the new word. -/
theorem xorHeaderWords_set :
    ∀ (HeaderBuffer : List Nat) (Index Word : Nat), Index < HeaderBuffer.length →
      xorHeaderWords (HeaderBuffer.set Index Word) =
        xorHeaderWords HeaderBuffer ^^^ HeaderBuffer.getD Index 0 ^^^ Word := by
  intro HeaderBuffer
  induction HeaderBuffer with
  | nil => intro Index Word h; simp at h
  | cons w t ih =>
      intro Index Word h
      cases Index with
      | zero =>
          simp only [List.set_cons_zero, xorHeaderWords_cons, List.getD_cons_zero]
          rw [Nat.xor_comm w (xorHeaderWords t), Nat.xor_assoc (xorHeaderWords t) w w,
            Nat.xor_self, Nat.xor_zero, Nat.xor_comm]
      | succ n =>
          simp only [List.set_cons_succ, xorHeaderWords_cons, List.getD_cons_succ]
          rw [ih n Word (by simpa using h), Nat.xor_assoc, Nat.xor_assoc, Nat.xor_assoc]

/-- Removing one word changes the fold by that word. -/
theorem xorHeaderWords_eraseIdx :
    ∀ (HeaderBuffer : List Nat) (Index : Nat), Index < HeaderBuffer.length →
      xorHeaderWords (HeaderBuffer.eraseIdx Index) =
        xorHeaderWords HeaderBuffer ^^^ HeaderBuffer.getD Index 0 := by
  intro HeaderBuffer
  induction HeaderBuffer with
  | nil => intro Index h; simp at h
  | cons w t ih =>
      intro Index h
      cases Index with
      | zero =>
          simp only [List.eraseIdx_cons_zero, xorHeaderWords_cons, List.getD_cons_zero]
          rw [Nat.xor_comm w (xorHeaderWords t), Nat.xor_assoc, Nat.xor_self, Nat.xor_zero]
      | succ n =>
          simp only [List.eraseIdx_cons_succ, xorHeaderWords_cons, List.getD_cons_succ]
          rw [ih n (by simpa using h), Nat.xor_assoc]

/-- C20: whatever the preceding field assignments left in the transmit header, once the
checksum block of `Rtlw81Send` has run the XOR of all sixteen-bit words of the header, the
stored `HeaderChecksum` included, is zero, and `HeaderChecksum` equals the XOR of all the
other header words; no other word of the header has changed. -/
theorem setHeaderChecksum_xor_is_zero (ChecksumIndex : Nat) (HeaderBuffer : List Nat)
    (inside : ChecksumIndex < HeaderBuffer.length)
    (words : ∀ Word ∈ HeaderBuffer, Word < 2 ^ 16) :
    xorHeaderWords (setHeaderChecksum ChecksumIndex HeaderBuffer) = 0 ∧
      (setHeaderChecksum ChecksumIndex HeaderBuffer).getD ChecksumIndex 0 =
        xorHeaderWords ((setHeaderChecksum ChecksumIndex HeaderBuffer).eraseIdx ChecksumIndex) ∧
      (setHeaderChecksum ChecksumIndex HeaderBuffer).length = HeaderBuffer.length ∧
      (∀ Index, Index ≠ ChecksumIndex →
        (setHeaderChecksum ChecksumIndex HeaderBuffer).getD Index 0 =
          HeaderBuffer.getD Index 0) := by
  have hlen : (HeaderBuffer.set ChecksumIndex 0).length = HeaderBuffer.length :=
    List.length_set _ _ _
  have hin : ChecksumIndex < (HeaderBuffer.set ChecksumIndex 0).length := by
    rw [hlen]
    exact inside
  have hcleared : (HeaderBuffer.set ChecksumIndex 0).getD ChecksumIndex 0 = 0 := by
    simp [List.getD_eq_getElem?_getD, List.getElem?_set, inside]
  have hwords : ∀ Word ∈ HeaderBuffer.set ChecksumIndex 0, Word < 2 ^ 16 := by
    intro Word hmem
    rcases List.mem_or_eq_of_mem_set hmem with h | h
    · exact words Word h
    · rw [h]
      exact Nat.pow_pos (by decide)
  have hmod : xorHeaderWords (HeaderBuffer.set ChecksumIndex 0) % 2 ^ 16 =
      xorHeaderWords (HeaderBuffer.set ChecksumIndex 0) :=
    Nat.mod_eq_of_lt (xorHeaderWords_lt _ hwords)
  have hstored : (setHeaderChecksum ChecksumIndex HeaderBuffer).getD ChecksumIndex 0 =
      xorHeaderWords (HeaderBuffer.set ChecksumIndex 0) := by
    simp only [setHeaderChecksum, hmod]
    simp [List.getD_eq_getElem?_getD, List.getElem?_set, inside]
  have hin2 : ChecksumIndex < (setHeaderChecksum ChecksumIndex HeaderBuffer).length := by
    simp [setHeaderChecksum, inside]
  have hzero : xorHeaderWords (setHeaderChecksum ChecksumIndex HeaderBuffer) = 0 := by
    simp only [setHeaderChecksum, hmod]
    rw [xorHeaderWords_set _ _ _ hin, hcleared, Nat.xor_zero, Nat.xor_self]
  refine ⟨hzero, ?_, by simp [setHeaderChecksum], ?_⟩
  · rw [xorHeaderWords_eraseIdx _ _ hin2, hzero, Nat.zero_xor]
  · intro Index hne
    simp [setHeaderChecksum, List.getD_eq_getElem?_getD, List.getElem?_set, Ne.symm hne]

/-- Witness for C20: a four-word header with the checksum in word 2. -/
theorem setHeaderChecksum_xor_is_zero_witness :
    2 < [0x0064, 0x2000, 0xFFFF, 0x8123].length ∧
      setHeaderChecksum 2 [0x0064, 0x2000, 0xFFFF, 0x8123] =
        [0x0064, 0x2000, 0xA147, 0x8123] ∧
      xorHeaderWords (setHeaderChecksum 2 [0x0064, 0x2000, 0xFFFF, 0x8123]) = 0 :=
  ⟨by decide, by decide,
   (setHeaderChecksum_xor_is_zero 2 [0x0064, 0x2000, 0xFFFF, 0x8123] (by decide)
      (by decide)).1⟩

/-- On the paths of the send loop where no submission fails the invariant is kept. -/
theorem sendLoop_keeps_invariant {κ : Type} (K : KERNEL κ) (H M : Nat)
    (submit : ∀ k t, KSUCCESS (K.UsbSubmitTransfer k t).1 = true) :
    ∀ (PacketList : List NET_PACKET_BUFFER) (Status : KSTATUS) (Device : RTLW81_DEVICE)
      (Kernel : κ) (Trace : List EVENT),
      freeListsHoldNoPacket Device →
      freeListsHoldNoPacket (sendLoop K H M Status Device Kernel Trace PacketList).Device := by
  intro PacketList
  induction PacketList with
  | nil =>
      intro Status Device Kernel Trace h
      simpa [sendLoop] using h
  | cons Head Rest ih =>
      intro Status Device Kernel Trace h
      simp only [sendLoop]
      generalize (if Head.FrameType = NET80211_FRAME_TYPE.NET80211_FRAME_TYPE_CONTROL ∨
          Head.FrameType = NET80211_FRAME_TYPE.NET80211_FRAME_TYPE_MANAGEMENT then
            RTLW81_BULK_OUT_TYPE.Rtlw81BulkOutVo
          else RTLW81_BULK_OUT_TYPE.Rtlw81BulkOutBe) = BulkOutType
      have hkeep :=
        (Rtlw81pAllocateBulkOutTransfer_keeps_invariant K M Device BulkOutType Kernel h).1
      cases ha : (Rtlw81pAllocateBulkOutTransfer K M Device BulkOutType Kernel).1 with
      | none => exact hkeep
      | some Allocation =>
          simp only [submit, if_true]
          exact ih _ _ _ _ hkeep

end Rtlw81

/-! ## Theorems: the packet-parsing loop of the bulk-in completion -/

namespace Rtlw81

/-- The loop is its body, iterated: with fuel left, the loop tests `PacketCount`, runs the
body once, logs the delivery if there was one, and goes on from the new locals unless the body
left the loop. -/
theorem parsePackets_succ (K : RECEIVE_CONSTANTS) (Memory : Nat → RTLW81_RECEIVE_HEADER)
    (NetworkLink fuel PacketCount Data PhysicalAddress Length : Nat)
    (Trace : List BULK_IN_EVENT) :
    parsePackets K Memory NetworkLink (fuel + 1) PacketCount Data PhysicalAddress Length Trace =
      if PacketCount = 0 then some Trace
      else
        match parseIteration K Memory ⟨Data, PhysicalAddress, Length⟩ with
        | (none, _) => some Trace
        | (some Packet, none) =>
            some (Trace ++ [BULK_IN_EVENT.NetProcessReceivedPacket NetworkLink Packet])
        | (some Packet, some Next) =>
            parsePackets K Memory NetworkLink fuel PacketCount Next.Data Next.PhysicalAddress
              Next.Length
              (Trace ++ [BULK_IN_EVENT.NetProcessReceivedPacket NetworkLink Packet]) := by
  simp only [parsePackets, parseIteration]
  split
  · rfl
  split
  · rfl
  split
  · rfl
  split
  · rfl
  split
  · rfl
  split <;> rfl

/-- What the body of the loop guarantees when the constants are well sized: a delivered
packet is not empty and, with its header and its info bytes, fits in the remaining length; the
locals move on by an advance that is positive and below the remaining length; and the body
moves on only after a delivery. -/
theorem parseIteration_facts (K : RECEIVE_CONSTANTS) (sized : K.wellSized)
    (Memory : Nat → RTLW81_RECEIVE_HEADER) (Locals : PARSE_LOCALS) :
    (∀ Packet, (parseIteration K Memory Locals).1 = some Packet →
      ∃ InfoSize : Nat,
        Packet.Buffer = Locals.Data + K.HeaderSize + InfoSize ∧
        Packet.BufferPhysicalAddress = Locals.PhysicalAddress + K.HeaderSize + InfoSize ∧
        K.HeaderSize + InfoSize + Packet.BufferSize ≤ Locals.Length ∧
        0 < Packet.BufferSize) ∧
    (∀ Next, (parseIteration K Memory Locals).2 = some Next →
      ∃ Advance : Nat,
        0 < Advance ∧ Advance < Locals.Length ∧
        Next.Data = Locals.Data + Advance ∧
        Next.PhysicalAddress = Locals.PhysicalAddress + Advance ∧
        Next.Length = Locals.Length - Advance) ∧
    ((parseIteration K Memory Locals).1 = none → (parseIteration K Memory Locals).2 = none) := by
  obtain ⟨hH, hA, hsum⟩ := sized
  have hPL := masked_field_le (Memory Locals.Data).LengthAndErrorFlags
    K.RTLW81_RECEIVE_PACKET_LENGTH_MASK K.RTLW81_RECEIVE_PACKET_LENGTH_SHIFT
  have hIS := masked_field_le (Memory Locals.Data).Status
    K.RTLW81_RECEIVE_STATUS_INFO_SIZE_MASK K.RTLW81_RECEIVE_STATUS_INFO_SIZE_SHIFT
  simp only [parseIteration]
  generalize ((Memory Locals.Data).LengthAndErrorFlags &&&
    K.RTLW81_RECEIVE_PACKET_LENGTH_MASK) >>> K.RTLW81_RECEIVE_PACKET_LENGTH_SHIFT = PL
    at hPL ⊢
  generalize ((Memory Locals.Data).Status &&&
    K.RTLW81_RECEIVE_STATUS_INFO_SIZE_MASK) >>> K.RTLW81_RECEIVE_STATUS_INFO_SIZE_SHIFT = IS
    at hIS ⊢
  have hI : IS * 8 % 2 ^ 32 = IS * 8 := Nat.mod_eq_of_lt (by omega)
  have hT : (PL + IS * 8 + K.HeaderSize) % 2 ^ 32 = PL + IS * 8 + K.HeaderSize :=
    Nat.mod_eq_of_lt (by omega)
  obtain ⟨hlo, hhi⟩ := ALIGN_RANGE_UP_bounds (PL + IS * 8 + K.HeaderSize)
    K.RTLW81_BULK_IN_PACKET_ALIGNMENT hA
  have hAl : ALIGN_RANGE_UP (PL + IS * 8 + K.HeaderSize)
      K.RTLW81_BULK_IN_PACKET_ALIGNMENT % 2 ^ 32 =
        ALIGN_RANGE_UP (PL + IS * 8 + K.HeaderSize)
          K.RTLW81_BULK_IN_PACKET_ALIGNMENT := Nat.mod_eq_of_lt (by omega)
  rw [hI, hT, hAl]
  split
  · simp
  split
  · simp
  split
  · simp
  split
  · simp
  · rename_i h1 h2 h3 h4
    split
    · refine ⟨?_, by simp, by simp⟩
      intro Packet hp
      simp only [Option.some.injEq] at hp
      subst hp
      exact ⟨IS * 8, rfl, rfl, by simp only; omega, by simp only; omega⟩
    · rename_i h5
      refine ⟨?_, ?_, by simp⟩
      · intro Packet hp
        simp only [Option.some.injEq] at hp
        subst hp
        exact ⟨IS * 8, rfl, rfl, by simp only; omega, by simp only; omega⟩
      · intro Next hn
        simp only [Option.some.injEq] at hn
        subst hn
        exact ⟨_, by omega, by omega, rfl, rfl, rfl⟩

/-- Every packet the loop delivers was either delivered before the loop was entered or lies,
with its header and its info bytes, inside the `Length` bytes at `Data`. -/
theorem parsePackets_delivers_inside (K : RECEIVE_CONSTANTS) (sized : K.wellSized)
    (Memory : Nat → RTLW81_RECEIVE_HEADER) (NetworkLink : Nat) :
    ∀ (fuel PacketCount Data PhysicalAddress Length : Nat) (Trace Result : List BULK_IN_EVENT),
      parsePackets K Memory NetworkLink fuel PacketCount Data PhysicalAddress Length Trace =
        some Result →
      ∀ Packet ∈ delivered Result,
        Packet ∈ delivered Trace ∨
        ∃ Offset InfoSize : Nat,
          Packet.Buffer = Data + Offset + K.HeaderSize + InfoSize ∧
          Packet.BufferPhysicalAddress = PhysicalAddress + Offset + K.HeaderSize + InfoSize ∧
          Offset + K.HeaderSize + InfoSize + Packet.BufferSize ≤ Length ∧
          0 < Packet.BufferSize := by
  intro fuel
  induction fuel with
  | zero =>
      intro PacketCount Data PhysicalAddress Length Trace Result h Packet hmem
      simp only [parsePackets] at h
      split at h
      · simp only [Option.some.injEq] at h
        subst h
        exact Or.inl hmem
      · cases h
  | succ n ih =>
      intro PacketCount Data PhysicalAddress Length Trace Result h Packet hmem
      rw [parsePackets_succ] at h
      obtain ⟨hdel, hadv, hnone⟩ :=
        parseIteration_facts K sized Memory ⟨Data, PhysicalAddress, Length⟩
      split at h
      · simp only [Option.some.injEq] at h
        subst h
        exact Or.inl hmem
      · rcases hit : parseIteration K Memory ⟨Data, PhysicalAddress, Length⟩ with ⟨pk, nx⟩
        rw [hit] at h hdel hadv
        cases pk with
        | none =>
            simp only [Option.some.injEq] at h
            subst h
            exact Or.inl hmem
        | some First =>
            obtain ⟨Info, hb, hp, hfit, hpos⟩ := hdel First rfl
            have hfirst : ∃ Offset InfoSize : Nat,
                First.Buffer = Data + Offset + K.HeaderSize + InfoSize ∧
                First.BufferPhysicalAddress =
                  PhysicalAddress + Offset + K.HeaderSize + InfoSize ∧
                Offset + K.HeaderSize + InfoSize + First.BufferSize ≤ Length ∧
                0 < First.BufferSize :=
              ⟨0, Info, by simpa using hb, by simpa using hp, by simpa using hfit, hpos⟩
            cases nx with
            | none =>
                simp only [Option.some.injEq] at h
                subst h
                simp only [delivered_append, delivered, List.mem_append,
                  List.mem_singleton] at hmem
                rcases hmem with hm | hm
                · exact Or.inl hm
                · subst hm
                  exact Or.inr hfirst
            | some Next =>
                obtain ⟨Advance, _, hlt, hd, hph, hl⟩ := hadv Next rfl
                simp only at h hd hph hl
                rcases ih _ _ _ _ _ _ h Packet hmem with hm | ⟨Offset, InfoSize, h1, h2, h3, h4⟩
                · simp only [delivered_append, delivered, List.mem_append,
                    List.mem_singleton] at hm
                  rcases hm with hm | hm
                  · exact Or.inl hm
                  · subst hm
                    exact Or.inr hfirst
                · refine Or.inr ⟨Advance + Offset, InfoSize, ?_, ?_, ?_, h4⟩
                  · rw [h1, hd]
                    omega
                  · rw [h2, hph]
                    omega
                  · rw [hl] at h3
                    omega

theorem sampleReceiveConstants_wellSized : sampleReceiveConstants.wellSized := by
  refine ⟨by decide, by decide, ?_⟩
  simp [sampleReceiveConstants, Nat.shiftRight_eq_div_pow]

/-- C21: for every buffer content and every transferred length,
`Rtlw81BulkInTransferCompletion` returns, and each packet it hands to
`NetProcessReceivedPacket` lies wholly inside the received data: its receive header starts
`Offset` bytes into the buffer, and header, info bytes and payload together end at or before
`Transfer->LengthTransferred`; its size is not zero. -/
theorem Rtlw81BulkInTransferCompletion_delivers_inside (K : RECEIVE_CONSTANTS)
    (Memory : Nat → RTLW81_RECEIVE_HEADER) (Device : RECEIVE_DEVICE) (fuel : Nat)
    (Transfer : BULK_IN_TRANSFER) (sized : K.wellSized)
    (enough : Transfer.LengthTransferred < fuel) :
    ∃ Trace : List BULK_IN_EVENT,
      Rtlw81BulkInTransferCompletion K Memory Device fuel Transfer = some Trace ∧
      ∀ Packet ∈ delivered Trace,
        ∃ Offset InfoSize : Nat,
          Packet.Buffer = Transfer.Buffer + Offset + K.HeaderSize + InfoSize ∧
          Packet.BufferPhysicalAddress =
            Transfer.BufferPhysicalAddress + Offset + K.HeaderSize + InfoSize ∧
          Offset + K.HeaderSize + InfoSize + Packet.BufferSize ≤ Transfer.LengthTransferred ∧
          0 < Packet.BufferSize := by
  cases hs : KSUCCESS Transfer.Status with
  | false =>
      by_cases he : Transfer.Error = USB_ERROR.UsbErrorTransferStalled
      · refine ⟨_, by simp only [Rtlw81BulkInTransferCompletion, hs, he]; rfl, ?_⟩
        intro Packet hmem
        simp [delivered] at hmem
      · refine ⟨_, by simp only [Rtlw81BulkInTransferCompletion, hs, he]; rfl, ?_⟩
        intro Packet hmem
        simp [delivered] at hmem
  | true =>
      by_cases hl : Transfer.LengthTransferred < K.HeaderSize
      · refine ⟨_, by simp only [Rtlw81BulkInTransferCompletion, hs, hl]; rfl, ?_⟩
        intro Packet hmem
        simp [delivered] at hmem
      · obtain ⟨Packets, hp⟩ := parsePackets_terminates K sized Memory Device.NetworkLink fuel
          (Memory Transfer.Buffer).PacketCount Transfer.Buffer Transfer.BufferPhysicalAddress
          Transfer.LengthTransferred [] enough
        refine ⟨_, by simp only [Rtlw81BulkInTransferCompletion, hs, hl, hp]; rfl, ?_⟩
        intro Packet hmem
        simp only [delivered_append, delivered, List.append_nil] at hmem
        rcases parsePackets_delivers_inside K sized Memory Device.NetworkLink fuel _ _ _ _ _ _
          hp Packet hmem with h | h
        · simp [delivered] at h
        · exact h

/-- Witness for C21: 300 received bytes holding 100 byte packets; two packets are delivered,
at offsets 24 and 152 of the buffer. -/
theorem Rtlw81BulkInTransferCompletion_delivers_inside_witness :
    sampleReceiveConstants.wellSized ∧
      (Rtlw81BulkInTransferCompletion sampleReceiveConstants sampleMemory sampleReceiveDevice
          301 (sampleBulkInTransfer KSTATUS.STATUS_SUCCESS USB_ERROR.UsbErrorNone 300)).map
        (fun Trace => (delivered Trace).map
          (fun Packet => (Packet.Buffer - 65536, Packet.BufferSize))) =
        some [(24, 100), (152, 100)] ∧
      ∃ Trace : List BULK_IN_EVENT,
        Rtlw81BulkInTransferCompletion sampleReceiveConstants sampleMemory sampleReceiveDevice
            301 (sampleBulkInTransfer KSTATUS.STATUS_SUCCESS USB_ERROR.UsbErrorNone 300) =
          some Trace ∧
        ∀ Packet ∈ delivered Trace, 0 < Packet.BufferSize :=
  ⟨sampleReceiveConstants_wellSized, by decide,
   by
    obtain ⟨Trace, h1, h2⟩ := Rtlw81BulkInTransferCompletion_delivers_inside
      sampleReceiveConstants sampleMemory sampleReceiveDevice 301
      (sampleBulkInTransfer KSTATUS.STATUS_SUCCESS USB_ERROR.UsbErrorNone 300)
      sampleReceiveConstants_wellSized (by decide)
    refine ⟨Trace, h1, ?_⟩
    intro Packet hmem
    obtain ⟨_, _, _, _, _, hpos⟩ := h2 Packet hmem
    exact hpos⟩

/-- C22: the packet-parsing loop of `Rtlw81BulkInTransferCompletion` terminates for every
buffer content and every `PacketCount` that is not zero, within `Length + 1` passes through its
body, although `PacketCount` is never written: every pass through the body that does not leave
the loop moves on with a remaining length strictly below the one it started with. -/
theorem parsePackets_terminates_by_length (K : RECEIVE_CONSTANTS)
    (Memory : Nat → RTLW81_RECEIVE_HEADER) (NetworkLink : Nat) (sized : K.wellSized) :
    (∀ (fuel PacketCount Data PhysicalAddress Length : Nat) (Trace : List BULK_IN_EVENT),
      PacketCount ≠ 0 → Length < fuel →
      ∃ Result : List BULK_IN_EVENT,
        parsePackets K Memory NetworkLink fuel PacketCount Data PhysicalAddress Length Trace =
          some Result) ∧
    (∀ (fuel PacketCount Data PhysicalAddress Length : Nat) (Trace : List BULK_IN_EVENT)
        (Packet : RECEIVED_PACKET) (Next : PARSE_LOCALS),
      PacketCount ≠ 0 →
      parseIteration K Memory ⟨Data, PhysicalAddress, Length⟩ = (some Packet, some Next) →
      Next.Length < Length ∧
      parsePackets K Memory NetworkLink (fuel + 1) PacketCount Data PhysicalAddress Length
          Trace =
        parsePackets K Memory NetworkLink fuel PacketCount Next.Data Next.PhysicalAddress
          Next.Length (Trace ++ [BULK_IN_EVENT.NetProcessReceivedPacket NetworkLink Packet])) ∧
    (∀ (Locals Next : PARSE_LOCALS),
      (parseIteration K Memory Locals).2 = some Next → Next.Length < Locals.Length) := by
  have hdecrease : ∀ (Locals Next : PARSE_LOCALS),
      (parseIteration K Memory Locals).2 = some Next → Next.Length < Locals.Length := by
    intro Locals Next h
    obtain ⟨Advance, hpos, hlt, _, _, hl⟩ :=
      (parseIteration_facts K sized Memory Locals).2.1 Next h
    rw [hl]
    omega
  refine ⟨?_, ?_, hdecrease⟩
  · intro fuel PacketCount Data PhysicalAddress Length Trace _ hlt
    obtain ⟨Packets, hp⟩ := parsePackets_terminates K sized Memory NetworkLink fuel PacketCount
      Data PhysicalAddress Length Trace hlt
    exact ⟨_, hp⟩
  · intro fuel PacketCount Data PhysicalAddress Length Trace Packet Next hpc hit
    refine ⟨hdecrease ⟨Data, PhysicalAddress, Length⟩ Next (by rw [hit]), ?_⟩
    rw [parsePackets_succ, if_neg hpc, hit]

/-- Witness for C22: on 600 bytes of 100 byte packets and a packet count of 2 the loop is left
after five passes, and the first pass moves the remaining length from 600 to 472. -/
theorem parsePackets_terminates_by_length_witness :
    sampleReceiveConstants.wellSized ∧
      (parsePackets sampleReceiveConstants sampleMemory 7 5 2 65536 65536 600 []).isSome =
        true ∧
      parseIteration sampleReceiveConstants sampleMemory ⟨65536, 65536, 600⟩ =
        (some ⟨65560, 65560, 100, 100, 0, 100⟩, some ⟨65664, 65664, 472⟩) ∧
      ∃ Result : List BULK_IN_EVENT,
        parsePackets sampleReceiveConstants sampleMemory 7 601 2 65536 65536 600 [] =
          some Result :=
  ⟨sampleReceiveConstants_wellSized, by decide, by decide,
   (parsePackets_terminates_by_length sampleReceiveConstants sampleMemory 7
      sampleReceiveConstants_wellSized).1 601 2 65536 65536 600 [] (by decide) (by decide)⟩

/-- C23 (code defect): for a transfer of 600 bytes in which every receive header announces a
100 byte packet and the first header has `PacketCount = 2`,
`Rtlw81BulkInTransferCompletion` delivers four packets: `PacketCount` is tested against zero
and never counted down. -/
theorem Rtlw81BulkInTransferCompletion_delivers_more_than_PacketCount :
    (sampleMemory (sampleBulkInTransfer KSTATUS.STATUS_SUCCESS USB_ERROR.UsbErrorNone
        600).Buffer).PacketCount = 2 ∧
      (Rtlw81BulkInTransferCompletion sampleReceiveConstants sampleMemory sampleReceiveDevice
          601 (sampleBulkInTransfer KSTATUS.STATUS_SUCCESS USB_ERROR.UsbErrorNone 600)).map
        (fun Trace => (delivered Trace).map
          (fun Packet => (Packet.Buffer - 65536, Packet.BufferSize))) =
        some [(24, 100), (152, 100), (280, 100), (408, 100)] ∧
      (Rtlw81BulkInTransferCompletion sampleReceiveConstants sampleMemory sampleReceiveDevice
          601 (sampleBulkInTransfer KSTATUS.STATUS_SUCCESS USB_ERROR.UsbErrorNone 600)).map
        (fun Trace => (delivered Trace).length) = some 4 := by
  refine ⟨by decide, by decide, by decide⟩

end Rtlw81
